import Mathlib

/-!
# Profile selection of realsense2_camera (profile_manager.cpp)

A shallow embedding of `ProfilesManager`, `VideoProfilesManager`,
`MotionProfilesManager` and `PoseProfilesManager`, followed by theorems about
profile selection.

Conventions of the embedding:
* C++ enums (`rs2_stream`, `rs2_format`) are their underlying integers;
* `std::map` is a key-sorted association list, with `operator[]`, `at`,
  `emplace` and `find` as separate operations;
* `std::out_of_range` is the only exception raised in the file and is carried
  by `Except Exn`; the accessors of librealsense are total;
* a `double` is represented by the value it denotes.
-/

namespace realsense2_camera

/-! ## Scalars -/

/-- The C enum `rs2_stream`, as its underlying integer. -/
abbrev rs2_stream := Nat

/-- The C enum `rs2_format`, as its underlying integer. -/
abbrev rs2_format := Nat

/-- Enumerator `RS2_STREAM_DEPTH` of librealsense. -/
def RS2_STREAM_DEPTH : rs2_stream := 1

/-- Enumerator `RS2_STREAM_INFRARED` of librealsense. -/
def RS2_STREAM_INFRARED : rs2_stream := 3

/-- Enumerator `RS2_FORMAT_Z16` of librealsense. -/
def RS2_FORMAT_Z16 : rs2_format := 1

/-- Enumerator `RS2_FORMAT_Y8` of librealsense. -/
def RS2_FORMAT_Y8 : rs2_format := 9

/-- The type `stream_index_pair`, a `std::pair<rs2_stream, int>`. -/
abbrev stream_index_pair := rs2_stream × Int

/-- A C++ `double`, by the value it denotes. Both zeroes denote `finite 0`. -/
inductive Double where
  | finite (q : ℚ)
  | inf (negative : Bool)
  | nan
deriving DecidableEq

/-- The value `0.0`, which is also a value-initialised `double`. -/
def Double.zero : Double := Double.finite 0

/-- Conversion `int -> double` (exact for a 32-bit `int`). -/
def Double.ofInt (n : Int) : Double := Double.finite (n : ℚ)

/-- The comparison `n == d` of an `int` with a `double`: the `int` is converted
and the values compared; infinities and NaN equal no `int`. -/
def Double.eqInt (d : Double) (n : Int) : Bool :=
  match d with
  | Double.finite q => decide (q = (n : ℚ))
  | _ => false

/-! ## std::map and std::set -/

/-- Strict order used by `std::less` on a key type. -/
class KeyLess (K : Type) where
  less : K → K → Bool

instance : KeyLess rs2_stream := ⟨fun a b => decide (a < b)⟩

/-- Lexicographic `operator<` of `std::pair`. -/
def sip_less (a b : stream_index_pair) : Bool :=
  decide (a.1 < b.1) || (decide (a.1 = b.1) && decide (a.2 < b.2))

instance : KeyLess stream_index_pair := ⟨sip_less⟩

/-- Exceptions raised in profile_manager.cpp. -/
inductive Exn where
  | out_of_range
deriving DecidableEq

/-- A `std::map<K, V>`: its entries in iteration (ascending key) order. -/
abbrev StdMap (K V : Type) := List (K × V)

namespace StdMap

variable {K V : Type} [DecidableEq K] [KeyLess K]

/-- The operation `m.find(k)`: the mapped value, `none` standing for `end()`. -/
def find : StdMap K V → K → Option V
  | [], _ => none
  | (k1, v) :: rest, k => if k1 = k then some v else find rest k

/-- Store `v` under `k`: overwrite the entry of `k`, or insert a new entry at
its place in key order. -/
def put : StdMap K V → K → V → StdMap K V
  | [], k, v => [(k, v)]
  | (k1, v1) :: rest, k, v =>
    if k1 = k then (k, v) :: rest
    else if KeyLess.less k k1 then (k, v) :: (k1, v1) :: rest
    else (k1, v1) :: put rest k v

/-- The operation `m[k]` read as an rvalue: the mapped value, and the map, in which an absent
key has been inserted with the value-initialised `dflt`. -/
def index (m : StdMap K V) (k : K) (dflt : V) : V × StdMap K V :=
  match m.find k with
  | some v => (v, m)
  | none => (dflt, m.put k dflt)

/-- The operation `m[k] = v`. -/
def assign (m : StdMap K V) (k : K) (v : V) : StdMap K V := m.put k v

/-- The operation `m.at(k)`: throws `std::out_of_range` when `k` is absent. -/
def lookup_at (m : StdMap K V) (k : K) : Except Exn V :=
  match m.find k with
  | some v => Except.ok v
  | none => Except.error Exn.out_of_range

/-- The operation `m.emplace(std::make_pair(k, v))`: no effect when `k` is present. -/
def emplace (m : StdMap K V) (k : K) (v : V) : StdMap K V :=
  match m.find k with
  | some _ => m
  | none => m.put k v

/-- The operation `m.empty()`. -/
def empty (m : StdMap K V) : Bool := m.isEmpty

end StdMap

/-- A `std::set<K>`: its elements in ascending order. -/
abbrev StdSet (K : Type) := List K

/-- The operation `s.insert(k)`. -/
def StdSet.insert {K : Type} [DecidableEq K] [KeyLess K] : StdSet K → K → StdSet K
  | [], k => [k]
  | k1 :: rest, k =>
    if k1 = k then k1 :: rest
    else if KeyLess.less k k1 then k :: k1 :: rest
    else k1 :: StdSet.insert rest k

/-! ## Stream profiles -/

/-- The librealsense class a profile handle can be viewed as with
`is<T>()` / `as<T>()`. -/
inductive ProfileKind where
  | video_stream_profile
  | motion_stream_profile
  | pose_stream_profile
  | other
deriving DecidableEq, Repr

/-- What a `rs2::stream_profile` that holds a profile exposes. `width` and
`height` are read only after `as<rs2::video_stream_profile>()`. -/
structure Profile where
  kind : ProfileKind
  stream_type : rs2_stream
  stream_index : Int
  format : rs2_format
  fps : Int
  is_default : Bool
  width : Int
  height : Int
deriving DecidableEq, Repr

/-- A `rs2::stream_profile` object: `none` is the default-constructed object,
which holds no profile. The catalog only stores profiles that passed an
`is<T>()` filter, so its elements are of type `Profile`. -/
abbrev stream_profile := Option Profile

/-- The pair `stream_index_pair sip(profile.stream_type(), profile.stream_index())`. -/
def Profile.sip (p : Profile) : stream_index_pair := (p.stream_type, p.stream_index)

/-- The test `profile.is<T>()`. -/
def Profile.is_a (p : Profile) (k : ProfileKind) : Bool := decide (p.kind = k)

/-- An entry of the result holds a profile of stream key `k`. -/
def stream_profile.hasKey (k : stream_index_pair) (x : stream_profile) : Bool :=
  match x with
  | some p => decide (p.sip = k)
  | none => false

/-! ## What the file takes from outside -/

/-- Functions, macros and constants that profile_manager.cpp uses and that are
defined elsewhere (librealsense, ros_utils, constants.h, profile_manager.h). -/
structure Externals where
  /-- The function `rs2_stream_to_string`. -/
  rs2_stream_to_string : rs2_stream → String
  /-- Stream insertion `<<` of a `rs2_format`. -/
  rs2_format_to_string : rs2_format → String
  /-- Stream insertion `<<` of a `double`. -/
  double_to_string : Double → String
  /-- The macro `STREAM_NAME(sip)`. -/
  STREAM_NAME : stream_index_pair → String
  /-- The function `create_graph_resource_name`. -/
  create_graph_resource_name : String → String
  /-- The values the accessors of a default-constructed `rs2::stream_profile` return. -/
  default_constructed : Profile
  /-- The constant `IMAGE_WIDTH`. -/
  IMAGE_WIDTH : Int
  /-- The constant `IMAGE_HEIGHT`. -/
  IMAGE_HEIGHT : Int
  /-- The constant `IMAGE_FPS`. -/
  IMAGE_FPS : Int
  /-- The override of `wanted_profile_string` that a `PoseProfilesManager` uses. -/
  pose_wanted_profile_string : stream_index_pair → String

/-! ## Logging -/

/-- Severity of a log statement. -/
inductive Severity where
  | debug
  | warn
deriving DecidableEq, Repr

/-- One `ROS_DEBUG_STREAM` / `ROS_WARN_STREAM` statement. `about` is the stream
key that was being handled when the statement ran; it is bookkeeping of the
embedding and not part of the text. -/
structure LogEntry where
  severity : Severity
  about : stream_index_pair
  text : String
deriving DecidableEq, Repr

/-- The warnings in a log that were emitted for stream key `k`. -/
def warningsFor (k : stream_index_pair) (log : List LogEntry) : List LogEntry :=
  log.filter (fun e => decide (e.severity = Severity.warn) && decide (e.about = k))

/-- Embedding of `ProfilesManager::profile_string`. On a default-constructed
profile `is<>()` is read as returning false; `profile_string_call` leaves open
what that call does. -/
def profile_string (lib : Externals) (profile : stream_profile) : String :=
  let p := profile.getD lib.default_constructed
  if profile.any (fun q => q.is_a ProfileKind.video_stream_profile) then
    "stream_type: " ++ lib.rs2_stream_to_string p.stream_type ++ "(" ++ toString p.stream_index ++ ")" ++
      ", Format: " ++ lib.rs2_format_to_string p.format ++
      ", Width: " ++ toString p.width ++
      ", Height: " ++ toString p.height ++
      ", FPS: " ++ toString p.fps
  else
    "stream_type: " ++ lib.rs2_stream_to_string p.stream_type ++ "(" ++ toString p.stream_index ++ ")" ++
      "Format: " ++ lib.rs2_format_to_string p.format ++
      ", FPS: " ++ toString p.fps

/-! ## The parameter registry -/

/-- A value held by a ROS parameter. -/
inductive ParamValue where
  | bool (b : Bool)
  | int (n : Int)
  | double (d : Double)
deriving DecidableEq

/-- The member a parameter is bound to by `setParamT`. -/
inductive Cell where
  | enabled_profiles (sip : stream_index_pair)
  | fps_of (sip : stream_index_pair)
  | width
  | height
  | fps
deriving DecidableEq

/-- The body of the callback given to `setParamT`. -/
inductive OnChange where
  | update_sensor_func
  | warn_reenable
deriving DecidableEq

/-- One call of `setParamT`. -/
structure ParamDecl where
  name : String
  initial_value : ParamValue
  cell : Cell
  on_change : OnChange
deriving DecidableEq

/-- The object behind `_params.getParameters()`: the values configured from
outside, and the declarations made so far, oldest first.
`update_sensor_func_calls` counts the calls of `update_sensor_func` that the
callbacks kept by the registry have made; it is bookkeeping of the embedding. -/
structure Parameters where
  configured : List (String × ParamValue)
  declared : List ParamDecl
  update_sensor_func_calls : Nat
deriving DecidableEq

/-- Modelled from the spec: `Parameters::setParamT`, defined outside
profile_manager.cpp ("declareAndBind(name, defaultValue, boundCell, onChange)
must call back synchronously with the resolved initial value into boundCell").
The resolved value is the configured one when the name is configured, and the
given initial value otherwise; the declaration is recorded. -/
def Parameters.setParamT (ps : Parameters) (d : ParamDecl) : ParamValue × Parameters :=
  (((ps.configured.find? (fun c => decide (c.1 = d.name))).map Prod.snd).getD d.initial_value,
    { ps with declared := ps.declared ++ [d] })

/-- Replace the first `%s` of `fmt` by `arg`, as `sprintf(buf, fmt, arg)` does
for a format with one `%s` directive and no other directive. -/
def sprintf_chars : List Char → List Char → List Char
  | [], _ => []
  | [c], _ => [c]
  | c :: d :: rest, arg =>
    if c = '%' ∧ d = 's' then arg ++ rest else c :: sprintf_chars (d :: rest) arg

/-- The call `sprintf(param_name, template_name.c_str(), stream_name.c_str())`. -/
def sprintf (template_name stream_name : String) : String :=
  String.mk (sprintf_chars template_name.toList stream_name.toList)

/-! ## The selectors -/

/-- Data members of `ProfilesManager`. -/
structure ProfilesManager where
  _params : Parameters
  _all_profiles : List Profile
  _enabled_profiles : StdMap stream_index_pair Bool

/-- Data members of `VideoProfilesManager`. -/
structure VideoProfilesManager extends ProfilesManager where
  _module_name : String
  _allowed_formats : StdMap rs2_stream rs2_format
  _fps : Int
  _width : Int
  _height : Int
  _is_profile_exist : Bool

/-- Data members of `MotionProfilesManager`. -/
structure MotionProfilesManager extends ProfilesManager where
  _fps : StdMap stream_index_pair Double

/-- Data members of `PoseProfilesManager`: the base members and the map `_fps`
that its `registerProfileParameters` fills. -/
structure PoseProfilesManager extends ProfilesManager where
  _fps : StdMap stream_index_pair Double

/-- Embedding of `ProfilesManager::ProfilesManager`. -/
def ProfilesManager.new (parameters : Parameters) : ProfilesManager :=
  { _params := parameters, _all_profiles := [], _enabled_profiles := [] }

/-- Embedding of `VideoProfilesManager::VideoProfilesManager`. The members that the
constructor leaves unset (`_fps`, `_width`, `_height`, `_is_profile_exist`)
start from the given values. -/
def VideoProfilesManager.new (parameters : Parameters) (module_name : String)
    (fps width height : Int) (is_profile_exist : Bool) : VideoProfilesManager :=
  { toProfilesManager := ProfilesManager.new parameters
    _module_name := module_name
    _allowed_formats :=
      (StdMap.assign (StdMap.assign [] RS2_STREAM_DEPTH RS2_FORMAT_Z16)
        RS2_STREAM_INFRARED RS2_FORMAT_Y8)
    _fps := fps
    _width := width
    _height := height
    _is_profile_exist := is_profile_exist }

/-- Constructor of `MotionProfilesManager`. -/
def MotionProfilesManager.new (parameters : Parameters) : MotionProfilesManager :=
  { toProfilesManager := ProfilesManager.new parameters, _fps := [] }

/-- Constructor of `PoseProfilesManager`. -/
def PoseProfilesManager.new (parameters : Parameters) : PoseProfilesManager :=
  { toProfilesManager := ProfilesManager.new parameters, _fps := [] }

/-- Embedding of `ProfilesManager::isTypeExist`. -/
def ProfilesManager.isTypeExist (self : ProfilesManager) : Bool :=
  !(StdMap.empty self._enabled_profiles)

/-- Embedding of `VideoProfilesManager::isTypeExist`. -/
def VideoProfilesManager.isTypeExist (self : VideoProfilesManager) : Bool :=
  self._is_profile_exist

/-- Embedding of `VideoProfilesManager::wanted_profile_string`. -/
def VideoProfilesManager.wanted_profile_string (lib : Externals)
    (self : VideoProfilesManager) (sip : stream_index_pair) : String :=
  lib.STREAM_NAME sip ++ " with width: " ++ toString self._width ++ ", " ++
    "height: " ++ toString self._height ++ ", fps: " ++ toString self._fps

/-- Embedding of `VideoProfilesManager::isWantedProfile`: the result, the object after the
call, and the statements logged. `&&` and `||` evaluate left to right and stop
early, so `_allowed_formats[...]` runs only after `find` has found the key. -/
def VideoProfilesManager.isWantedProfile (lib : Externals)
    (self : VideoProfilesManager) (profile : Profile) :
    Bool × VideoProfilesManager × List LogEntry :=
  if !(profile.is_a ProfileKind.video_stream_profile) then (false, self, [])
  else
    let log := [LogEntry.mk Severity.debug profile.sip
      ("Sensor profile: " ++ profile_string lib (some profile))]
    if profile.width = self._width ∧ profile.height = self._height ∧ profile.fps = self._fps then
      match StdMap.find self._allowed_formats profile.stream_type with
      | none => (true, self, log)
      | some _ =>
        let r := StdMap.index self._allowed_formats profile.stream_type 0
        (decide (profile.format = r.1), { self with _allowed_formats := r.2 }, log)
    else (false, self, log)

/-- Embedding of `MotionProfilesManager::isWantedProfile`: the result and the object after
the call (`_fps[stream]` inserts `0.0` for an absent key). -/
def MotionProfilesManager.isWantedProfile (self : MotionProfilesManager) (profile : Profile) :
    Bool × MotionProfilesManager :=
  let stream : stream_index_pair := (profile.stream_type, profile.stream_index)
  let r := StdMap.index self._fps stream Double.zero
  (r.1.eqInt profile.fps, { self with _fps := r.2 })

/-- Embedding of `MotionProfilesManager::wanted_profile_string`: the text and the object
after the call. -/
def MotionProfilesManager.wanted_profile_string (lib : Externals)
    (self : MotionProfilesManager) (sip : stream_index_pair) : String × MotionProfilesManager :=
  let r := StdMap.index self._fps sip Double.zero
  (lib.STREAM_NAME sip ++ " with fps: " ++ lib.double_to_string r.1, { self with _fps := r.2 })

/-- Modelled from the spec: `PoseProfilesManager::isWantedProfile`, which
profile_manager.cpp does not define ("any pose-typed profile whose StreamKey is
enabled is accepted regardless of fps"; the pose selector "accepts any
profile"). The enable flag is tested by `addWantedProfiles` before the call. -/
def PoseProfilesManager.isWantedProfile (self : PoseProfilesManager) (_profile : Profile) :
    Bool × PoseProfilesManager :=
  (true, self)

/-- The three concrete classes behind a `ProfilesManager` reference. -/
inductive Selector where
  | video (m : VideoProfilesManager)
  | motion (m : MotionProfilesManager)
  | pose (m : PoseProfilesManager)

/-- The `ProfilesManager` base of a selector. -/
def Selector.base : Selector → ProfilesManager
  | Selector.video m => m.toProfilesManager
  | Selector.motion m => m.toProfilesManager
  | Selector.pose m => m.toProfilesManager

/-- Write the member `_enabled_profiles`. -/
def Selector.set_enabled_profiles (flags : StdMap stream_index_pair Bool) : Selector → Selector
  | Selector.video m => Selector.video { m with _enabled_profiles := flags }
  | Selector.motion m => Selector.motion { m with _enabled_profiles := flags }
  | Selector.pose m => Selector.pose { m with _enabled_profiles := flags }

/-- Virtual call `isWantedProfile(profile)`. -/
def Selector.isWantedProfile (lib : Externals) (self : Selector) (profile : Profile) :
    Bool × Selector × List LogEntry :=
  match self with
  | Selector.video m =>
    let r := m.isWantedProfile lib profile
    (r.1, Selector.video r.2.1, r.2.2)
  | Selector.motion m =>
    let r := m.isWantedProfile profile
    (r.1, Selector.motion r.2, [])
  | Selector.pose m =>
    let r := m.isWantedProfile profile
    (r.1, Selector.pose r.2, [])

/-- Virtual call `wanted_profile_string(sip)`. -/
def Selector.wanted_profile_string (lib : Externals) (self : Selector) (sip : stream_index_pair) :
    String × Selector :=
  match self with
  | Selector.video m => (m.wanted_profile_string lib sip, Selector.video m)
  | Selector.motion m =>
    let r := m.wanted_profile_string lib sip
    (r.1, Selector.motion r.2)
  | Selector.pose m => (lib.pose_wanted_profile_string sip, Selector.pose m)

/-- Virtual call `isTypeExist()`. -/
def Selector.isTypeExist : Selector → Bool
  | Selector.video m => m.isTypeExist
  | Selector.motion m => m.toProfilesManager.isTypeExist
  | Selector.pose m => m.toProfilesManager.isTypeExist

/-! ## addWantedProfiles -/

/-- The variables of `addWantedProfiles` while it runs: the object, the two
local maps, the vector given by the caller and the statements logged. -/
structure Walk where
  self : Selector
  found_sips : StdMap stream_index_pair Bool
  default_profiles : StdMap stream_index_pair stream_profile
  wanted_profiles : List stream_profile
  log : List LogEntry

/-- Body of the first loop of `addWantedProfiles`, for one catalog profile.
Returning early is `continue`. -/
def addWantedProfiles_visit (lib : Externals) (st : Walk) (profile : Profile) :
    Except Exn Walk := do
  let sip : stream_index_pair := (profile.stream_type, profile.stream_index)
  let flag := StdMap.index st.self.base._enabled_profiles sip false
  let st := { st with self := st.self.set_enabled_profiles flag.2 }
  if !flag.1 then return st
  -- try { if (found_sips.at(sip) == true) continue; } catch (out_of_range) { emplace }
  let tried ← tryCatch
    (do
      let found ← StdMap.lookup_at st.found_sips sip
      pure (found, st.found_sips))
    (fun _ => pure (false, StdMap.emplace st.found_sips sip false))
  if tried.1 then return st
  let st := { st with found_sips := tried.2 }
  let st :=
    if profile.is_default then
      { st with default_profiles := StdMap.assign st.default_profiles sip (some profile) }
    else st
  let wanted := st.self.isWantedProfile lib profile
  let st := { st with self := wanted.2.1, log := st.log ++ wanted.2.2 }
  if wanted.1 then
    return { st with
      wanted_profiles := st.wanted_profiles ++ [some profile]
      found_sips := StdMap.assign st.found_sips sip true
      log := st.log ++ [LogEntry.mk Severity.debug sip
        ("Found profile for " ++ lib.rs2_stream_to_string sip.1 ++ ":" ++ toString sip.2)] }
  return st

/-- Body of the second loop of `addWantedProfiles`, for one entry of
`found_sips`. `default_profiles[...]` is `operator[]`, which inserts a
default-constructed profile for an absent key and does not throw. -/
def addWantedProfiles_report (lib : Externals) (st : Walk) (found_sip : stream_index_pair × Bool) :
    Except Exn Walk := do
  if found_sip.2 then return st
  let wanted := st.self.wanted_profile_string lib found_sip.1
  let st := { st with self := wanted.2 }
  let msg := "Could not find a match for profile: " ++ wanted.1
  let tried ← tryCatch
    (do
      let pushed := StdMap.index st.default_profiles found_sip.1 none
      let printed := StdMap.index pushed.2 found_sip.1 none
      pure (printed.2, st.wanted_profiles ++ [pushed.1],
        msg ++ " : Using Default: " ++ profile_string lib printed.1))
    (fun _ => pure (st.default_profiles, st.wanted_profiles, msg ++ " : No default."))
  return { st with
    default_profiles := tried.1
    wanted_profiles := tried.2.1
    log := st.log ++ [LogEntry.mk Severity.warn found_sip.1 tried.2.2] }

/-- What `addWantedProfiles` leaves behind: the object, the vector given by the
caller, and the statements logged. -/
structure Selection where
  self : Selector
  wanted_profiles : List stream_profile
  log : List LogEntry

/-- Embedding of `ProfilesManager::addWantedProfiles`. -/
def addWantedProfiles (lib : Externals) (self : Selector) (wanted_profiles : List stream_profile) :
    Except Exn Selection := do
  let st : Walk :=
    { self := self, found_sips := [], default_profiles := [],
      wanted_profiles := wanted_profiles, log := [] }
  let st ← self.base._all_profiles.foldlM (addWantedProfiles_visit lib) st
  let st ← st.found_sips.foldlM (addWantedProfiles_report lib) st
  return { self := st.self, wanted_profiles := st.wanted_profiles, log := st.log }

/-! ## Registration -/

/-- Embedding of `ProfilesManager::registerSensorUpdateParam<bool>` on `_enabled_profiles`. -/
def registerSensorUpdateParam_bool (lib : Externals) (template_name : String)
    (unique_sips : StdSet stream_index_pair) (value : Bool) (self : ProfilesManager) :
    ProfilesManager :=
  unique_sips.foldl
    (fun self sip =>
      let stream_name := lib.create_graph_resource_name (lib.STREAM_NAME sip)
      let param_name := sprintf template_name stream_name
      let cell := StdMap.index self._enabled_profiles sip false
      let r := self._params.setParamT
        (ParamDecl.mk param_name (ParamValue.bool value) (Cell.enabled_profiles sip)
          OnChange.update_sensor_func)
      let bound := match r.1 with
        | ParamValue.bool b => b
        | _ => cell.1
      { self with _params := r.2, _enabled_profiles := StdMap.assign cell.2 sip bound })
    self

/-- Embedding of `ProfilesManager::registerSensorUpdateParam<double>` on a map `_fps`. -/
def registerSensorUpdateParam_double (lib : Externals) (template_name : String)
    (unique_sips : StdSet stream_index_pair) (value : Double)
    (st : Parameters × StdMap stream_index_pair Double) :
    Parameters × StdMap stream_index_pair Double :=
  unique_sips.foldl
    (fun st sip =>
      let stream_name := lib.create_graph_resource_name (lib.STREAM_NAME sip)
      let param_name := sprintf template_name stream_name
      let cell := StdMap.index st.2 sip Double.zero
      let r := st.1.setParamT
        (ParamDecl.mk param_name (ParamValue.double value) (Cell.fps_of sip)
          OnChange.update_sensor_func)
      let bound := match r.1 with
        | ParamValue.double d => d
        | _ => cell.1
      (r.2, StdMap.assign cell.2 sip bound))
    st

/-- The first loop of every `registerProfileParameters`: keep the profiles of
kind `T`, and collect their stream keys. -/
def collect_profiles (kind : ProfileKind) (all_profiles : List Profile)
    (st : List Profile × StdSet stream_index_pair) : List Profile × StdSet stream_index_pair :=
  all_profiles.foldl
    (fun st profile =>
      if !(profile.is_a kind) then st
      else (st.1 ++ [profile], StdSet.insert st.2 (profile.stream_type, profile.stream_index)))
    st

/-- Bind an `int` member with `setParamT`. -/
def setParamT_int (ps : Parameters) (d : ParamDecl) (old : Int) : Int × Parameters :=
  let r := ps.setParamT d
  (match r.1 with
    | ParamValue.int n => n
    | _ => old, r.2)

/-- Embedding of `VideoProfilesManager::registerVideoSensorParams`. -/
def VideoProfilesManager.registerVideoSensorParams (lib : Externals)
    (self : VideoProfilesManager) : VideoProfilesManager :=
  let w := setParamT_int self._params
    (ParamDecl.mk (self._module_name ++ ".width") (ParamValue.int lib.IMAGE_WIDTH) Cell.width
      OnChange.warn_reenable) self._width
  let h := setParamT_int w.2
    (ParamDecl.mk (self._module_name ++ ".height") (ParamValue.int lib.IMAGE_HEIGHT) Cell.height
      OnChange.warn_reenable) self._height
  let f := setParamT_int h.2
    (ParamDecl.mk (self._module_name ++ ".fps") (ParamValue.int lib.IMAGE_FPS) Cell.fps
      OnChange.warn_reenable) self._fps
  { self with _params := f.2, _width := w.1, _height := h.1, _fps := f.1 }

/-- Embedding of `VideoProfilesManager::registerProfileParameters`. -/
def VideoProfilesManager.registerProfileParameters (lib : Externals)
    (self : VideoProfilesManager) (all_profiles : List Profile) : VideoProfilesManager :=
  let r := collect_profiles ProfileKind.video_stream_profile all_profiles (self._all_profiles, [])
  let self := { self with _all_profiles := r.1 }
  if !(List.isEmpty r.2) then
    let base := registerSensorUpdateParam_bool lib "enable_%s" r.2 true self.toProfilesManager
    VideoProfilesManager.registerVideoSensorParams lib { self with toProfilesManager := base }
  else self

/-- Embedding of `MotionProfilesManager::registerProfileParameters`. -/
def MotionProfilesManager.registerProfileParameters (lib : Externals)
    (self : MotionProfilesManager) (all_profiles : List Profile) : MotionProfilesManager :=
  let r := collect_profiles ProfileKind.motion_stream_profile all_profiles (self._all_profiles, [])
  let self := { self with _all_profiles := r.1 }
  let base := registerSensorUpdateParam_bool lib "enable_%s" r.2 true self.toProfilesManager
  let fps := registerSensorUpdateParam_double lib "%s_fps" r.2 Double.zero (base._params, self._fps)
  { toProfilesManager := { base with _params := fps.1 }, _fps := fps.2 }

/-- Embedding of `PoseProfilesManager::registerProfileParameters`. -/
def PoseProfilesManager.registerProfileParameters (lib : Externals)
    (self : PoseProfilesManager) (all_profiles : List Profile) : PoseProfilesManager :=
  let r := collect_profiles ProfileKind.pose_stream_profile all_profiles (self._all_profiles, [])
  let self := { self with _all_profiles := r.1 }
  let base := registerSensorUpdateParam_bool lib "enable_%s" r.2 true self.toProfilesManager
  let fps := registerSensorUpdateParam_double lib "%s_fps" r.2 Double.zero (base._params, self._fps)
  { toProfilesManager := { base with _params := fps.1 }, _fps := fps.2 }

/-- Virtual call `registerProfileParameters(all_profiles, update_sensor_func)`. -/
def Selector.registerProfileParameters (lib : Externals) (self : Selector)
    (all_profiles : List Profile) : Selector :=
  match self with
  | Selector.video m => Selector.video (m.registerProfileParameters lib all_profiles)
  | Selector.motion m => Selector.motion (m.registerProfileParameters lib all_profiles)
  | Selector.pose m => Selector.pose (m.registerProfileParameters lib all_profiles)

/-- The external mutation of an enable flag through the registry: the callback
installed by `setParamT` writes the new value into the bound cell. -/
def Selector.set_enable_flag (self : Selector) (sip : stream_index_pair) (value : Bool) : Selector :=
  self.set_enabled_profiles (StdMap.assign self.base._enabled_profiles sip value)

/-! ## Closed forms and notions used in the statements and proofs -/

/-- The state that the body of the first loop of `addWantedProfiles` leaves
(`addWantedProfiles_visit_eq` shows that the body returns it). -/
def visit_state (lib : Externals) (st : Walk) (profile : Profile) : Walk :=
  let flag := StdMap.index st.self.base._enabled_profiles profile.sip false
  let self1 := st.self.set_enabled_profiles flag.2
  if flag.1 = true ∧ StdMap.find st.found_sips profile.sip ≠ some true then
    let wanted := self1.isWantedProfile lib profile
    { self := wanted.2.1
      found_sips :=
        if wanted.1 then StdMap.assign (StdMap.emplace st.found_sips profile.sip false) profile.sip true
        else StdMap.emplace st.found_sips profile.sip false
      default_profiles :=
        if profile.is_default then StdMap.assign st.default_profiles profile.sip (some profile)
        else st.default_profiles
      wanted_profiles :=
        if wanted.1 then st.wanted_profiles ++ [some profile] else st.wanted_profiles
      log :=
        if wanted.1 then
          (st.log ++ wanted.2.2) ++ [LogEntry.mk Severity.debug profile.sip
            ("Found profile for " ++ lib.rs2_stream_to_string profile.sip.1 ++ ":" ++
              toString profile.sip.2)]
        else st.log ++ wanted.2.2 }
  else { st with self := self1 }

/-- The text of the warning that the second loop of `addWantedProfiles` emits
for stream key `k` when `default_profiles.find(k)` is `d`. -/
def fallback_text (lib : Externals) (self : Selector) (k : stream_index_pair)
    (d : Option stream_profile) : String :=
  "Could not find a match for profile: " ++ (self.wanted_profile_string lib k).1 ++
    " : Using Default: " ++ profile_string lib (d.getD none)

/-- The state that the body of the second loop of `addWantedProfiles` leaves
(`addWantedProfiles_report_eq` shows that the body returns it). -/
def report_state (lib : Externals) (st : Walk) (found_sip : stream_index_pair × Bool) : Walk :=
  if found_sip.2 = true then st
  else
    { self := (st.self.wanted_profile_string lib found_sip.1).2
      found_sips := st.found_sips
      default_profiles :=
        (StdMap.index (StdMap.index st.default_profiles found_sip.1 none).2 found_sip.1 none).2
      wanted_profiles :=
        st.wanted_profiles ++ [(StdMap.find st.default_profiles found_sip.1).getD none]
      log := st.log ++ [LogEntry.mk Severity.warn found_sip.1
        (fallback_text lib st.self found_sip.1 (StdMap.find st.default_profiles found_sip.1))] }

/-- The laws of a strict total order, which `std::map` requires of its comparison. -/
class LawfulKeyLess (K : Type) [KeyLess K] : Prop where
  irrefl : ∀ a : K, KeyLess.less a a = false
  trans : ∀ a b c : K, KeyLess.less a b = true → KeyLess.less b c = true → KeyLess.less a c = true
  total : ∀ a b : K, a ≠ b → KeyLess.less a b = false → KeyLess.less b a = true

/-- The entries of a map are in strictly ascending key order. -/
def StdMap.Ordered {K V : Type} [KeyLess K] (m : StdMap K V) : Prop :=
  List.Pairwise (fun a b => KeyLess.less a.1 b.1 = true) m

/-- The enable flag of stream key `k` is true (`_enabled_profiles[k]`, which
reads an absent key as false). -/
def Selector.enabled (self : Selector) (k : stream_index_pair) : Bool :=
  (StdMap.find self.base._enabled_profiles k).getD false

/-- The result of `isWantedProfile(p)`. -/
def Selector.wants (lib : Externals) (self : Selector) (p : Profile) : Bool :=
  (self.isWantedProfile lib p).1

/-- Two states of a selector that answer every query of `addWantedProfiles`
alike: same catalog, same flags read, same predicate, same description. -/
def SameView (lib : Externals) (s t : Selector) : Prop :=
  t.base._all_profiles = s.base._all_profiles ∧
  (∀ k, t.enabled k = s.enabled k) ∧
  (∀ p, t.wants lib p = s.wants lib p) ∧
  (∀ k, (t.wanted_profile_string lib k).1 = (s.wanted_profile_string lib k).1)

/-- The first loop handles `p`: the flag of its stream key is true and no
profile of that key has been taken yet. -/
def Walk.active (st : Walk) (p : Profile) : Bool :=
  st.self.enabled p.sip && !(decide (StdMap.find st.found_sips p.sip = some true))

/-- The first profile of stream key `k` in `ps` that the selector wants. -/
def firstWanted (lib : Externals) (self : Selector) (k : stream_index_pair)
    (ps : List Profile) : Option Profile :=
  ps.find? (fun p => decide (p.sip = k) && self.wants lib p)

/-- The last profile of stream key `k` in `ps` that is flagged default. -/
def lastDefault (k : stream_index_pair) (ps : List Profile) : Option Profile :=
  ps.reverse.find? (fun p => decide (p.sip = k) && p.is_default)

/-- Some profile of `ps` has stream key `k`. -/
def hasProfileOf (k : stream_index_pair) (ps : List Profile) : Bool :=
  ps.any (fun p => decide (p.sip = k))

/-- The state of `addWantedProfiles` after its first loop has run over `ps`. -/
def walk (lib : Externals) (self : Selector) (wanted_profiles : List stream_profile)
    (ps : List Profile) : Walk :=
  ps.foldl (visit_state lib) (Walk.mk self [] [] wanted_profiles [])

/-! ## Notions of the specification -/

/-- Spec side of `isTypeExist` for the video selector: some catalog profile is
image-typed and the flag of its stream key is true. -/
def hasEnabledVideoProfile (self : ProfilesManager) : Bool :=
  self._all_profiles.any (fun p =>
    p.is_a ProfileKind.video_stream_profile &&
      decide (StdMap.find self._enabled_profiles p.sip = some true))

/-! ## Sample data -/

/-- A choice of the outside functions, for evaluating examples. -/
def sample_lib : Externals :=
  { rs2_stream_to_string := fun n => "stream" ++ toString n
    rs2_format_to_string := fun n => "format" ++ toString n
    double_to_string := fun _ => "fps"
    STREAM_NAME := fun k => "stream" ++ toString k.1 ++ "_" ++ toString k.2
    create_graph_resource_name := fun s => s
    default_constructed := Profile.mk ProfileKind.other 0 0 0 0 false 0 0
    IMAGE_WIDTH := 640
    IMAGE_HEIGHT := 480
    IMAGE_FPS := 30
    pose_wanted_profile_string := fun _ => "pose" }

/-- A registry in which nothing is configured and nothing declared. -/
def no_parameters : Parameters :=
  { configured := [], declared := [], update_sensor_func_calls := 0 }

/-- Depth 640x480 at 30 fps, Z16, flagged default. -/
def depth_640 : Profile :=
  Profile.mk ProfileKind.video_stream_profile RS2_STREAM_DEPTH 0 RS2_FORMAT_Z16 30 true 640 480

/-- Depth 1280x720 at 30 fps, Z16, not flagged default. -/
def depth_1280 : Profile :=
  Profile.mk ProfileKind.video_stream_profile RS2_STREAM_DEPTH 0 RS2_FORMAT_Z16 30 false 1280 720

/-- Color (stream 2) 640x480 at 30 fps, in format 5, not flagged default. -/
def color_640 : Profile :=
  Profile.mk ProfileKind.video_stream_profile 2 0 5 30 false 640 480

/-- The profile `color_640` in format 4. -/
def color_640_other_format : Profile :=
  Profile.mk ProfileKind.video_stream_profile 2 0 4 30 false 640 480

/-- A video selector that wants 640x480 at 30 fps and has registered nothing. -/
def sample_video : VideoProfilesManager :=
  VideoProfilesManager.new no_parameters "module" 30 640 480 false

/-- A motion selector whose desired fps for Gyro/0 (stream 5) is 200. -/
def sample_motion : MotionProfilesManager :=
  { toProfilesManager :=
      { _params := no_parameters, _all_profiles := [], _enabled_profiles := [((5, 0), true)] }
    _fps := [((5, 0), Double.finite 200)] }

/-- Gyro/0 at 200 fps, in format 16. -/
def gyro_200 : Profile :=
  Profile.mk ProfileKind.motion_stream_profile 5 0 16 200 true 0 0

/-- Gyro/0 at 200 fps, in format 17, with a width and a height. -/
def gyro_200_other : Profile :=
  Profile.mk ProfileKind.motion_stream_profile 5 0 17 200 true 640 480

/-- Gyro/0 at 400 fps, in format 16. -/
def gyro_400 : Profile :=
  Profile.mk ProfileKind.motion_stream_profile 5 0 16 400 false 0 0

/-- The video selector of module "module" with the given desired width and the
given catalog and enable flags; desired height 480 and fps 30, and the table of
allowed formats that the constructor builds. -/
def video_state (width : Int) (catalog : List Profile)
    (flags : StdMap stream_index_pair Bool) : Selector :=
  Selector.video
    { toProfilesManager :=
        { _params := no_parameters, _all_profiles := catalog, _enabled_profiles := flags }
      _module_name := "module"
      _allowed_formats := [(RS2_STREAM_DEPTH, RS2_FORMAT_Z16), (RS2_STREAM_INFRARED, RS2_FORMAT_Y8)]
      _fps := 30
      _width := width
      _height := 480
      _is_profile_exist := false }

/-- A video selector that wants 848x480 at 30 fps; its catalog holds
`depth_1280` and `color_640`, neither flagged default, both enabled. -/
def video_848_no_default : Selector :=
  video_state 848 [depth_1280, color_640] [((1, 0), true), ((2, 0), true)]

/-- A video selector that wants 640x480 at 30 fps; its catalog holds `depth_640`
and `depth_1280`, and Depth/0 is enabled. -/
def video_640 : Selector :=
  video_state 640 [depth_640, depth_1280] [((1, 0), true)]

/-- A video selector that wants 848x480 at 30 fps; its catalog holds the single
profile `depth_1280`, not flagged default, and Depth/0 is enabled. -/
def video_848_depth_only : Selector :=
  video_state 848 [depth_1280] [((1, 0), true)]

/-! ## Callbacks and sequences of calls -/

/-- One run of a callback given to `setParamT`: the lambda of
`registerSensorUpdateParam` calls `update_sensor_func()` once, the lambdas of
`registerVideoSensorParams` emit one warning. The result is the registry with
its count of calls, and the warnings emitted. -/
def OnChange.run (h : OnChange) (ps : Parameters) : Parameters × List String :=
  match h with
  | OnChange.update_sensor_func =>
    ({ ps with update_sensor_func_calls := ps.update_sensor_func_calls + 1 }, [])
  | OnChange.warn_reenable => (ps, ["re-enable the stream for the change to take effect."])

/-- The selector that a call of `addWantedProfiles` leaves. -/
def Selector.after_addWantedProfiles (lib : Externals) (self : Selector)
    (wanted_profiles : List stream_profile) : Selector :=
  match addWantedProfiles lib self wanted_profiles with
  | Except.ok r => r.self
  | Except.error _ => self

/-- A call made on a selector by its owner. -/
inductive Call where
  | registerProfileParameters (all_profiles : List Profile)
  | addWantedProfiles (wanted_profiles : List stream_profile)

/-- The selector after one call. -/
def Selector.call (lib : Externals) (self : Selector) : Call → Selector
  | Call.registerProfileParameters all_profiles => self.registerProfileParameters lib all_profiles
  | Call.addWantedProfiles wanted_profiles => self.after_addWantedProfiles lib wanted_profiles

/-- The selector after a sequence of calls, first call first. -/
def Selector.calls (lib : Externals) (self : Selector) (cs : List Call) : Selector :=
  cs.foldl (Selector.call lib) self

/-- The declaration that `registerSensorUpdateParam<bool>` makes for stream key `sip`. -/
def enable_decl (lib : Externals) (template_name : String) (value : Bool)
    (sip : stream_index_pair) : ParamDecl :=
  ParamDecl.mk (sprintf template_name (lib.create_graph_resource_name (lib.STREAM_NAME sip)))
    (ParamValue.bool value) (Cell.enabled_profiles sip) OnChange.update_sensor_func

/-- The declaration that `registerSensorUpdateParam<double>` makes for stream key `sip`. -/
def fps_decl (lib : Externals) (template_name : String) (value : Double)
    (sip : stream_index_pair) : ParamDecl :=
  ParamDecl.mk (sprintf template_name (lib.create_graph_resource_name (lib.STREAM_NAME sip)))
    (ParamValue.double value) (Cell.fps_of sip) OnChange.update_sensor_func

/-- The stream keys of the profiles of kind `kind` in `all_profiles`, as the
`std::set` that `registerProfileParameters` builds. -/
def checked_sips (kind : ProfileKind) (all_profiles : List Profile) : StdSet stream_index_pair :=
  (all_profiles.filter (fun p => p.is_a kind)).foldl (fun s p => StdSet.insert s p.sip) []

/-- The elements of a set are in strictly ascending order. -/
def StdSet.Ordered {K : Type} [KeyLess K] (s : StdSet K) : Prop :=
  List.Pairwise (fun a b => KeyLess.less a b = true) s

/-- The kind of profile that the `registerProfileParameters` of a selector keeps. -/
def Selector.kind : Selector → ProfileKind
  | Selector.video _ => ProfileKind.video_stream_profile
  | Selector.motion _ => ProfileKind.motion_stream_profile
  | Selector.pose _ => ProfileKind.pose_stream_profile

/-- The canonical stream name of a stream key, as `registerSensorUpdateParam`
computes it: `create_graph_resource_name(STREAM_NAME(sip))`. -/
def stream_name (lib : Externals) (sip : stream_index_pair) : String :=
  lib.create_graph_resource_name (lib.STREAM_NAME sip)

/-- A base object with no catalog and no flag, over `no_parameters`. -/
def sample_base : ProfilesManager := ProfilesManager.new no_parameters

/-- A motion selector whose flags are all false. -/
def motion_all_disabled : MotionProfilesManager :=
  { toProfilesManager :=
      { _params := no_parameters, _all_profiles := [gyro_200],
        _enabled_profiles := [((5, 0), false)] }
    _fps := [] }

/-- The map `_enabled_profiles` after `_enabled_profiles[sip]` has been read for
the stream key of every profile of `ps`, in order. -/
def touch_flags (flags : StdMap stream_index_pair Bool) (ps : List Profile) :
    StdMap stream_index_pair Bool :=
  ps.foldl (fun m p => (StdMap.index m p.sip false).2) flags

/-- The base object with its member `_enabled_profiles` replaced. -/
def ProfilesManager.with_enabled_profiles (self : ProfilesManager)
    (flags : StdMap stream_index_pair Bool) : ProfilesManager :=
  ProfilesManager.mk self._params self._all_profiles flags

/-- Every stream key with an entry in `_enabled_profiles` is the stream key of
a profile of the catalog. -/
def FlagsInCatalog (s : Selector) : Prop :=
  ∀ k, (StdMap.find s.base._enabled_profiles k).isSome = true →
    ∃ p ∈ s.base._all_profiles, p.sip = k

/-- A video selector that wants 640x480 at 30 fps; its catalog holds `depth_640`
and `color_640`, which both match, and the flag of Color/0 is false. -/
def video_color_disabled : Selector :=
  video_state 640 [depth_640, color_640] [((1, 0), true), ((2, 0), false)]

/-- The profiles of `ps` that the first loop of `addWantedProfiles` appends, in
the order of `ps`, when its enable test is `E` and its predicate `W` and the
profiles of `pre` have been visited before: a profile is taken when the flag of
its stream key is true, it is wanted, and no earlier profile of its stream key
is wanted. -/
def matchedFrom (E : stream_index_pair → Bool) (W : Profile → Bool) (pre : List Profile) :
    List Profile → List Profile
  | [] => []
  | p :: rest =>
    (if E p.sip && W p && (pre.find? (fun q => decide (q.sip = p.sip) && W q)).isNone then [p]
      else []) ++ matchedFrom E W (pre ++ [p]) rest

/-- The stream keys for which the second loop of `addWantedProfiles` appends an
entry, in the order of the loop. -/
def fallbackKeys (lib : Externals) (self : Selector) : List stream_index_pair :=
  ((walk lib self [] self.base._all_profiles).found_sips.filter (fun e => !e.2)).map Prod.fst

/-- The warnings of a log. -/
def warnings (log : List LogEntry) : List LogEntry :=
  log.filter (fun e => decide (e.severity = Severity.warn))

/-- The members outside the base object are as they were, except that the map
`_fps` of a motion selector may hold new entries, all of them 0.0. -/
def Selector.Extends (s t : Selector) : Prop :=
  match s, t with
  | Selector.video m, Selector.video n =>
    n._module_name = m._module_name ∧ n._allowed_formats = m._allowed_formats ∧
      n._fps = m._fps ∧ n._width = m._width ∧ n._height = m._height ∧
      n._is_profile_exist = m._is_profile_exist
  | Selector.motion m, Selector.motion n =>
    ∀ k, StdMap.find n._fps k = StdMap.find m._fps k ∨
      (StdMap.find m._fps k = none ∧ StdMap.find n._fps k = some Double.zero)
  | Selector.pose m, Selector.pose n => n._fps = m._fps
  | _, _ => False

/-- A motion selector whose catalog holds `gyro_400` then `gyro_200`, with
Gyro/0 enabled and no desired fps stored yet. -/
def motion_no_fps : Selector :=
  Selector.motion
    { toProfilesManager :=
        { _params := no_parameters, _all_profiles := [gyro_400, gyro_200],
          _enabled_profiles := [((5, 0), true)] }
      _fps := [] }

/-! ## Calls of librealsense on a default-constructed profile -/

/-- Exceptions that can leave a statement of `addWantedProfiles`, by the C++
type that its handlers tell apart: `std::out_of_range`, which both handlers
take, and `rs2::error`, the exception type of librealsense, which is a
`std::runtime_error` and which neither handler takes. -/
inductive Thrown where
  | out_of_range
  | rs2_error
deriving DecidableEq, Repr

/-- The exception of `found_sips.at` as it travels through `addWantedProfiles`. -/
def Exn.toThrown : Exn → Thrown
  | Exn.out_of_range => Thrown.out_of_range

/-- What the call `profile.is<rs2::video_stream_profile>()` does when `profile`
is a default-constructed `rs2::stream_profile`. The call is defined in
librealsense and not in this repository: it returns a value, or it throws
`rs2::error`. -/
inductive NullHandleCall where
  | returns (b : Bool)
  | throws
deriving DecidableEq, Repr

/-- The test `profile.is<rs2::video_stream_profile>()` on a `rs2::stream_profile`
object, `null_is` telling what it does on a default-constructed one. -/
def stream_profile.is_video (null_is : NullHandleCall) : stream_profile → Except Thrown Bool
  | some p => pure (p.is_a ProfileKind.video_stream_profile)
  | none =>
    match null_is with
    | NullHandleCall.returns b => pure b
    | NullHandleCall.throws => throw Thrown.rs2_error

/-- Embedding of `ProfilesManager::profile_string` with the outcome of `is<>()`
on a default-constructed profile as the parameter `null_is`. `is<>()` is the
first call made on the profile; when it returns, the accessors that follow
return the values of `default_constructed`. With `NullHandleCall.returns false`
it is `profile_string`. -/
def profile_string_call (lib : Externals) (null_is : NullHandleCall) (profile : stream_profile) :
    Except Thrown String := do
  let p := profile.getD lib.default_constructed
  let is_video ← stream_profile.is_video null_is profile
  if is_video then
    return "stream_type: " ++ lib.rs2_stream_to_string p.stream_type ++ "(" ++ toString p.stream_index ++ ")" ++
      ", Format: " ++ lib.rs2_format_to_string p.format ++
      ", Width: " ++ toString p.width ++
      ", Height: " ++ toString p.height ++
      ", FPS: " ++ toString p.fps
  else
    return "stream_type: " ++ lib.rs2_stream_to_string p.stream_type ++ "(" ++ toString p.stream_index ++ ")" ++
      "Format: " ++ lib.rs2_format_to_string p.format ++
      ", FPS: " ++ toString p.fps

/-- Body of the second loop of `addWantedProfiles`, for one entry of
`found_sips`, with the outcome of `is<>()` on a default-constructed profile as
the parameter `null_is`. `default_profiles[...]` is `operator[]`, which inserts
a default-constructed profile for an absent key and does not throw; the handler
takes `std::out_of_range` and nothing else, and no statement of the block
throws it. -/
def addWantedProfiles_report_call (lib : Externals) (null_is : NullHandleCall) (st : Walk)
    (found_sip : stream_index_pair × Bool) : Except Thrown Walk := do
  if found_sip.2 then return st
  let wanted := st.self.wanted_profile_string lib found_sip.1
  let st := { st with self := wanted.2 }
  let msg := "Could not find a match for profile: " ++ wanted.1
  let tried ← tryCatch
    (do
      let pushed := StdMap.index st.default_profiles found_sip.1 none
      let printed := StdMap.index pushed.2 found_sip.1 none
      let text ← profile_string_call lib null_is printed.1
      pure (printed.2, st.wanted_profiles ++ [pushed.1], msg ++ " : Using Default: " ++ text))
    (fun e =>
      match e with
      | Thrown.out_of_range =>
        pure (st.default_profiles, st.wanted_profiles, msg ++ " : No default.")
      | Thrown.rs2_error => throw Thrown.rs2_error)
  return { st with
    default_profiles := tried.1
    wanted_profiles := tried.2.1
    log := st.log ++ [LogEntry.mk Severity.warn found_sip.1 tried.2.2] }

/-- Embedding of `ProfilesManager::addWantedProfiles` with the outcome of
`is<>()` on a default-constructed profile as the parameter `null_is`. The first
loop makes no call on such a profile and is `addWantedProfiles_visit`. -/
def addWantedProfiles_call (lib : Externals) (null_is : NullHandleCall) (self : Selector)
    (wanted_profiles : List stream_profile) : Except Thrown Selection := do
  let st : Walk :=
    { self := self, found_sips := [], default_profiles := [],
      wanted_profiles := wanted_profiles, log := [] }
  let st ← self.base._all_profiles.foldlM
    (fun st profile => (addWantedProfiles_visit lib st profile).mapError Exn.toThrown) st
  let st ← st.found_sips.foldlM (addWantedProfiles_report_call lib null_is) st
  return { self := st.self, wanted_profiles := st.wanted_profiles, log := st.log }

/-- The stream key `k` reaches the second loop of `addWantedProfiles` without a
default: its flag is true, the catalog holds a profile of `k`, none that the
selector wants and none flagged default. -/
def Selector.lacksDefault (lib : Externals) (self : Selector) (k : stream_index_pair) : Prop :=
  self.enabled k = true ∧ hasProfileOf k self.base._all_profiles = true ∧
    firstWanted lib self k self.base._all_profiles = none ∧
    lastDefault k self.base._all_profiles = none

/-! ## Theorems -/

namespace StdMap

variable {K V : Type} [DecidableEq K] [KeyLess K]

theorem find_put (m : StdMap K V) (k k1 : K) (v : V) :
    find (put m k v) k1 = if k = k1 then some v else find m k1 := by
  induction m with
  | nil => simp [put, find]
  | cons e rest ih =>
    obtain ⟨k2, v2⟩ := e
    unfold put
    by_cases h1 : k2 = k
    · subst h1
      by_cases h2 : k2 = k1 <;> simp [find, h2]
    · by_cases h3 : KeyLess.less k k2 = true
      · simp only [h1, h3, if_true, if_false]
        by_cases h2 : k = k1 <;> simp [find, h2]
      · simp only [h1, h3, if_false]
        by_cases h2 : k = k1
        · subst h2
          simp [find, h1, ih]
        · by_cases h4 : k2 = k1 <;> simp [find, h2, h4, ih]

theorem index_fst (m : StdMap K V) (k : K) (d : V) :
    (index m k d).1 = (find m k).getD d := by
  unfold index
  cases h : find m k <;> simp

theorem find_index_snd (m : StdMap K V) (k k1 : K) (d : V) :
    find (index m k d).2 k1 = if k = k1 then some ((find m k).getD d) else find m k1 := by
  unfold index
  cases h : find m k with
  | none => simp [find_put]
  | some v =>
    by_cases h2 : k = k1
    · subst h2
      simp [h]
    · simp [h2]

theorem getD_find_index_snd (m : StdMap K V) (k k1 : K) (d : V) :
    (find (index m k d).2 k1).getD d = (find m k1).getD d := by
  rw [find_index_snd]
  by_cases h : k = k1
  · subst h
    simp
  · simp [h]

theorem index_snd_of_find (m : StdMap K V) (k : K) (d v : V) (h : find m k = some v) :
    (index m k d).2 = m := by
  simp [index, h]

theorem find_emplace (m : StdMap K V) (k k1 : K) (v : V) :
    find (emplace m k v) k1 = if k = k1 then some ((find m k).getD v) else find m k1 := by
  unfold emplace
  cases h : find m k with
  | none => simp [find_put]
  | some v1 =>
    by_cases h2 : k = k1
    · subst h2
      simp [h]
    · simp [h2]

end StdMap

theorem Double.eqInt_iff (d : Double) (n : Int) :
    d.eqInt n = true ↔ Double.ofInt n = d := by
  cases d with
  | finite q =>
    simp only [Double.eqInt, Double.ofInt, decide_eq_true_eq, Double.finite.injEq]
    exact eq_comm
  | inf b => simp [Double.eqInt, Double.ofInt]
  | nan => simp [Double.eqInt, Double.ofInt]

theorem video_isWantedProfile_iff (lib : Externals) (self : VideoProfilesManager) (p : Profile) :
    (self.isWantedProfile lib p).1 = true ↔
      (p.is_a ProfileKind.video_stream_profile = true ∧ p.width = self._width ∧
        p.height = self._height ∧ p.fps = self._fps ∧
        (StdMap.find self._allowed_formats p.stream_type = none ∨
          StdMap.find self._allowed_formats p.stream_type = some p.format)) := by
  unfold VideoProfilesManager.isWantedProfile
  by_cases hk : p.is_a ProfileKind.video_stream_profile = true
  · by_cases hd : p.width = self._width ∧ p.height = self._height ∧ p.fps = self._fps
    · obtain ⟨hw, hh, hf⟩ := hd
      cases ht : StdMap.find self._allowed_formats p.stream_type with
      | none => simp [hk, hw, hh, hf]
      | some fmt =>
        simp only [hk, hw, hh, hf, StdMap.index_fst, ht]
        simp [eq_comm]
    · simp only [hk, hd]
      simp only [Bool.not_true, Bool.false_eq_true, if_false, true_and, false_iff]
      intro hc
      exact hd ⟨hc.1, hc.2.1, hc.2.2.1⟩
  · simp [hk]

theorem video_isWantedProfile_self (lib : Externals) (self : VideoProfilesManager) (p : Profile) :
    (self.isWantedProfile lib p).2.1 = self := by
  unfold VideoProfilesManager.isWantedProfile
  by_cases hk : p.is_a ProfileKind.video_stream_profile = true
  · by_cases hd : p.width = self._width ∧ p.height = self._height ∧ p.fps = self._fps
    · cases ht : StdMap.find self._allowed_formats p.stream_type with
      | none => simp [hk, hd]
      | some fmt => simp [hk, hd, StdMap.index_snd_of_find _ _ _ _ ht]
    · simp [hk, hd]
  · simp [hk]

/-- C5: the video predicate holds exactly when the profile is image-typed, its
width, height and fps equal the desired ones, and its stream kind has no entry
in the allowed-format table or its format is the entry; the call leaves the
object (so the table) as it was; the constructor builds the table
Depth -> Z16, Infrared -> Y8, and registration does not touch it. -/
theorem C5_video_isWantedProfile (lib : Externals) (self : VideoProfilesManager) (p : Profile) :
    ((self.isWantedProfile lib p).1 = true ↔
      (p.is_a ProfileKind.video_stream_profile = true ∧ p.width = self._width ∧
        p.height = self._height ∧ p.fps = self._fps ∧
        (StdMap.find self._allowed_formats p.stream_type = none ∨
          StdMap.find self._allowed_formats p.stream_type = some p.format))) ∧
    (self.isWantedProfile lib p).2.1 = self ∧
    (∀ (parameters : Parameters) (name : String) (f w h : Int) (b : Bool),
      (VideoProfilesManager.new parameters name f w h b)._allowed_formats =
        [(RS2_STREAM_DEPTH, RS2_FORMAT_Z16), (RS2_STREAM_INFRARED, RS2_FORMAT_Y8)]) ∧
    (∀ all_profiles : List Profile,
      (self.registerProfileParameters lib all_profiles)._allowed_formats = self._allowed_formats) := by
  refine ⟨video_isWantedProfile_iff lib self p, video_isWantedProfile_self lib self p, ?_, ?_⟩
  · intro parameters name f w h b
    rfl
  · intro all_profiles
    unfold VideoProfilesManager.registerProfileParameters
    by_cases he : (collect_profiles ProfileKind.video_stream_profile all_profiles
        (self._all_profiles, [])).2.isEmpty = true
    · simp [he]
    · simp [he, VideoProfilesManager.registerVideoSensorParams]

/-- C6, as stated, fails for the pixel format of a stream kind without an entry
in the allowed-format table: `color_640` and `color_640_other_format` are both
image-typed, have the same stream kind, index, width, height and fps, differ in
format, and both satisfy the predicate. -/
theorem C6_counterexample_format_unconstrained :
    (sample_video.isWantedProfile sample_lib color_640).1 = true ∧
    color_640_other_format.is_a ProfileKind.video_stream_profile = true ∧
    color_640_other_format.stream_type = color_640.stream_type ∧
    color_640_other_format.stream_index = color_640.stream_index ∧
    color_640_other_format.width = color_640.width ∧
    color_640_other_format.height = color_640.height ∧
    color_640_other_format.fps = color_640.fps ∧
    color_640_other_format.format ≠ color_640.format ∧
    (sample_video.isWantedProfile sample_lib color_640_other_format).1 = true := by
  refine ⟨?_, ?_, ?_, ?_, ?_, ?_, ?_, ?_, ?_⟩ <;> decide

/-- C6, amended: when `p` satisfies the video predicate and the image-typed `q`
has the stream kind of `p`, then `q` fails the predicate as soon as it differs
from `p` in width, height or fps, and also when it differs in format and the
stream kind has an entry in the allowed-format table; when the stream kind has
no entry and width, height and fps agree, `q` satisfies the predicate whatever
its format. -/
theorem C6_video_predicate_conjunctive (lib : Externals) (self : VideoProfilesManager)
    (p q : Profile)
    (hp : (self.isWantedProfile lib p).1 = true)
    (hq : q.is_a ProfileKind.video_stream_profile = true)
    (hkind : q.stream_type = p.stream_type) :
    (q.width ≠ p.width → (self.isWantedProfile lib q).1 = false) ∧
    (q.height ≠ p.height → (self.isWantedProfile lib q).1 = false) ∧
    (q.fps ≠ p.fps → (self.isWantedProfile lib q).1 = false) ∧
    (q.format ≠ p.format → (StdMap.find self._allowed_formats p.stream_type).isSome = true →
      (self.isWantedProfile lib q).1 = false) ∧
    (q.width = p.width → q.height = p.height → q.fps = p.fps →
      StdMap.find self._allowed_formats p.stream_type = none →
      (self.isWantedProfile lib q).1 = true) := by
  have hP := video_isWantedProfile_iff lib self p
  have hQ := video_isWantedProfile_iff lib self q
  obtain ⟨_, hw, hh, hf, hfmt⟩ := hP.mp hp
  have neg : ∀ {b : Bool}, ¬ (b = true) → b = false := by
    intro b hb
    cases b <;> simp_all
  refine ⟨?_, ?_, ?_, ?_, ?_⟩
  · intro hne
    exact neg (fun hc => hne ((hQ.mp hc).2.1.trans hw.symm))
  · intro hne
    exact neg (fun hc => hne ((hQ.mp hc).2.2.1.trans hh.symm))
  · intro hne
    exact neg (fun hc => hne ((hQ.mp hc).2.2.2.1.trans hf.symm))
  · intro hne hsome
    apply neg
    intro hc
    have hq4 := (hQ.mp hc).2.2.2.2
    rw [hkind] at hq4
    rcases hfmt with h0 | h1
    · rw [h0] at hsome
      simp at hsome
    · rcases hq4 with h2 | h3
      · rw [h2] at hsome
        simp at hsome
      · rw [h1] at h3
        exact hne (Option.some.inj h3).symm
  · intro e1 e2 e3 hnone
    apply hQ.mpr
    refine ⟨hq, e1.trans hw, e2.trans hh, e3.trans hf, Or.inl ?_⟩
    rw [hkind]
    exact hnone

/-- Witness of C6 (amended): `depth_640` is wanted by `sample_video`, and
`depth_1280`, of the same stream kind, differs in width and is not wanted. -/
theorem C6_video_predicate_conjunctive_witness :
    (sample_video.isWantedProfile sample_lib depth_640).1 = true ∧
    (sample_video.isWantedProfile sample_lib depth_1280).1 = false :=
  ⟨by decide,
    (C6_video_predicate_conjunctive sample_lib sample_video depth_640 depth_1280
      (by decide) (by decide) (by decide)).1 (by decide)⟩

/-- C7: the motion predicate holds exactly when the fps of the profile equals
the desired fps stored for its stream key, read as 0.0 when none is stored;
so, for two profiles of one stream key, when their fps differ and one equals
the desired fps the results differ, and when their fps agree the results agree
whatever their format, width and height. -/
theorem C7_motion_isWantedProfile (self : MotionProfilesManager) (p q : Profile) :
    ((self.isWantedProfile p).1 = true ↔
      Double.ofInt p.fps = (StdMap.find self._fps p.sip).getD Double.zero) ∧
    (p.sip = q.sip → p.fps ≠ q.fps →
      Double.ofInt p.fps = (StdMap.find self._fps p.sip).getD Double.zero →
      (self.isWantedProfile p).1 ≠ (self.isWantedProfile q).1) ∧
    (p.sip = q.sip → p.fps = q.fps →
      (self.isWantedProfile p).1 = (self.isWantedProfile q).1) := by
  have key : ∀ r : Profile, ((self.isWantedProfile r).1 = true ↔
      Double.ofInt r.fps = (StdMap.find self._fps r.sip).getD Double.zero) := by
    intro r
    simp only [MotionProfilesManager.isWantedProfile, StdMap.index_fst, Double.eqInt_iff,
      Profile.sip]
  refine ⟨key p, ?_, ?_⟩
  · intro hs hne hp hres
    have hq : Double.ofInt q.fps = (StdMap.find self._fps q.sip).getD Double.zero :=
      (key q).mp (hres ▸ (key p).mpr hp)
    rw [← hs, ← hp] at hq
    simp only [Double.ofInt, Double.finite.injEq, Int.cast_inj] at hq
    exact hne hq.symm
  · intro hs hf
    simp only [MotionProfilesManager.isWantedProfile, Profile.sip] at hs ⊢
    have h1 : p.stream_type = q.stream_type := congrArg Prod.fst hs
    have h2 : p.stream_index = q.stream_index := congrArg Prod.snd hs
    rw [h1, h2, hf]

/-- Witness of C7: with 200 fps desired for Gyro/0, `gyro_200` and `gyro_400`
get different results, and `gyro_200` gets the result of `gyro_200_other`,
which differs from it in format, width and height only. -/
theorem C7_motion_isWantedProfile_witness :
    (sample_motion.isWantedProfile gyro_200).1 ≠ (sample_motion.isWantedProfile gyro_400).1 ∧
    (sample_motion.isWantedProfile gyro_200).1 =
      (sample_motion.isWantedProfile gyro_200_other).1 :=
  ⟨(C7_motion_isWantedProfile sample_motion gyro_200 gyro_400).2.1 (by decide) (by decide)
      (by simp [Double.ofInt, sample_motion, gyro_200, StdMap.find, Profile.sip]),
    (C7_motion_isWantedProfile sample_motion gyro_200 gyro_200_other).2.2 (by decide)
      (by decide)⟩

/-- C10 (evaluation at the failing input): `VideoProfilesManager::isTypeExist`
returns the member `_is_profile_exist`, which registration and the enable flags
never write. Whatever value `b` the member starts from, the freshly constructed
selector (empty catalog) and the selector after registering `depth_640` (flag
true) both return `b`, so the result is not "some image-typed catalog profile is
enabled" in both states. -/
theorem C10_video_isTypeExist_ignores_catalog (lib : Externals) (name : String)
    (f w h : Int) (b : Bool) :
    (VideoProfilesManager.new no_parameters name f w h b).isTypeExist = b ∧
    hasEnabledVideoProfile
      (VideoProfilesManager.new no_parameters name f w h b).toProfilesManager = false ∧
    ((VideoProfilesManager.new no_parameters name f w h b).registerProfileParameters lib
      [depth_640]).isTypeExist = b ∧
    hasEnabledVideoProfile
      ((VideoProfilesManager.new no_parameters name f w h b).registerProfileParameters lib
        [depth_640]).toProfilesManager = true ∧
    (∀ (self : VideoProfilesManager) (all_profiles : List Profile),
      (self.registerProfileParameters lib all_profiles).isTypeExist = self.isTypeExist) ∧
    (∀ (self : VideoProfilesManager) (sip : stream_index_pair) (value : Bool),
      ((Selector.video self).set_enable_flag sip value).isTypeExist = self.isTypeExist) := by
  have reg : ∀ (self : VideoProfilesManager) (all_profiles : List Profile),
      (self.registerProfileParameters lib all_profiles).isTypeExist = self.isTypeExist := by
    intro self all_profiles
    unfold VideoProfilesManager.registerProfileParameters VideoProfilesManager.isTypeExist
    by_cases he : (collect_profiles ProfileKind.video_stream_profile all_profiles
        (self._all_profiles, [])).2.isEmpty = true
    · simp [he]
    · simp [he, VideoProfilesManager.registerVideoSensorParams]
  refine ⟨rfl, rfl, ?_, ?_, reg, ?_⟩
  · rw [reg]
    rfl
  · rfl
  · intro self sip value
    rfl

/-! ### The loop bodies do not raise -/

theorem tryCatch_ok {α : Type} (a : α) (h : Exn → Except Exn α) :
    tryCatch (Except.ok a : Except Exn α) h = Except.ok a := rfl

theorem tryCatch_error {α : Type} (e : Exn) (h : Exn → Except Exn α) :
    tryCatch (Except.error e : Except Exn α) h = h e := rfl

theorem addWantedProfiles_visit_eq (lib : Externals) (st : Walk) (profile : Profile) :
    addWantedProfiles_visit lib st profile = Except.ok (visit_state lib st profile) := by
  unfold addWantedProfiles_visit visit_state
  simp only [Profile.sip]
  cases hflag : (StdMap.index st.self.base._enabled_profiles (profile.stream_type, profile.stream_index) false).1
  · simp [pure, Except.pure]
  · by_cases hw : (Selector.isWantedProfile lib (Selector.set_enabled_profiles
      (StdMap.index st.self.base._enabled_profiles (profile.stream_type, profile.stream_index) false).2
        st.self) profile).1 = true <;>
    by_cases hdef : profile.is_default = true <;>
    cases hfound : StdMap.find st.found_sips (profile.stream_type, profile.stream_index) with
    | none =>
      simp [StdMap.lookup_at, hfound, bind, Except.bind, pure, Except.pure, tryCatch_error, hw, hdef]
    | some b =>
      cases b <;>
      simp [StdMap.lookup_at, hfound, bind, Except.bind, pure, Except.pure, tryCatch_ok, hw, hdef,
        StdMap.emplace]

theorem addWantedProfiles_report_eq (lib : Externals) (st : Walk)
    (found_sip : stream_index_pair × Bool) :
    addWantedProfiles_report lib st found_sip = Except.ok (report_state lib st found_sip) := by
  unfold addWantedProfiles_report report_state
  cases hb : found_sip.2
  · simp [bind, Except.bind, pure, Except.pure, tryCatch_ok, StdMap.index_fst, fallback_text,
      StdMap.find_index_snd]
  · simp [pure, Except.pure]

theorem foldlM_ok_eq {σ α : Type} (f : σ → α → Except Exn σ) (g : σ → α → σ)
    (h : ∀ s a, f s a = Except.ok (g s a)) (l : List α) (s : σ) :
    l.foldlM f s = Except.ok (l.foldl g s) := by
  induction l generalizing s with
  | nil => rfl
  | cons a rest ih =>
    simp only [List.foldlM_cons, List.foldl_cons, h, bind, Except.bind]
    exact ih (g s a)

/-- The walk of the catalog, in closed form. -/
theorem addWantedProfiles_eq (lib : Externals) (self : Selector)
    (wanted_profiles : List stream_profile) :
    addWantedProfiles lib self wanted_profiles =
      Except.ok
        (let st1 := self.base._all_profiles.foldl (visit_state lib)
          (Walk.mk self [] [] wanted_profiles [])
         let st2 := st1.found_sips.foldl (report_state lib) st1
         Selection.mk st2.self st2.wanted_profiles st2.log) := by
  unfold addWantedProfiles
  simp only [foldlM_ok_eq _ _ (addWantedProfiles_visit_eq lib),
    foldlM_ok_eq _ _ (addWantedProfiles_report_eq lib), bind, Except.bind, pure, Except.pure]

/-! ### Key order -/

theorem sip_less_iff (a1 b1 : Nat) (a2 b2 : Int) :
    sip_less (a1, a2) (b1, b2) = true ↔ a1 < b1 ∨ (a1 = b1 ∧ a2 < b2) := by
  simp [sip_less]

theorem sip_less_irrefl (a1 : Nat) (a2 : Int) : sip_less (a1, a2) (a1, a2) = false := by
  simp [sip_less]

theorem sip_less_trans (a1 b1 c1 : Nat) (a2 b2 c2 : Int)
    (h1 : sip_less (a1, a2) (b1, b2) = true) (h2 : sip_less (b1, b2) (c1, c2) = true) :
    sip_less (a1, a2) (c1, c2) = true := by
  rw [sip_less_iff] at *
  omega

theorem sip_less_total (a1 b1 : Nat) (a2 b2 : Int) (hne : ¬ (a1 = b1 ∧ a2 = b2))
    (h : sip_less (a1, a2) (b1, b2) = false) : sip_less (b1, b2) (a1, a2) = true := by
  have e1 : ¬ (a1 < b1 ∨ (a1 = b1 ∧ a2 < b2)) := by
    rw [← sip_less_iff, h]
    exact Bool.noConfusion
  rw [sip_less_iff]
  omega

instance : LawfulKeyLess stream_index_pair where
  irrefl := fun a => sip_less_irrefl a.1 a.2
  trans := fun a b c h1 h2 => sip_less_trans a.1 b.1 c.1 a.2 b.2 c.2 h1 h2
  total := fun a b hne h =>
    sip_less_total a.1 b.1 a.2 b.2 (fun e => hne (Prod.ext e.1 e.2)) h

namespace StdMap

variable {K V : Type} [DecidableEq K] [KeyLess K]

theorem mem_put (m : StdMap K V) (k : K) (v : V) (x : K × V) (h : x ∈ put m k v) :
    x = (k, v) ∨ x ∈ m := by
  induction m with
  | nil => simpa [put] using h
  | cons e rest ih =>
    obtain ⟨k2, v2⟩ := e
    unfold put at h
    by_cases h1 : k2 = k
    · simp only [h1, if_true, List.mem_cons] at h
      rcases h with h | h
      · exact Or.inl h
      · exact Or.inr (List.mem_cons_of_mem _ h)
    · by_cases h3 : KeyLess.less k k2 = true
      · simp only [h1, h3, if_true, if_false, List.mem_cons] at h
        rcases h with h | h | h
        · exact Or.inl h
        · exact Or.inr (h ▸ List.mem_cons_self _ _)
        · exact Or.inr (List.mem_cons_of_mem _ h)
      · simp only [h1, h3, if_false, List.mem_cons, Bool.false_eq_true] at h
        rcases h with h | h
        · exact Or.inr (h ▸ List.mem_cons_self _ _)
        · rcases ih h with h | h
          · exact Or.inl h
          · exact Or.inr (List.mem_cons_of_mem _ h)

variable [LawfulKeyLess K]

theorem ordered_put (m : StdMap K V) (k : K) (v : V) (h : Ordered m) : Ordered (put m k v) := by
  induction m with
  | nil => simp [put, Ordered]
  | cons e rest ih =>
    obtain ⟨k2, v2⟩ := e
    unfold Ordered at h ih ⊢
    rw [List.pairwise_cons] at h
    unfold put
    by_cases h1 : k2 = k
    · subst h1
      simp only [if_true]
      exact List.pairwise_cons.mpr ⟨h.1, h.2⟩
    · by_cases h3 : KeyLess.less k k2 = true
      · simp only [h1, h3, if_true, if_false]
        refine List.pairwise_cons.mpr ⟨?_, List.pairwise_cons.mpr h⟩
        intro x hx
        rcases List.mem_cons.mp hx with hx | hx
        · rw [hx]
          exact h3
        · exact LawfulKeyLess.trans _ _ _ h3 (h.1 x hx)
      · simp only [h1, h3, if_false]
        refine List.pairwise_cons.mpr ⟨?_, ih h.2⟩
        intro x hx
        rcases mem_put rest k v x hx with hx | hx
        · rw [hx]
          exact LawfulKeyLess.total k k2 (fun e => h1 e.symm) (by simpa using h3)
        · exact h.1 x hx

theorem ordered_emplace (m : StdMap K V) (k : K) (v : V) (h : Ordered m) :
    Ordered (emplace m k v) := by
  unfold emplace
  cases find m k with
  | none => exact ordered_put m k v h
  | some _ => exact h

theorem find_eq_none_of_less (m : StdMap K V) (k : K)
    (h : ∀ x ∈ m, KeyLess.less k x.1 = true) : find m k = none := by
  induction m with
  | nil => rfl
  | cons e rest ih =>
    obtain ⟨k2, v2⟩ := e
    have h2 : k2 ≠ k := by
      intro e
      have := h (k2, v2) (List.mem_cons_self _ _)
      rw [e, LawfulKeyLess.irrefl] at this
      exact Bool.noConfusion this
    simp only [find, h2, if_false]
    exact ih (fun x hx => h x (List.mem_cons_of_mem _ hx))

theorem find_tail_of_ordered (k : K) (v : V) (rest : StdMap K V)
    (h : Ordered ((k, v) :: rest)) : find rest k = none :=
  find_eq_none_of_less rest k (List.pairwise_cons.mp h).1

theorem mem_iff_find (m : StdMap K V) (h : Ordered m) (k : K) (v : V) :
    (k, v) ∈ m ↔ find m k = some v := by
  induction m with
  | nil => simp [find]
  | cons e rest ih =>
    obtain ⟨k2, v2⟩ := e
    have hr : Ordered rest := (List.pairwise_cons.mp h).2
    by_cases h1 : k2 = k
    · subst h1
      have hn := find_tail_of_ordered k2 v2 rest h
      have hnot : (k2, v) ∉ rest := fun hm => by
        rw [(ih hr).mp hm] at hn
        exact Option.noConfusion hn
      simp only [List.mem_cons, find, if_true, Prod.mk.injEq, true_and, hnot, or_false,
        Option.some.injEq]
      exact eq_comm
    · have hne : (k, v) ≠ (k2, v2) := fun e => h1 (congrArg Prod.fst e).symm
      simp only [List.mem_cons, find, h1, if_false, hne, false_or]
      exact ih hr

end StdMap

/-! ### States of a selector that answer alike -/

theorem SameView.refl (lib : Externals) (s : Selector) : SameView lib s s :=
  ⟨rfl, fun _ => rfl, fun _ => rfl, fun _ => rfl⟩

theorem SameView.trans {lib : Externals} {s t u : Selector}
    (h1 : SameView lib s t) (h2 : SameView lib t u) : SameView lib s u :=
  ⟨h2.1.trans h1.1, fun k => (h2.2.1 k).trans (h1.2.1 k),
    fun p => (h2.2.2.1 p).trans (h1.2.2.1 p), fun k => (h2.2.2.2 k).trans (h1.2.2.2 k)⟩

theorem motion_wants_index (fps : StdMap stream_index_pair Double) (k : stream_index_pair)
    (base : ProfilesManager) (q : Profile) :
    ((MotionProfilesManager.mk base (StdMap.index fps k Double.zero).2).isWantedProfile q).1 =
      ((MotionProfilesManager.mk base fps).isWantedProfile q).1 := by
  simp only [MotionProfilesManager.isWantedProfile, StdMap.index_fst, StdMap.getD_find_index_snd]

theorem motion_string_index (lib : Externals) (fps : StdMap stream_index_pair Double)
    (k : stream_index_pair) (base : ProfilesManager) (q : stream_index_pair) :
    ((MotionProfilesManager.mk base (StdMap.index fps k Double.zero).2).wanted_profile_string
        lib q).1 =
      ((MotionProfilesManager.mk base fps).wanted_profile_string lib q).1 := by
  simp only [MotionProfilesManager.wanted_profile_string, StdMap.index_fst,
    StdMap.getD_find_index_snd]

theorem SameView.isWantedProfile (lib : Externals) (s : Selector) (p : Profile) :
    SameView lib s (s.isWantedProfile lib p).2.1 := by
  cases s with
  | video m =>
    simp only [Selector.isWantedProfile, video_isWantedProfile_self]
    exact SameView.refl lib _
  | motion m =>
    obtain ⟨base, fps⟩ := m
    refine ⟨rfl, fun _ => rfl, fun q => ?_, fun q => ?_⟩
    · simp only [Selector.wants, Selector.isWantedProfile]
      exact motion_wants_index fps _ base q
    · simp only [Selector.wanted_profile_string, Selector.isWantedProfile]
      exact motion_string_index lib fps _ base q
  | pose m => exact SameView.refl lib _

theorem SameView.wanted_profile_string (lib : Externals) (s : Selector) (k : stream_index_pair) :
    SameView lib s (s.wanted_profile_string lib k).2 := by
  cases s with
  | video m => exact SameView.refl lib _
  | motion m =>
    obtain ⟨base, fps⟩ := m
    refine ⟨rfl, fun _ => rfl, fun q => ?_, fun q => ?_⟩
    · simp only [Selector.wants, Selector.isWantedProfile, Selector.wanted_profile_string]
      exact motion_wants_index fps _ base q
    · simp only [Selector.wanted_profile_string]
      exact motion_string_index lib fps _ base q
  | pose m => exact SameView.refl lib _

theorem SameView.set_enabled_profiles (lib : Externals) (s : Selector) (k : stream_index_pair) :
    SameView lib s
      (s.set_enabled_profiles (StdMap.index s.base._enabled_profiles k false).2) := by
  refine ⟨?_, fun q => ?_, fun q => ?_, fun q => ?_⟩
  · cases s <;> rfl
  · have h : (s.set_enabled_profiles
        (StdMap.index s.base._enabled_profiles k false).2).base._enabled_profiles =
        (StdMap.index s.base._enabled_profiles k false).2 := by cases s <;> rfl
    simp only [Selector.enabled, h, StdMap.getD_find_index_snd]
  · cases s with
    | video m =>
      simp only [Selector.wants, Selector.isWantedProfile, Selector.set_enabled_profiles]
      rw [Bool.eq_iff_iff, video_isWantedProfile_iff, video_isWantedProfile_iff]
    | motion m => rfl
    | pose m => rfl
  · cases s <;> rfl

/-! ### One round of the first loop -/

theorem visit_state_inactive (lib : Externals) (st : Walk) (p : Profile)
    (h : st.active p = false) :
    visit_state lib st p =
      Walk.mk (st.self.set_enabled_profiles
          (StdMap.index st.self.base._enabled_profiles p.sip false).2)
        st.found_sips st.default_profiles st.wanted_profiles st.log := by
  unfold visit_state
  have hc : ¬ ((StdMap.index st.self.base._enabled_profiles p.sip false).1 = true ∧
      StdMap.find st.found_sips p.sip ≠ some true) := by
    intro hc
    rw [StdMap.index_fst] at hc
    simp [Walk.active, Selector.enabled, hc.1, hc.2] at h
  simp only [hc, if_false]

theorem visit_state_active (lib : Externals) (st : Walk) (p : Profile)
    (h : st.active p = true) :
    visit_state lib st p =
      { self := ((st.self.set_enabled_profiles
          (StdMap.index st.self.base._enabled_profiles p.sip false).2).isWantedProfile lib p).2.1
        found_sips :=
          if st.self.wants lib p = true then
            StdMap.assign (StdMap.emplace st.found_sips p.sip false) p.sip true
          else StdMap.emplace st.found_sips p.sip false
        default_profiles :=
          if p.is_default = true then StdMap.assign st.default_profiles p.sip (some p)
          else st.default_profiles
        wanted_profiles :=
          if st.self.wants lib p = true then st.wanted_profiles ++ [some p]
          else st.wanted_profiles
        log :=
          if st.self.wants lib p = true then
            (st.log ++ ((st.self.set_enabled_profiles
              (StdMap.index st.self.base._enabled_profiles p.sip false).2).isWantedProfile
                lib p).2.2) ++ [LogEntry.mk Severity.debug p.sip
              ("Found profile for " ++ lib.rs2_stream_to_string p.sip.1 ++ ":" ++
                toString p.sip.2)]
          else st.log ++ ((st.self.set_enabled_profiles
              (StdMap.index st.self.base._enabled_profiles p.sip false).2).isWantedProfile
                lib p).2.2 } := by
  unfold visit_state
  have hc : (StdMap.index st.self.base._enabled_profiles p.sip false).1 = true ∧
      StdMap.find st.found_sips p.sip ≠ some true := by
    rw [StdMap.index_fst]
    simpa [Walk.active, Selector.enabled] using h
  have hw : ((st.self.set_enabled_profiles
      (StdMap.index st.self.base._enabled_profiles p.sip false).2).isWantedProfile lib p).1 =
      st.self.wants lib p := (SameView.set_enabled_profiles lib st.self p.sip).2.2.1 p
  simp only [hc, hw, ne_eq, not_false_eq_true, and_self, if_true]

theorem visit_state_view (lib : Externals) (st : Walk) (p : Profile) :
    SameView lib st.self (visit_state lib st p).self := by
  cases h : st.active p
  · rw [visit_state_inactive lib st p h]
    exact SameView.set_enabled_profiles lib st.self p.sip
  · rw [visit_state_active lib st p h]
    exact (SameView.set_enabled_profiles lib st.self p.sip).trans
      (SameView.isWantedProfile lib _ p)

theorem visit_state_found (lib : Externals) (st : Walk) (p : Profile) (k : stream_index_pair) :
    StdMap.find (visit_state lib st p).found_sips k =
      if st.active p = true ∧ p.sip = k then some (st.self.wants lib p)
      else StdMap.find st.found_sips k := by
  cases h : st.active p
  · rw [visit_state_inactive lib st p h]
    simp
  · rw [visit_state_active lib st p h]
    have hf : (StdMap.find st.found_sips p.sip).getD false = false := by
      have : StdMap.find st.found_sips p.sip ≠ some true := by
        simpa [Walk.active] using (Bool.and_eq_true_iff.mp h).2
      cases hv : StdMap.find st.found_sips p.sip with
      | none => rfl
      | some b =>
        cases b
        · rfl
        · exact absurd hv this
    by_cases hk : p.sip = k
    · subst hk
      cases hw : st.self.wants lib p <;>
        simp [StdMap.assign, StdMap.find_put, StdMap.find_emplace, hf]
    · cases hw : st.self.wants lib p <;>
        simp [hk, StdMap.assign, StdMap.find_put, StdMap.find_emplace]

theorem visit_state_defaults (lib : Externals) (st : Walk) (p : Profile)
    (k : stream_index_pair) :
    StdMap.find (visit_state lib st p).default_profiles k =
      if st.active p = true ∧ p.sip = k ∧ p.is_default = true then some (some p)
      else StdMap.find st.default_profiles k := by
  cases h : st.active p
  · rw [visit_state_inactive lib st p h]
    simp
  · rw [visit_state_active lib st p h]
    by_cases hd : p.is_default = true
    · by_cases hk : p.sip = k <;> simp [hd, hk, StdMap.assign, StdMap.find_put]
    · simp [hd]

theorem visit_state_wanted_profiles (lib : Externals) (st : Walk) (p : Profile) :
    (visit_state lib st p).wanted_profiles =
      st.wanted_profiles ++
        (if st.active p = true ∧ st.self.wants lib p = true then [some p] else []) := by
  cases h : st.active p
  · rw [visit_state_inactive lib st p h]
    simp
  · rw [visit_state_active lib st p h]
    cases hw : st.self.wants lib p <;> simp

theorem visit_state_ordered (lib : Externals) (st : Walk) (p : Profile)
    (ho : StdMap.Ordered st.found_sips) : StdMap.Ordered (visit_state lib st p).found_sips := by
  cases h : st.active p
  · rw [visit_state_inactive lib st p h]
    exact ho
  · rw [visit_state_active lib st p h]
    cases hw : st.self.wants lib p
    · exact StdMap.ordered_emplace _ _ _ ho
    · exact StdMap.ordered_put _ _ _ (StdMap.ordered_emplace _ _ _ ho)

theorem isWantedProfile_log_debug (lib : Externals) (s : Selector) (p : Profile) :
    ∀ e ∈ (s.isWantedProfile lib p).2.2, e.severity = Severity.debug := by
  intro e he
  cases s with
  | video m =>
    simp only [Selector.isWantedProfile, VideoProfilesManager.isWantedProfile] at he
    split at he
    · simp at he
    · split at he
      · split at he <;> simp at he <;> rw [he]
      · simp at he
        rw [he]
  | motion m => simp [Selector.isWantedProfile] at he
  | pose m => simp [Selector.isWantedProfile] at he

theorem visit_state_log (lib : Externals) (st : Walk) (p : Profile) :
    ∀ e ∈ (visit_state lib st p).log, e ∈ st.log ∨ e.severity = Severity.debug := by
  intro e he
  cases h : st.active p
  · rw [visit_state_inactive lib st p h] at he
    exact Or.inl he
  · rw [visit_state_active lib st p h] at he
    simp only at he
    split at he
    · rcases List.mem_append.mp he with he | he
      · rcases List.mem_append.mp he with he | he
        · exact Or.inl he
        · exact Or.inr (isWantedProfile_log_debug lib _ p e he)
      · simp only [List.mem_singleton] at he
        rw [he]
        exact Or.inr rfl
    · rcases List.mem_append.mp he with he | he
      · exact Or.inl he
      · exact Or.inr (isWantedProfile_log_debug lib _ p e he)

/-! ### The first loop over a catalog -/

theorem firstWanted_append (lib : Externals) (self : Selector) (k : stream_index_pair)
    (ps : List Profile) (p : Profile) :
    firstWanted lib self k (ps ++ [p]) =
      (firstWanted lib self k ps).or
        (if p.sip = k ∧ self.wants lib p = true then some p else none) := by
  unfold firstWanted
  rw [List.find?_append]
  congr 1
  by_cases h1 : p.sip = k <;> cases h2 : self.wants lib p <;> simp [List.find?, h1, h2]

theorem lastDefault_append (k : stream_index_pair) (ps : List Profile) (p : Profile) :
    lastDefault k (ps ++ [p]) =
      if p.sip = k ∧ p.is_default = true then some p else lastDefault k ps := by
  unfold lastDefault
  rw [List.reverse_append]
  by_cases h1 : p.sip = k <;> cases h2 : p.is_default <;> simp [List.find?, h1, h2]

theorem hasProfileOf_append (k : stream_index_pair) (ps : List Profile) (p : Profile) :
    hasProfileOf k (ps ++ [p]) = (hasProfileOf k ps || decide (p.sip = k)) := by
  simp [hasProfileOf, List.any_append]

theorem hasProfileOf_of_firstWanted (lib : Externals) (self : Selector) (k : stream_index_pair)
    (ps : List Profile) (p : Profile) (h : firstWanted lib self k ps = some p) :
    hasProfileOf k ps = true := by
  unfold firstWanted at h
  have hm := List.mem_of_find?_eq_some h
  have hp := List.find?_some h
  simp only [Bool.and_eq_true, decide_eq_true_eq] at hp
  simp only [hasProfileOf, List.any_eq_true, decide_eq_true_eq]
  exact ⟨p, hm, hp.1⟩

theorem walk_append (lib : Externals) (self : Selector) (out : List stream_profile)
    (ps : List Profile) (p : Profile) :
    walk lib self out (ps ++ [p]) = visit_state lib (walk lib self out ps) p := by
  simp [walk, List.foldl_append]

theorem walk_view (lib : Externals) (self : Selector) (out : List stream_profile)
    (ps : List Profile) : SameView lib self (walk lib self out ps).self := by
  induction ps using List.reverseRecOn with
  | nil => exact SameView.refl lib self
  | append_singleton ps p ih =>
    rw [walk_append]
    exact ih.trans (visit_state_view lib _ p)

theorem walk_ordered (lib : Externals) (self : Selector) (out : List stream_profile)
    (ps : List Profile) : StdMap.Ordered (walk lib self out ps).found_sips := by
  induction ps using List.reverseRecOn with
  | nil => exact List.Pairwise.nil
  | append_singleton ps p ih =>
    rw [walk_append]
    exact visit_state_ordered lib _ p ih

theorem walk_log (lib : Externals) (self : Selector) (out : List stream_profile)
    (ps : List Profile) : ∀ e ∈ (walk lib self out ps).log, e.severity = Severity.debug := by
  induction ps using List.reverseRecOn with
  | nil =>
    intro e he
    simp [walk] at he
  | append_singleton ps p ih =>
    rw [walk_append]
    intro e he
    rcases visit_state_log lib _ p e he with h | h
    · exact ih e h
    · exact h

theorem walk_found (lib : Externals) (self : Selector) (out : List stream_profile)
    (ps : List Profile) (k : stream_index_pair) :
    StdMap.find (walk lib self out ps).found_sips k =
      if self.enabled k = true ∧ hasProfileOf k ps = true then
        some (firstWanted lib self k ps).isSome
      else none := by
  induction ps using List.reverseRecOn generalizing k with
  | nil => simp [walk, StdMap.find, hasProfileOf]
  | append_singleton ps p ih =>
    rw [walk_append, visit_state_found, firstWanted_append, hasProfileOf_append]
    have hv := walk_view lib self out ps
    have hact : (walk lib self out ps).active p =
        (self.enabled p.sip && !(firstWanted lib self p.sip ps).isSome) := by
      unfold Walk.active
      rw [hv.2.1, ih p.sip]
      cases hE : self.enabled p.sip
      · simp
      · cases hfw : firstWanted lib self p.sip ps with
        | none => cases hh : hasProfileOf p.sip ps <;> simp
        | some q => simp [hasProfileOf_of_firstWanted lib self p.sip ps q hfw]
    rw [hact, hv.2.2.1 p, ih k]
    by_cases hk : p.sip = k
    · subst hk
      cases hE : self.enabled p.sip
      · simp
      · cases hfw : firstWanted lib self p.sip ps with
        | none => cases hw : self.wants lib p <;> simp
        | some q => simp [hasProfileOf_of_firstWanted lib self p.sip ps q hfw]
    · simp [hk]

theorem walk_active (lib : Externals) (self : Selector) (out : List stream_profile)
    (ps : List Profile) (p : Profile) :
    (walk lib self out ps).active p =
      (self.enabled p.sip && !(firstWanted lib self p.sip ps).isSome) := by
  unfold Walk.active
  rw [(walk_view lib self out ps).2.1, walk_found]
  cases hE : self.enabled p.sip
  · simp
  · cases hfw : firstWanted lib self p.sip ps with
    | none => cases hh : hasProfileOf p.sip ps <;> simp
    | some q => simp [hasProfileOf_of_firstWanted lib self p.sip ps q hfw]

theorem filter_hasKey_singleton (k : stream_index_pair) (p : Profile) :
    [(some p : stream_profile)].filter (stream_profile.hasKey k) =
      if p.sip = k then [some p] else [] := by
  by_cases h : p.sip = k <;> simp [List.filter, stream_profile.hasKey, h]

theorem walk_wanted_profiles (lib : Externals) (self : Selector) (out : List stream_profile)
    (ps : List Profile) (k : stream_index_pair) :
    (walk lib self out ps).wanted_profiles.filter (stream_profile.hasKey k) =
      out.filter (stream_profile.hasKey k) ++
        (if self.enabled k = true then (firstWanted lib self k ps).toList.map some else []) := by
  induction ps using List.reverseRecOn with
  | nil => simp [walk, firstWanted]
  | append_singleton ps p ih =>
    rw [walk_append, visit_state_wanted_profiles, List.filter_append, ih, firstWanted_append,
      walk_active, (walk_view lib self out ps).2.2.1 p, List.append_assoc]
    congr 1
    by_cases hk : p.sip = k
    · subst hk
      cases hE : self.enabled p.sip
      · simp
      · cases hfw : firstWanted lib self p.sip ps with
        | none => cases hw : self.wants lib p <;> simp [filter_hasKey_singleton]
        | some q => simp
    · have hn : ¬ (p.sip = k ∧ self.wants lib p = true) := fun h => hk h.1
      have hf : ∀ l : List stream_profile, l = [some p] ∨ l = [] →
          l.filter (stream_profile.hasKey k) = [] := by
        intro l hl
        rcases hl with hl | hl
        · rw [hl, filter_hasKey_singleton]
          simp [hk]
        · rw [hl]
          rfl
      simp only [hn, if_false, Option.or_none]
      rw [hf _ (by split <;> simp), List.append_nil]

theorem walk_defaults_sound (lib : Externals) (self : Selector) (out : List stream_profile)
    (ps : List Profile) (k : stream_index_pair) (d : stream_profile)
    (h : StdMap.find (walk lib self out ps).default_profiles k = some d) :
    ∃ p ∈ ps, d = some p ∧ p.sip = k ∧ p.is_default = true := by
  induction ps using List.reverseRecOn with
  | nil => simp [walk, StdMap.find] at h
  | append_singleton ps p ih =>
    rw [walk_append, visit_state_defaults] at h
    split at h
    · rename_i hc
      refine ⟨p, by simp, ?_, hc.2.1, hc.2.2⟩
      exact (Option.some.inj h).symm
    · obtain ⟨q, hq, hrest⟩ := ih h
      exact ⟨q, List.mem_append_left _ hq, hrest⟩

theorem walk_defaults (lib : Externals) (self : Selector) (out : List stream_profile)
    (ps : List Profile) (k : stream_index_pair) (hE : self.enabled k = true)
    (hnone : firstWanted lib self k ps = none) :
    StdMap.find (walk lib self out ps).default_profiles k = (lastDefault k ps).map some := by
  induction ps using List.reverseRecOn with
  | nil => simp [walk, StdMap.find, lastDefault]
  | append_singleton ps p ih =>
    rw [firstWanted_append] at hnone
    have hps : firstWanted lib self k ps = none := by
      cases hfw : firstWanted lib self k ps with
      | none => rfl
      | some q => simp [hfw] at hnone
    rw [walk_append, visit_state_defaults, lastDefault_append, walk_active, ih hps]
    by_cases hk : p.sip = k
    · subst hk
      cases hd : p.is_default <;> simp [hE, hps]
    · simp [hk]

/-! ### The second loop -/

theorem fallback_text_view (lib : Externals) (s t : Selector) (h : SameView lib s t)
    (k : stream_index_pair) (d : Option stream_profile) :
    fallback_text lib t k d = fallback_text lib s k d := by
  unfold fallback_text
  rw [h.2.2.2 k]

theorem report_state_defaults (lib : Externals) (st : Walk) (k1 k : stream_index_pair) :
    StdMap.find (report_state lib st (k1, false)).default_profiles k =
      if k1 = k then some ((StdMap.find st.default_profiles k1).getD none)
      else StdMap.find st.default_profiles k := by
  simp only [report_state, Bool.false_eq_true, if_false, StdMap.find_index_snd]
  by_cases h : k1 = k
  · simp [h]
  · simp [h]

theorem warningsFor_append (k : stream_index_pair) (l1 l2 : List LogEntry) :
    warningsFor k (l1 ++ l2) = warningsFor k l1 ++ warningsFor k l2 := by
  simp [warningsFor, List.filter_append]

theorem warningsFor_warn (k k1 : stream_index_pair) (text : String) :
    warningsFor k [LogEntry.mk Severity.warn k1 text] =
      if k1 = k then [LogEntry.mk Severity.warn k1 text] else [] := by
  by_cases h : k1 = k <;> simp [warningsFor, List.filter, h]

theorem report_fold (lib : Externals) (fs : StdMap stream_index_pair Bool)
    (hfs : StdMap.Ordered fs) (st : Walk)
    (hD : ∀ k d, StdMap.find st.default_profiles k = some (some d) → d.sip = k)
    (k : stream_index_pair) :
    (fs.foldl (report_state lib) st).wanted_profiles.filter (stream_profile.hasKey k) =
        st.wanted_profiles.filter (stream_profile.hasKey k) ++
          (if StdMap.find fs k = some false then
            ((StdMap.find st.default_profiles k).getD none).toList.map some
          else []) ∧
    warningsFor k (fs.foldl (report_state lib) st).log =
        warningsFor k st.log ++
          (if StdMap.find fs k = some false then
            [LogEntry.mk Severity.warn k
              (fallback_text lib st.self k (StdMap.find st.default_profiles k))]
          else []) ∧
    SameView lib st.self (fs.foldl (report_state lib) st).self := by
  induction fs generalizing st with
  | nil => simp [StdMap.find, SameView.refl]
  | cons e rest ih =>
    obtain ⟨k1, b1⟩ := e
    have hrest : StdMap.Ordered rest := (List.pairwise_cons.mp hfs).2
    have htail : StdMap.find rest k1 = none := StdMap.find_tail_of_ordered k1 b1 rest hfs
    rw [List.foldl_cons]
    cases b1 with
    | true =>
      have hst : report_state lib st (k1, true) = st := by simp [report_state]
      rw [hst]
      obtain ⟨h1, h2, h3⟩ := ih hrest st hD
      refine ⟨?_, ?_, h3⟩
      · rw [h1]
        by_cases hk : k1 = k
        · subst hk
          simp [StdMap.find, htail]
        · simp [StdMap.find, hk]
      · rw [h2]
        by_cases hk : k1 = k
        · subst hk
          simp [StdMap.find, htail]
        · simp [StdMap.find, hk]
    | false =>
      have hD1 : ∀ k d, StdMap.find (report_state lib st (k1, false)).default_profiles k =
          some (some d) → d.sip = k := by
        intro k2 d hd
        rw [report_state_defaults] at hd
        by_cases hk : k1 = k2
        · subst hk
          simp only [if_true, Option.some.injEq] at hd
          cases hv : StdMap.find st.default_profiles k1 with
          | none => simp [hv] at hd
          | some x =>
            rw [hv] at hd
            simp only [Option.getD_some] at hd
            exact hD k1 d (by rw [hv, hd])
        · simp only [hk, if_false] at hd
          exact hD k2 d hd
      have hview : SameView lib st.self (report_state lib st (k1, false)).self := by
        simp only [report_state, Bool.false_eq_true, if_false]
        exact SameView.wanted_profile_string lib st.self k1
      obtain ⟨h1, h2, h3⟩ := ih hrest (report_state lib st (k1, false)) hD1
      refine ⟨?_, ?_, hview.trans h3⟩
      · rw [h1, report_state_defaults]
        simp only [report_state, Bool.false_eq_true, if_false, List.filter_append,
          List.append_assoc]
        congr 1
        by_cases hk : k1 = k
        · subst hk
          simp only [StdMap.find, if_true, htail]
          cases hv : StdMap.find st.default_profiles k1 with
          | none => simp [stream_profile.hasKey, List.filter]
          | some x =>
            cases x with
            | none => simp [stream_profile.hasKey, List.filter]
            | some d => simp [stream_profile.hasKey, List.filter, hD k1 d hv]
        · simp only [StdMap.find, hk, if_false]
          have hx : [(StdMap.find st.default_profiles k1).getD none].filter
              (stream_profile.hasKey k) = [] := by
            cases hv : StdMap.find st.default_profiles k1 with
            | none => simp [stream_profile.hasKey, List.filter]
            | some x =>
              cases x with
              | none => simp [stream_profile.hasKey, List.filter]
              | some d => simp [stream_profile.hasKey, List.filter, hD k1 d hv, hk]
          rw [hx, List.nil_append]
      · rw [h2, report_state_defaults, fallback_text_view lib _ _ hview]
        simp only [report_state, Bool.false_eq_true, if_false, warningsFor_append,
          List.append_assoc, warningsFor_warn]
        congr 1
        by_cases hk : k1 = k
        · subst hk
          simp [StdMap.find, htail]
        · simp [StdMap.find, hk]

/-! ### The whole operation, one stream key at a time -/

theorem warningsFor_of_debug (k : stream_index_pair) (log : List LogEntry)
    (h : ∀ e ∈ log, e.severity = Severity.debug) : warningsFor k log = [] := by
  unfold warningsFor
  rw [List.filter_eq_nil_iff]
  intro e he
  simp [h e he]

theorem selection_key (lib : Externals) (self : Selector) (out : List stream_profile)
    (k : stream_index_pair) :
    ∃ r, addWantedProfiles lib self out = Except.ok r ∧
      SameView lib self r.self ∧
      r.wanted_profiles.filter (stream_profile.hasKey k) =
        out.filter (stream_profile.hasKey k) ++
          (if self.enabled k = true then
            (firstWanted lib self k self.base._all_profiles).toList.map some else []) ++
          (if self.enabled k = true ∧ hasProfileOf k self.base._all_profiles = true ∧
              firstWanted lib self k self.base._all_profiles = none then
            (lastDefault k self.base._all_profiles).toList.map some else []) ∧
      warningsFor k r.log =
        (if self.enabled k = true ∧ hasProfileOf k self.base._all_profiles = true ∧
            firstWanted lib self k self.base._all_profiles = none then
          [LogEntry.mk Severity.warn k
            ("Could not find a match for profile: " ++ (self.wanted_profile_string lib k).1 ++
              " : Using Default: " ++ profile_string lib (lastDefault k self.base._all_profiles))]
        else []) := by
  refine ⟨_, addWantedProfiles_eq lib self out, ?_⟩
  have hv := walk_view lib self out self.base._all_profiles
  have hD : ∀ k d, StdMap.find (walk lib self out self.base._all_profiles).default_profiles k =
      some (some d) → d.sip = k := by
    intro k2 d hd
    obtain ⟨p, _, hp, hk, _⟩ := walk_defaults_sound lib self out _ k2 (some d) hd
    rw [Option.some.inj hp]
    exact hk
  obtain ⟨h1, h2, h3⟩ := report_fold lib _ (walk_ordered lib self out self.base._all_profiles)
    (walk lib self out self.base._all_profiles) hD k
  have hcond : StdMap.find (walk lib self out self.base._all_profiles).found_sips k = some false ↔
      (self.enabled k = true ∧ hasProfileOf k self.base._all_profiles = true ∧
        firstWanted lib self k self.base._all_profiles = none) := by
    rw [walk_found]
    by_cases hc : self.enabled k = true ∧ hasProfileOf k self.base._all_profiles = true
    · cases hfw : firstWanted lib self k self.base._all_profiles <;> simp [hc]
    · have hc2 : ¬ (self.enabled k = true ∧ hasProfileOf k self.base._all_profiles = true ∧
          firstWanted lib self k self.base._all_profiles = none) := fun h => hc ⟨h.1, h.2.1⟩
      simp [hc, hc2]
  refine ⟨hv.trans h3, ?_, ?_⟩
  · show List.filter _ (List.foldl (report_state lib) (walk lib self out self.base._all_profiles)
      (walk lib self out self.base._all_profiles).found_sips).wanted_profiles = _
    rw [h1, walk_wanted_profiles]
    congr 1
    by_cases hc : self.enabled k = true ∧ hasProfileOf k self.base._all_profiles = true ∧
        firstWanted lib self k self.base._all_profiles = none
    · rw [if_pos (hcond.mpr hc), if_pos hc, walk_defaults lib self out _ k hc.1 hc.2.2]
      cases lastDefault k self.base._all_profiles <;> rfl
    · rw [if_neg (fun h => hc (hcond.mp h)), if_neg hc]
  · show warningsFor k (List.foldl (report_state lib) (walk lib self out self.base._all_profiles)
      (walk lib self out self.base._all_profiles).found_sips).log = _
    rw [h2, warningsFor_of_debug k _ (walk_log lib self out self.base._all_profiles),
      List.nil_append]
    by_cases hc : self.enabled k = true ∧ hasProfileOf k self.base._all_profiles = true ∧
        firstWanted lib self k self.base._all_profiles = none
    · rw [if_pos (hcond.mpr hc), if_pos hc, walk_defaults lib self out _ k hc.1 hc.2.2,
        fallback_text_view lib _ _ hv]
      unfold fallback_text
      cases lastDefault k self.base._all_profiles <;> rfl
    · rw [if_neg (fun h => hc (hcond.mp h)), if_neg hc]

/-! ### Selection -/

theorem enabled_of_find (self : Selector) (k : stream_index_pair)
    (h : StdMap.find self.base._enabled_profiles k = some true) : self.enabled k = true := by
  simp [Selector.enabled, h]

theorem firstWanted_of_mem (lib : Externals) (self : Selector) (k : stream_index_pair)
    (ps : List Profile) (p : Profile) (hp : p ∈ ps) (hk : p.sip = k)
    (hw : self.wants lib p = true) :
    ∃ q pre post, firstWanted lib self k ps = some q ∧ ps = pre ++ q :: post ∧
      (∀ x ∈ pre, ¬ (x.sip = k ∧ self.wants lib x = true)) ∧
      q.sip = k ∧ self.wants lib q = true := by
  cases hfw : firstWanted lib self k ps with
  | none =>
    unfold firstWanted at hfw
    have := List.find?_eq_none.mp hfw p hp
    simp [hk, hw] at this
  | some q =>
    have h := hfw
    unfold firstWanted at h
    obtain ⟨hq, pre, post, hsplit, hpre⟩ := List.find?_eq_some.mp h
    simp only [Bool.and_eq_true, decide_eq_true_eq] at hq
    refine ⟨q, pre, post, rfl, hsplit, ?_, hq.1, hq.2⟩
    intro x hx hc
    have := hpre x hx
    simp [hc.1, hc.2] at this

/-- C1 (evaluation at the failing input): with 848x480 wanted and a catalog
holding one Depth/0 and one Color/0 profile, both enabled, neither matching nor
flagged default, `addWantedProfiles` on an empty vector leaves two entries, and
both are default-constructed profiles: neither holds a catalog profile of an
enabled stream key. -/
theorem C1_selection_holds_null_profiles :
    video_848_no_default.base._all_profiles = [depth_1280, color_640] ∧
    video_848_no_default.base._enabled_profiles = [((1, 0), true), ((2, 0), true)] ∧
    ∃ r, addWantedProfiles sample_lib video_848_no_default [] = Except.ok r ∧
      r.wanted_profiles = [none, none] := by
  refine ⟨by decide, by decide, _, addWantedProfiles_eq _ _ _, ?_⟩
  decide

/-- C2: when the flag of stream key `k` is true and some catalog profile of key
`k` satisfies `isWantedProfile`, then `addWantedProfiles` on an empty vector
returns, its result holds exactly one profile of key `k`, this profile is the
first one in the catalog that has key `k` and satisfies `isWantedProfile`, and
no warning is emitted for `k`. -/
theorem C2_first_match_selected (lib : Externals) (self : Selector) (k : stream_index_pair)
    (p : Profile)
    (hE : StdMap.find self.base._enabled_profiles k = some true)
    (hp : p ∈ self.base._all_profiles) (hk : p.sip = k) (hw : self.wants lib p = true) :
    ∃ r q pre post, addWantedProfiles lib self [] = Except.ok r ∧
      r.wanted_profiles.filter (stream_profile.hasKey k) = [some q] ∧
      self.base._all_profiles = pre ++ q :: post ∧
      (∀ x ∈ pre, ¬ (x.sip = k ∧ self.wants lib x = true)) ∧
      q.sip = k ∧ self.wants lib q = true ∧
      warningsFor k r.log = [] := by
  obtain ⟨r, hr, _, hout, hlog⟩ := selection_key lib self [] k
  obtain ⟨q, pre, post, hfw, hsplit, hpre, hqk, hqw⟩ :=
    firstWanted_of_mem lib self k _ p hp hk hw
  have hc : ¬ (self.enabled k = true ∧ hasProfileOf k self.base._all_profiles = true ∧
      firstWanted lib self k self.base._all_profiles = none) := by
    intro h
    rw [hfw] at h
    exact Option.noConfusion h.2.2
  refine ⟨r, q, pre, post, hr, ?_, hsplit, hpre, hqk, hqw, ?_⟩
  · rw [hout, if_pos (enabled_of_find self k hE), if_neg hc, hfw]
    rfl
  · rw [hlog, if_neg hc]

/-- Witness of C2: `video_640` wants 640x480 at 30 fps, and `depth_640` is in
its catalog. -/
theorem C2_first_match_selected_witness :
    ∃ r q pre post, addWantedProfiles sample_lib video_640 [] = Except.ok r ∧
      r.wanted_profiles.filter (stream_profile.hasKey (1, 0)) = [some q] ∧
      video_640.base._all_profiles = pre ++ q :: post ∧
      (∀ x ∈ pre, ¬ (x.sip = (1, 0) ∧ video_640.wants sample_lib x = true)) ∧
      q.sip = (1, 0) ∧ video_640.wants sample_lib q = true ∧
      warningsFor (1, 0) r.log = [] :=
  C2_first_match_selected sample_lib video_640 (1, 0) depth_640 (by decide) (by decide)
    (by decide) (by decide)

/-- C4 (evaluation at the failing input): with 848x480 wanted and a catalog
holding the single Depth/0 profile `depth_1280`, enabled, not matching and not
flagged default, `addWantedProfiles` on an empty vector appends one entry, a
default-constructed profile, and the warning for Depth/0 carries a
"Using Default" clause. -/
theorem C4_no_default_appends_null_profile :
    video_848_depth_only.base._all_profiles = [depth_1280] ∧
    video_848_depth_only.base._enabled_profiles = [((1, 0), true)] ∧
    ∃ r, addWantedProfiles sample_lib video_848_depth_only [] = Except.ok r ∧
      r.wanted_profiles = [none] ∧
      warningsFor (1, 0) r.log = [LogEntry.mk Severity.warn (1, 0)
        ("Could not find a match for profile: stream1_0 with width: 848, height: 480, fps: 30" ++
          " : Using Default: " ++ profile_string sample_lib none)] := by
  refine ⟨by decide, by decide, _, addWantedProfiles_eq _ _ _, ?_, ?_⟩
  · decide
  · decide

namespace StdSet

variable {K : Type} [DecidableEq K] [KeyLess K]

theorem mem_insert (s : StdSet K) (k x : K) : x ∈ StdSet.insert s k ↔ x = k ∨ x ∈ s := by
  induction s with
  | nil => simp [StdSet.insert]
  | cons k1 rest ih =>
    unfold StdSet.insert
    by_cases h1 : k1 = k
    · subst h1
      simp only [if_true, List.mem_cons]
      constructor
      · intro h
        exact Or.inr h
      · intro h
        rcases h with h | h
        · exact Or.inl h
        · exact h
    · by_cases h3 : KeyLess.less k k1 = true
      · simp only [h1, h3, if_true, if_false, List.mem_cons]
      · simp only [h1, h3, if_false, List.mem_cons, Bool.false_eq_true, ih]
        constructor
        · intro h
          rcases h with h | h | h
          · exact Or.inr (Or.inl h)
          · exact Or.inl h
          · exact Or.inr (Or.inr h)
        · intro h
          rcases h with h | h | h
          · exact Or.inr (Or.inl h)
          · exact Or.inl h
          · exact Or.inr (Or.inr h)

variable [LawfulKeyLess K]

theorem ordered_insert (s : StdSet K) (k : K) (h : StdSet.Ordered s) :
    StdSet.Ordered (StdSet.insert s k) := by
  induction s with
  | nil => simp [StdSet.insert, StdSet.Ordered]
  | cons k1 rest ih =>
    unfold StdSet.Ordered at h ih ⊢
    rw [List.pairwise_cons] at h
    unfold StdSet.insert
    by_cases h1 : k1 = k
    · simp only [h1, if_true]
      rw [← h1]
      exact List.pairwise_cons.mpr h
    · by_cases h3 : KeyLess.less k k1 = true
      · simp only [h1, h3, if_true, if_false]
        refine List.pairwise_cons.mpr ⟨?_, List.pairwise_cons.mpr h⟩
        intro x hx
        rcases List.mem_cons.mp hx with hx | hx
        · rw [hx]
          exact h3
        · exact LawfulKeyLess.trans _ _ _ h3 (h.1 x hx)
      · simp only [h1, h3, if_false, Bool.false_eq_true]
        refine List.pairwise_cons.mpr ⟨?_, ih h.2⟩
        intro x hx
        rcases (mem_insert rest k x).mp hx with hx | hx
        · rw [hx]
          exact LawfulKeyLess.total k k1 (fun e => h1 e.symm) (by simpa using h3)
        · exact h.1 x hx

end StdSet

theorem StdSet.nodup_of_ordered {K : Type} [KeyLess K] [LawfulKeyLess K] (s : StdSet K) (h : StdSet.Ordered s) : s.Nodup := by
  unfold StdSet.Ordered at h
  refine List.Pairwise.imp ?_ h
  intro a b hab e
  rw [e, LawfulKeyLess.irrefl] at hab
  exact Bool.noConfusion hab

theorem collect_profiles_eq (kind : ProfileKind) (ps : List Profile) (cat : List Profile)
    (set : StdSet stream_index_pair) :
    collect_profiles kind ps (cat, set) =
      (cat ++ ps.filter (fun p => p.is_a kind),
        (ps.filter (fun p => p.is_a kind)).foldl (fun s p => StdSet.insert s p.sip) set) := by
  induction ps generalizing cat set with
  | nil => simp [collect_profiles]
  | cons p rest ih =>
    unfold collect_profiles at ih ⊢
    rw [List.foldl_cons]
    by_cases hk : p.is_a kind = true
    · simp only [hk, Bool.not_true, Bool.false_eq_true, if_false, List.filter_cons, if_true,
        List.foldl_cons]
      rw [ih]
      simp [Profile.sip]
    · have hk2 : p.is_a kind = false := by simpa using hk
      simp only [hk2, Bool.not_false, if_true, List.filter_cons, Bool.false_eq_true, if_false]
      exact ih cat set

theorem collect_profiles_snd (kind : ProfileKind) (ps : List Profile) (cat : List Profile) :
    (collect_profiles kind ps (cat, [])).2 = checked_sips kind ps := by
  rw [collect_profiles_eq]
  rfl

theorem foldl_insert_mem (ps : List Profile) (set : StdSet stream_index_pair)
    (k : stream_index_pair) :
    k ∈ ps.foldl (fun s p => StdSet.insert s p.sip) set ↔ k ∈ set ∨ ∃ p ∈ ps, p.sip = k := by
  induction ps generalizing set with
  | nil => simp
  | cons p rest ih =>
    rw [List.foldl_cons, ih, StdSet.mem_insert]
    constructor
    · intro h
      rcases h with (h | h) | ⟨q, hq, hqk⟩
      · exact Or.inr ⟨p, List.mem_cons_self _ _, h.symm⟩
      · exact Or.inl h
      · exact Or.inr ⟨q, List.mem_cons_of_mem _ hq, hqk⟩
    · intro h
      rcases h with h | ⟨q, hq, hqk⟩
      · exact Or.inl (Or.inr h)
      · rcases List.mem_cons.mp hq with hq | hq
        · exact Or.inl (Or.inl (by rw [← hqk, hq]))
        · exact Or.inr ⟨q, hq, hqk⟩

theorem foldl_insert_ordered (ps : List Profile) (set : StdSet stream_index_pair)
    (h : StdSet.Ordered set) :
    StdSet.Ordered (ps.foldl (fun s p => StdSet.insert s p.sip) set) := by
  induction ps generalizing set with
  | nil => exact h
  | cons p rest ih =>
    rw [List.foldl_cons]
    exact ih _ (StdSet.ordered_insert set p.sip h)

theorem mem_checked_sips (kind : ProfileKind) (ps : List Profile) (k : stream_index_pair) :
    k ∈ checked_sips kind ps ↔ ∃ p ∈ ps, p.is_a kind = true ∧ p.sip = k := by
  unfold checked_sips
  rw [foldl_insert_mem]
  simp only [List.not_mem_nil, false_or, List.mem_filter]
  constructor
  · rintro ⟨p, ⟨hp, hk⟩, hs⟩
    exact ⟨p, hp, hk, hs⟩
  · rintro ⟨p, hp, hk, hs⟩
    exact ⟨p, ⟨hp, hk⟩, hs⟩

theorem checked_sips_nodup (kind : ProfileKind) (ps : List Profile) :
    (checked_sips kind ps).Nodup :=
  StdSet.nodup_of_ordered _ (foldl_insert_ordered _ [] List.Pairwise.nil)

theorem checked_sips_eq_nil (kind : ProfileKind) (ps : List Profile) :
    checked_sips kind ps = [] ↔ ps.filter (fun p => p.is_a kind) = [] := by
  constructor
  · intro h
    rw [List.filter_eq_nil_iff]
    intro p hp hk
    have : p.sip ∈ checked_sips kind ps := (mem_checked_sips kind ps p.sip).mpr ⟨p, hp, hk, rfl⟩
    rw [h] at this
    exact List.not_mem_nil _ this
  · intro h
    unfold checked_sips
    rw [h]
    rfl

theorem registerSensorUpdateParam_bool_spec (lib : Externals) (template_name : String)
    (sips : StdSet stream_index_pair) (value : Bool) (self : ProfilesManager) :
    (registerSensorUpdateParam_bool lib template_name sips value self)._params.declared =
        self._params.declared ++ sips.map (enable_decl lib template_name value) ∧
    (registerSensorUpdateParam_bool lib template_name sips value self)._params.configured =
        self._params.configured ∧
    (registerSensorUpdateParam_bool lib template_name sips value self)._params.update_sensor_func_calls
        = self._params.update_sensor_func_calls ∧
    (registerSensorUpdateParam_bool lib template_name sips value self)._all_profiles =
        self._all_profiles ∧
    (∀ k, k ∈ sips → (StdMap.find
        (registerSensorUpdateParam_bool lib template_name sips value self)._enabled_profiles
        k).isSome = true) ∧
    (∀ k, k ∉ sips → StdMap.find
        (registerSensorUpdateParam_bool lib template_name sips value self)._enabled_profiles k =
        StdMap.find self._enabled_profiles k) := by
  induction sips generalizing self with
  | nil => simp [registerSensorUpdateParam_bool]
  | cons s rest ih =>
    unfold registerSensorUpdateParam_bool at ih ⊢
    rw [List.foldl_cons]
    obtain ⟨h1, h2, h3, h4, h5, h6⟩ := ih _
    refine ⟨?_, ?_, ?_, ?_, ?_, ?_⟩
    · rw [h1]
      simp [Parameters.setParamT, enable_decl]
    · rw [h2]
      simp [Parameters.setParamT]
    · rw [h3]
      simp [Parameters.setParamT]
    · rw [h4]
    · intro k hk
      by_cases hr : k ∈ rest
      · exact h5 k hr
      · rw [h6 k hr]
        have hks : k = s := by
          rcases List.mem_cons.mp hk with h | h
          · exact h
          · exact absurd h hr
        subst hks
        simp [StdMap.assign, StdMap.find_put]
    · intro k hk
      have hks : ¬ s = k := fun e => hk (e ▸ List.mem_cons_self _ _)
      have hr : k ∉ rest := fun h => hk (List.mem_cons_of_mem _ h)
      rw [h6 k hr]
      simp [StdMap.assign, StdMap.find_put, StdMap.find_index_snd, hks]

theorem registerSensorUpdateParam_double_spec (lib : Externals) (template_name : String)
    (sips : StdSet stream_index_pair) (value : Double)
    (st : Parameters × StdMap stream_index_pair Double) :
    (registerSensorUpdateParam_double lib template_name sips value st).1.declared =
        st.1.declared ++ sips.map (fps_decl lib template_name value) ∧
    (registerSensorUpdateParam_double lib template_name sips value st).1.configured =
        st.1.configured ∧
    (registerSensorUpdateParam_double lib template_name sips value st).1.update_sensor_func_calls
        = st.1.update_sensor_func_calls ∧
    (∀ k, k ∈ sips → (StdMap.find
        (registerSensorUpdateParam_double lib template_name sips value st).2 k).isSome = true) ∧
    (∀ k, k ∉ sips → StdMap.find
        (registerSensorUpdateParam_double lib template_name sips value st).2 k =
        StdMap.find st.2 k) := by
  induction sips generalizing st with
  | nil => simp [registerSensorUpdateParam_double]
  | cons s rest ih =>
    unfold registerSensorUpdateParam_double at ih ⊢
    rw [List.foldl_cons]
    obtain ⟨h1, h2, h3, h5, h6⟩ := ih _
    refine ⟨?_, ?_, ?_, ?_, ?_⟩
    · rw [h1]
      simp [Parameters.setParamT, fps_decl]
    · rw [h2]
      simp [Parameters.setParamT]
    · rw [h3]
      simp [Parameters.setParamT]
    · intro k hk
      by_cases hr : k ∈ rest
      · exact h5 k hr
      · rw [h6 k hr]
        have hks : k = s := by
          rcases List.mem_cons.mp hk with h | h
          · exact h
          · exact absurd h hr
        subst hks
        simp [StdMap.assign, StdMap.find_put]
    · intro k hk
      have hks : ¬ s = k := fun e => hk (e ▸ List.mem_cons_self _ _)
      have hr : k ∉ rest := fun h => hk (List.mem_cons_of_mem _ h)
      rw [h6 k hr]
      simp [StdMap.assign, StdMap.find_put, StdMap.find_index_snd, hks]

theorem registerVideoSensorParams_spec (lib : Externals) (self : VideoProfilesManager) :
    (self.registerVideoSensorParams lib)._params.declared =
      self._params.declared ++
        [ParamDecl.mk (self._module_name ++ ".width") (ParamValue.int lib.IMAGE_WIDTH)
            Cell.width OnChange.warn_reenable,
          ParamDecl.mk (self._module_name ++ ".height") (ParamValue.int lib.IMAGE_HEIGHT)
            Cell.height OnChange.warn_reenable,
          ParamDecl.mk (self._module_name ++ ".fps") (ParamValue.int lib.IMAGE_FPS)
            Cell.fps OnChange.warn_reenable] ∧
    (self.registerVideoSensorParams lib)._params.update_sensor_func_calls =
      self._params.update_sensor_func_calls ∧
    (self.registerVideoSensorParams lib)._all_profiles = self._all_profiles ∧
    (self.registerVideoSensorParams lib)._enabled_profiles = self._enabled_profiles := by
  simp [VideoProfilesManager.registerVideoSensorParams, setParamT_int, Parameters.setParamT]

theorem video_register_none (lib : Externals) (self : VideoProfilesManager)
    (ps : List Profile)
    (h : ps.filter (fun p => p.is_a ProfileKind.video_stream_profile) = []) :
    self.registerProfileParameters lib ps = self := by
  unfold VideoProfilesManager.registerProfileParameters
  rw [collect_profiles_eq, h]
  simp

theorem video_register_some (lib : Externals) (self : VideoProfilesManager)
    (ps : List Profile)
    (h : ps.filter (fun p => p.is_a ProfileKind.video_stream_profile) ≠ []) :
    (self.registerProfileParameters lib ps)._all_profiles =
        self._all_profiles ++ ps.filter (fun p => p.is_a ProfileKind.video_stream_profile) ∧
    (self.registerProfileParameters lib ps)._params.declared =
        self._params.declared ++
          (checked_sips ProfileKind.video_stream_profile ps).map (enable_decl lib "enable_%s" true)
          ++ [ParamDecl.mk (self._module_name ++ ".width") (ParamValue.int lib.IMAGE_WIDTH)
              Cell.width OnChange.warn_reenable,
            ParamDecl.mk (self._module_name ++ ".height") (ParamValue.int lib.IMAGE_HEIGHT)
              Cell.height OnChange.warn_reenable,
            ParamDecl.mk (self._module_name ++ ".fps") (ParamValue.int lib.IMAGE_FPS)
              Cell.fps OnChange.warn_reenable] ∧
    (self.registerProfileParameters lib ps)._params.update_sensor_func_calls =
        self._params.update_sensor_func_calls ∧
    (∀ k, k ∈ checked_sips ProfileKind.video_stream_profile ps →
      (StdMap.find (self.registerProfileParameters lib ps)._enabled_profiles k).isSome = true) ∧
    (∀ k, k ∉ checked_sips ProfileKind.video_stream_profile ps →
      StdMap.find (self.registerProfileParameters lib ps)._enabled_profiles k =
        StdMap.find self._enabled_profiles k) := by
  have hne : (checked_sips ProfileKind.video_stream_profile ps).isEmpty = false := by
    cases hc : checked_sips ProfileKind.video_stream_profile ps with
    | nil => exact absurd ((checked_sips_eq_nil _ ps).mp hc) h
    | cons _ _ => rfl
  unfold VideoProfilesManager.registerProfileParameters
  simp only [collect_profiles_snd, hne, Bool.not_false, if_true]
  rw [collect_profiles_eq]
  refine ⟨?_, ?_, ?_, ?_, ?_⟩
  · rw [(registerVideoSensorParams_spec lib _).2.2.1]
    exact (registerSensorUpdateParam_bool_spec lib _ _ _ _).2.2.2.1
  · rw [(registerVideoSensorParams_spec lib _).1]
    simp only []
    rw [(registerSensorUpdateParam_bool_spec lib _ _ _ _).1]
  · rw [(registerVideoSensorParams_spec lib _).2.1]
    exact (registerSensorUpdateParam_bool_spec lib _ _ _ _).2.2.1
  · intro k hk
    rw [(registerVideoSensorParams_spec lib _).2.2.2]
    exact (registerSensorUpdateParam_bool_spec lib _ _ _ _).2.2.2.2.1 k hk
  · intro k hk
    rw [(registerVideoSensorParams_spec lib _).2.2.2]
    exact (registerSensorUpdateParam_bool_spec lib _ _ _ _).2.2.2.2.2 k hk

theorem motion_register_spec (lib : Externals) (self : MotionProfilesManager)
    (ps : List Profile) :
    (self.registerProfileParameters lib ps)._all_profiles =
        self._all_profiles ++ ps.filter (fun p => p.is_a ProfileKind.motion_stream_profile) ∧
    (self.registerProfileParameters lib ps)._params.declared =
        self._params.declared ++
          (checked_sips ProfileKind.motion_stream_profile ps).map (enable_decl lib "enable_%s" true)
          ++ (checked_sips ProfileKind.motion_stream_profile ps).map
            (fps_decl lib "%s_fps" Double.zero) ∧
    (self.registerProfileParameters lib ps)._params.update_sensor_func_calls =
        self._params.update_sensor_func_calls ∧
    (∀ k, k ∈ checked_sips ProfileKind.motion_stream_profile ps →
      (StdMap.find (self.registerProfileParameters lib ps)._enabled_profiles k).isSome = true) ∧
    (∀ k, k ∉ checked_sips ProfileKind.motion_stream_profile ps →
      StdMap.find (self.registerProfileParameters lib ps)._enabled_profiles k =
        StdMap.find self._enabled_profiles k) := by
  unfold MotionProfilesManager.registerProfileParameters
  simp only [collect_profiles_snd]
  rw [collect_profiles_eq]
  refine ⟨?_, ?_, ?_, ?_, ?_⟩
  · exact (registerSensorUpdateParam_bool_spec lib _ _ _ _).2.2.2.1
  · simp only []
    rw [(registerSensorUpdateParam_double_spec lib _ _ _ _).1]
    simp only []
    rw [(registerSensorUpdateParam_bool_spec lib _ _ _ _).1]
  · simp only []
    rw [(registerSensorUpdateParam_double_spec lib _ _ _ _).2.2.1]
    exact (registerSensorUpdateParam_bool_spec lib _ _ _ _).2.2.1
  · intro k hk
    exact (registerSensorUpdateParam_bool_spec lib _ _ _ _).2.2.2.2.1 k hk
  · intro k hk
    exact (registerSensorUpdateParam_bool_spec lib _ _ _ _).2.2.2.2.2 k hk

theorem pose_register_spec (lib : Externals) (self : PoseProfilesManager)
    (ps : List Profile) :
    (self.registerProfileParameters lib ps)._all_profiles =
        self._all_profiles ++ ps.filter (fun p => p.is_a ProfileKind.pose_stream_profile) ∧
    (self.registerProfileParameters lib ps)._params.declared =
        self._params.declared ++
          (checked_sips ProfileKind.pose_stream_profile ps).map (enable_decl lib "enable_%s" true)
          ++ (checked_sips ProfileKind.pose_stream_profile ps).map
            (fps_decl lib "%s_fps" Double.zero) ∧
    (self.registerProfileParameters lib ps)._params.update_sensor_func_calls =
        self._params.update_sensor_func_calls ∧
    (∀ k, k ∈ checked_sips ProfileKind.pose_stream_profile ps →
      (StdMap.find (self.registerProfileParameters lib ps)._enabled_profiles k).isSome = true) ∧
    (∀ k, k ∉ checked_sips ProfileKind.pose_stream_profile ps →
      StdMap.find (self.registerProfileParameters lib ps)._enabled_profiles k =
        StdMap.find self._enabled_profiles k) := by
  unfold PoseProfilesManager.registerProfileParameters
  simp only [collect_profiles_snd]
  rw [collect_profiles_eq]
  refine ⟨?_, ?_, ?_, ?_, ?_⟩
  · exact (registerSensorUpdateParam_bool_spec lib _ _ _ _).2.2.2.1
  · simp only []
    rw [(registerSensorUpdateParam_double_spec lib _ _ _ _).1]
    simp only []
    rw [(registerSensorUpdateParam_bool_spec lib _ _ _ _).1]
  · simp only []
    rw [(registerSensorUpdateParam_double_spec lib _ _ _ _).2.2.1]
    exact (registerSensorUpdateParam_bool_spec lib _ _ _ _).2.2.1
  · intro k hk
    exact (registerSensorUpdateParam_bool_spec lib _ _ _ _).2.2.2.2.1 k hk
  · intro k hk
    exact (registerSensorUpdateParam_bool_spec lib _ _ _ _).2.2.2.2.2 k hk

theorem sprintf_chars_spec (pre post arg : List Char) (hpre : '%' ∉ pre) :
    sprintf_chars (pre ++ '%' :: 's' :: post) arg = pre ++ arg ++ post := by
  induction pre with
  | nil => simp [sprintf_chars]
  | cons c rest ih =>
    have hc : c ≠ '%' := fun e => hpre (e ▸ List.mem_cons_self _ _)
    have hr : '%' ∉ rest := fun h => hpre (List.mem_cons_of_mem _ h)
    cases rest with
    | nil =>
      simp only [List.cons_append, List.nil_append]
      rw [sprintf_chars]
      simp only [hc, false_and, if_false]
      have := ih hr
      simp only [List.nil_append] at this
      rw [this]
    | cons d rest2 =>
      simp only [List.cons_append]
      rw [sprintf_chars]
      simp only [hc, false_and, if_false]
      have := ih hr
      simp only [List.cons_append] at this
      rw [this]

theorem sprintf_spec (pre post : List Char) (stream_name : String) (hpre : '%' ∉ pre) :
    sprintf (String.mk (pre ++ '%' :: 's' :: post)) stream_name =
      String.mk pre ++ stream_name ++ String.mk post := by
  unfold sprintf
  rw [show (String.mk (pre ++ '%' :: 's' :: post)).toList = pre ++ '%' :: 's' :: post from rfl,
    sprintf_chars_spec pre post _ hpre]
  apply String.ext
  simp [String.toList]

theorem sprintf_enable (stream_name : String) :
    sprintf "enable_%s" stream_name = "enable_" ++ stream_name := by
  have h := sprintf_spec ['e', 'n', 'a', 'b', 'l', 'e', '_'] [] stream_name (by decide)
  have e1 : String.mk (['e', 'n', 'a', 'b', 'l', 'e', '_'] ++ '%' :: 's' :: []) = "enable_%s" := by
    decide
  have e2 : String.mk ['e', 'n', 'a', 'b', 'l', 'e', '_'] = "enable_" := by decide
  have e3 : String.mk [] = "" := rfl
  rw [e1, e2, e3, String.append_empty] at h
  exact h

theorem sprintf_fps (stream_name : String) :
    sprintf "%s_fps" stream_name = stream_name ++ "_fps" := by
  have h := sprintf_spec [] ['_', 'f', 'p', 's'] stream_name (by decide)
  have e1 : String.mk ([] ++ '%' :: 's' :: ['_', 'f', 'p', 's']) = "%s_fps" := by decide
  have e2 : String.mk ['_', 'f', 'p', 's'] = "_fps" := by decide
  have e3 : String.mk [] = "" := rfl
  rw [e1, e2, e3, String.empty_append] at h
  exact h

/-- C14: the base `isTypeExist` returns true exactly when `_enabled_profiles`
has an entry, whatever the values: it is true for a selector whose flags are all
false and false for a freshly constructed one; the motion and pose selectors
use it as it is. -/
theorem C14_base_isTypeExist (self : ProfilesManager) :
    (self.isTypeExist = true ↔ ∃ k v, (k, v) ∈ self._enabled_profiles) ∧
    (self.isTypeExist = true ↔ ∃ k, (StdMap.find self._enabled_profiles k).isSome = true) ∧
    (∀ m : MotionProfilesManager,
      (Selector.motion m).isTypeExist = m.toProfilesManager.isTypeExist) ∧
    (∀ m : PoseProfilesManager,
      (Selector.pose m).isTypeExist = m.toProfilesManager.isTypeExist) ∧
    (Selector.motion motion_all_disabled).isTypeExist = true ∧
    (∀ parameters : Parameters, (ProfilesManager.new parameters).isTypeExist = false) := by
  refine ⟨?_, ?_, fun _ => rfl, fun _ => rfl, by decide, fun _ => rfl⟩
  · cases h : self._enabled_profiles with
    | nil => simp [ProfilesManager.isTypeExist, StdMap.empty, h]
    | cons e rest =>
      simp only [ProfilesManager.isTypeExist, StdMap.empty, h, List.isEmpty_cons, Bool.not_false,
        true_iff]
      exact ⟨e.1, e.2, List.mem_cons_self _ _⟩
  · cases h : self._enabled_profiles with
    | nil => simp [ProfilesManager.isTypeExist, StdMap.empty, h, StdMap.find]
    | cons e rest =>
      simp only [ProfilesManager.isTypeExist, StdMap.empty, h, List.isEmpty_cons, Bool.not_false,
        true_iff]
      exact ⟨e.1, by simp [StdMap.find]⟩

theorem countP_key_eq_one (sips : List stream_index_pair) (hs : sips.Nodup)
    (k : stream_index_pair) (hk : k ∈ sips) :
    sips.countP (fun s => decide (s = k)) = 1 := by
  induction sips with
  | nil => exact absurd hk (List.not_mem_nil _)
  | cons a rest ih =>
    obtain ⟨ha, hr⟩ := List.nodup_cons.mp hs
    rw [List.countP_cons]
    by_cases hak : a = k
    · subst hak
      have h0 : rest.countP (fun s => decide (s = a)) = 0 := by
        rw [List.countP_eq_zero]
        intro x hx
        simp only [decide_eq_true_eq]
        intro e
        exact ha (e ▸ hx)
      simp [h0]
    · have hkr : k ∈ rest := by
        rcases List.mem_cons.mp hk with h | h
        · exact absurd h.symm hak
        · exact h
      simp [hak, ih hr hkr]

theorem countP_enable_cell (f : stream_index_pair → ParamDecl)
    (hf : ∀ s, (f s).cell = Cell.enabled_profiles s) (sips : List stream_index_pair)
    (hs : sips.Nodup) (k : stream_index_pair) (hk : k ∈ sips) :
    (sips.map f).countP (fun d => decide (d.cell = Cell.enabled_profiles k)) = 1 := by
  rw [List.countP_map]
  have : ((fun d : ParamDecl => decide (d.cell = Cell.enabled_profiles k)) ∘ f) =
      fun s => decide (s = k) := by
    funext s
    simp [hf s]
  rw [this]
  exact countP_key_eq_one sips hs k hk

theorem countP_fps_cell (f : stream_index_pair → ParamDecl)
    (hf : ∀ s, (f s).cell = Cell.fps_of s) (sips : List stream_index_pair)
    (hs : sips.Nodup) (k : stream_index_pair) (hk : k ∈ sips) :
    (sips.map f).countP (fun d => decide (d.cell = Cell.fps_of k)) = 1 := by
  rw [List.countP_map]
  have : ((fun d : ParamDecl => decide (d.cell = Cell.fps_of k)) ∘ f) =
      fun s => decide (s = k) := by
    funext s
    simp [hf s]
  rw [this]
  exact countP_key_eq_one sips hs k hk

/-- C11: for a template `pre ++ "%s" ++ post` with no other `%`, and a set of
stream keys, `registerSensorUpdateParam` appends to the declarations one
declaration per key of the set, in key order: its name is
`pre ++ stream name ++ post`, its default the given value, its cell `params[key]`
(which exists afterwards) and its callback the one that calls
`update_sensor_func`. So "enable_%s" gives "enable_" + name and "%s_fps" gives
name + "_fps"; motion and pose registration declare both, with defaults true
and 0.0, for exactly the stream keys of the profiles they keep. -/
theorem C11_registerSensorUpdateParam_declares (lib : Externals) (pre post : List Char)
    (hpre : '%' ∉ pre) (_hpost : '%' ∉ post) (sips : StdSet stream_index_pair)
    (hs : StdSet.Ordered sips) (value : Bool) (dvalue : Double) (self : ProfilesManager)
    (st : Parameters × StdMap stream_index_pair Double) :
    ((registerSensorUpdateParam_bool lib (String.mk (pre ++ '%' :: 's' :: post)) sips value
        self)._params.declared =
      self._params.declared ++ sips.map (fun sip =>
        ParamDecl.mk (String.mk pre ++ stream_name lib sip ++ String.mk post)
          (ParamValue.bool value) (Cell.enabled_profiles sip) OnChange.update_sensor_func)) ∧
    (∀ k ∈ sips, (sips.map (fun sip =>
        ParamDecl.mk (String.mk pre ++ stream_name lib sip ++ String.mk post)
          (ParamValue.bool value) (Cell.enabled_profiles sip) OnChange.update_sensor_func)).countP
        (fun d => decide (d.cell = Cell.enabled_profiles k)) = 1) ∧
    (∀ k ∈ sips, (StdMap.find (registerSensorUpdateParam_bool lib
        (String.mk (pre ++ '%' :: 's' :: post)) sips value self)._enabled_profiles k).isSome
        = true) ∧
    ((registerSensorUpdateParam_double lib (String.mk (pre ++ '%' :: 's' :: post)) sips dvalue
        st).1.declared =
      st.1.declared ++ sips.map (fun sip =>
        ParamDecl.mk (String.mk pre ++ stream_name lib sip ++ String.mk post)
          (ParamValue.double dvalue) (Cell.fps_of sip) OnChange.update_sensor_func)) ∧
    (∀ k ∈ sips, (sips.map (fun sip =>
        ParamDecl.mk (String.mk pre ++ stream_name lib sip ++ String.mk post)
          (ParamValue.double dvalue) (Cell.fps_of sip) OnChange.update_sensor_func)).countP
        (fun d => decide (d.cell = Cell.fps_of k)) = 1) ∧
    (∀ k ∈ sips, (StdMap.find (registerSensorUpdateParam_double lib
        (String.mk (pre ++ '%' :: 's' :: post)) sips dvalue st).2 k).isSome = true) ∧
    (∀ name : String, sprintf "enable_%s" name = "enable_" ++ name ∧
      sprintf "%s_fps" name = name ++ "_fps") ∧
    (∀ (m : MotionProfilesManager) (ps : List Profile),
      (m.registerProfileParameters lib ps)._params.declared =
        m._params.declared ++
          (checked_sips ProfileKind.motion_stream_profile ps).map (fun sip =>
            ParamDecl.mk ("enable_" ++ stream_name lib sip) (ParamValue.bool true)
              (Cell.enabled_profiles sip) OnChange.update_sensor_func) ++
          (checked_sips ProfileKind.motion_stream_profile ps).map (fun sip =>
            ParamDecl.mk (stream_name lib sip ++ "_fps") (ParamValue.double Double.zero)
              (Cell.fps_of sip) OnChange.update_sensor_func)) ∧
    (∀ (m : PoseProfilesManager) (ps : List Profile),
      (m.registerProfileParameters lib ps)._params.declared =
        m._params.declared ++
          (checked_sips ProfileKind.pose_stream_profile ps).map (fun sip =>
            ParamDecl.mk ("enable_" ++ stream_name lib sip) (ParamValue.bool true)
              (Cell.enabled_profiles sip) OnChange.update_sensor_func) ++
          (checked_sips ProfileKind.pose_stream_profile ps).map (fun sip =>
            ParamDecl.mk (stream_name lib sip ++ "_fps") (ParamValue.double Double.zero)
              (Cell.fps_of sip) OnChange.update_sensor_func)) ∧
    (∀ (kind : ProfileKind) (ps : List Profile),
      (checked_sips kind ps).Nodup ∧
      ∀ k, k ∈ checked_sips kind ps ↔ ∃ p ∈ ps, p.is_a kind = true ∧ p.sip = k) := by
  have hen : ∀ (t : String) (v : Bool), enable_decl lib t v = fun sip =>
      ParamDecl.mk (sprintf t (stream_name lib sip)) (ParamValue.bool v)
        (Cell.enabled_profiles sip) OnChange.update_sensor_func := fun _ _ => rfl
  have hfp : ∀ (t : String) (v : Double), fps_decl lib t v = fun sip =>
      ParamDecl.mk (sprintf t (stream_name lib sip)) (ParamValue.double v)
        (Cell.fps_of sip) OnChange.update_sensor_func := fun _ _ => rfl
  have hnd := StdSet.nodup_of_ordered sips hs
  refine ⟨?_, ?_, ?_, ?_, ?_, ?_, ?_, ?_, ?_, ?_⟩
  · rw [(registerSensorUpdateParam_bool_spec lib _ sips value self).1, hen]
    simp only [sprintf_spec pre post _ hpre]
  · intro k hk
    exact countP_enable_cell _ (fun _ => rfl) sips hnd k hk
  · intro k hk
    exact (registerSensorUpdateParam_bool_spec lib _ sips value self).2.2.2.2.1 k hk
  · rw [(registerSensorUpdateParam_double_spec lib _ sips dvalue st).1, hfp]
    simp only [sprintf_spec pre post _ hpre]
  · intro k hk
    exact countP_fps_cell _ (fun _ => rfl) sips hnd k hk
  · intro k hk
    exact (registerSensorUpdateParam_double_spec lib _ sips dvalue st).2.2.2.1 k hk
  · intro name
    exact ⟨sprintf_enable name, sprintf_fps name⟩
  · intro m ps
    rw [(motion_register_spec lib m ps).2.1, hen, hfp]
    simp only [sprintf_enable, sprintf_fps]
  · intro m ps
    rw [(pose_register_spec lib m ps).2.1, hen, hfp]
    simp only [sprintf_enable, sprintf_fps]
  · intro kind ps
    exact ⟨checked_sips_nodup kind ps, mem_checked_sips kind ps⟩

/-- Witness of C11: the template "enable_%s" and the set of Depth/0 and
Color/0. -/
theorem C11_registerSensorUpdateParam_declares_witness :
    (registerSensorUpdateParam_bool sample_lib
        (String.mk (['e', 'n', 'a', 'b', 'l', 'e', '_'] ++ '%' :: 's' :: []))
        [(1, 0), (2, 0)] true sample_base)._params.declared =
      sample_base._params.declared ++ [(1, 0), (2, 0)].map (fun sip =>
        ParamDecl.mk (String.mk ['e', 'n', 'a', 'b', 'l', 'e', '_'] ++ stream_name sample_lib sip
            ++ String.mk [])
          (ParamValue.bool true) (Cell.enabled_profiles sip) OnChange.update_sensor_func) :=
  (C11_registerSensorUpdateParam_declares sample_lib ['e', 'n', 'a', 'b', 'l', 'e', '_'] []
    (by decide) (by decide) [(1, 0), (2, 0)]
    (by simp [StdSet.Ordered, KeyLess.less, sip_less]) true Double.zero sample_base
    (no_parameters, [])).1

theorem selector_register_spec (lib : Externals) (self : Selector) (ps : List Profile) :
    (self.registerProfileParameters lib ps).base._all_profiles =
        self.base._all_profiles ++ ps.filter (fun p => p.is_a self.kind) ∧
    (∃ rest, (self.registerProfileParameters lib ps).base._params.declared =
        self.base._params.declared ++
          (checked_sips self.kind ps).map (enable_decl lib "enable_%s" true) ++ rest ∧
        ∀ d ∈ rest, ∀ k, d.cell ≠ Cell.enabled_profiles k) ∧
    (∀ k, k ∈ checked_sips self.kind ps →
      (StdMap.find (self.registerProfileParameters lib ps).base._enabled_profiles k).isSome
        = true) ∧
    (∀ k, k ∉ checked_sips self.kind ps →
      StdMap.find (self.registerProfileParameters lib ps).base._enabled_profiles k =
        StdMap.find self.base._enabled_profiles k) := by
  cases self with
  | video m =>
    by_cases h : ps.filter (fun p => p.is_a ProfileKind.video_stream_profile) = []
    · have hc := (checked_sips_eq_nil ProfileKind.video_stream_profile ps).mpr h
      simp only [Selector.registerProfileParameters, Selector.base, Selector.kind,
        video_register_none lib m ps h, h, hc, List.append_nil, List.map_nil, true_and]
      refine ⟨⟨[], by simp, by simp⟩, by simp, by simp⟩
    · obtain ⟨h1, h2, _, h4, h5⟩ := video_register_some lib m ps h
      refine ⟨h1, ⟨_, h2, ?_⟩, h4, h5⟩
      intro d hd k
      simp only [List.mem_cons, List.mem_singleton, List.not_mem_nil, or_false] at hd
      rcases hd with hd | hd | hd <;> rw [hd] <;> simp
  | motion m =>
    obtain ⟨h1, h2, _, h4, h5⟩ := motion_register_spec lib m ps
    refine ⟨h1, ⟨_, h2, ?_⟩, h4, h5⟩
    intro d hd k
    obtain ⟨s, _, hs⟩ := List.mem_map.mp hd
    rw [← hs]
    simp [fps_decl]
  | pose m =>
    obtain ⟨h1, h2, _, h4, h5⟩ := pose_register_spec lib m ps
    refine ⟨h1, ⟨_, h2, ?_⟩, h4, h5⟩
    intro d hd k
    obtain ⟨s, _, hs⟩ := List.mem_map.mp hd
    rw [← hs]
    simp [fps_decl]

/-- C17: for each selector, `registerProfileParameters` leaves the catalog
equal to its previous content followed by the profiles of the input list that
are of the kind of the selector, in input order, duplicates kept (so no profile
of another kind enters); the stream keys for which this call declares an enable
flag are exactly the stream keys of the appended profiles, and afterwards the
keys with an entry in `_enabled_profiles` are those that had one and those of
the appended profiles. -/
theorem C17_registerProfileParameters_catalog (lib : Externals) (self : Selector)
    (ps : List Profile) :
    (self.registerProfileParameters lib ps).base._all_profiles =
        self.base._all_profiles ++ ps.filter (fun p => p.is_a self.kind) ∧
    (∀ p ∈ ps, p.is_a self.kind = false →
      p ∈ (self.registerProfileParameters lib ps).base._all_profiles →
      p ∈ self.base._all_profiles) ∧
    (∃ news, (self.registerProfileParameters lib ps).base._params.declared =
        self.base._params.declared ++ news ∧
      ∀ k, (∃ d ∈ news, d.cell = Cell.enabled_profiles k) ↔
        ∃ p ∈ ps.filter (fun p => p.is_a self.kind), p.sip = k) ∧
    (∀ k, (StdMap.find (self.registerProfileParameters lib ps).base._enabled_profiles k).isSome
        = true ↔
      ((StdMap.find self.base._enabled_profiles k).isSome = true ∨
        ∃ p ∈ ps.filter (fun p => p.is_a self.kind), p.sip = k)) := by
  obtain ⟨h1, ⟨rest, h2, h3⟩, h4, h5⟩ := selector_register_spec lib self ps
  have hmem : ∀ k, k ∈ checked_sips self.kind ps ↔
      ∃ p ∈ ps.filter (fun p => p.is_a self.kind), p.sip = k := by
    intro k
    rw [mem_checked_sips]
    simp only [List.mem_filter]
    constructor
    · rintro ⟨p, hp, hk, hs⟩
      exact ⟨p, ⟨hp, hk⟩, hs⟩
    · rintro ⟨p, ⟨hp, hk⟩, hs⟩
      exact ⟨p, hp, hk, hs⟩
  refine ⟨h1, ?_, ⟨_, by rw [h2, List.append_assoc], ?_⟩, ?_⟩
  · intro p _ hk hp
    rw [h1] at hp
    rcases List.mem_append.mp hp with hp | hp
    · exact hp
    · have := (List.mem_filter.mp hp).2
      rw [hk] at this
      exact Bool.noConfusion this
  · intro k
    rw [← hmem]
    constructor
    · rintro ⟨d, hd, hc⟩
      rcases List.mem_append.mp hd with hd | hd
      · obtain ⟨s, hs, hds⟩ := List.mem_map.mp hd
        rw [← hds] at hc
        simp only [enable_decl, Cell.enabled_profiles.injEq] at hc
        rw [← hc]
        exact hs
      · exact absurd hc (h3 d hd k)
    · intro hk
      exact ⟨enable_decl lib "enable_%s" true k,
        List.mem_append_left _ (List.mem_map.mpr ⟨k, hk, rfl⟩), rfl⟩
  · intro k
    rw [← hmem]
    by_cases hk : k ∈ checked_sips self.kind ps
    · simp [h4 k hk, hk]
    · simp [h5 k hk, hk]

/-- C18: when the list given to the video `registerProfileParameters` holds no
image-typed profile, the selector is left as it was (no declaration, same
catalog, same flags); when it holds one, the new declarations are the enable
flags followed by `<module name>.width`, `<module name>.height` and
`<module name>.fps`, each once. -/
theorem C18_video_registration_gate (lib : Externals) (self : VideoProfilesManager)
    (ps : List Profile) :
    ((∀ p ∈ ps, p.is_a ProfileKind.video_stream_profile = false) →
      self.registerProfileParameters lib ps = self) ∧
    ((∃ p ∈ ps, p.is_a ProfileKind.video_stream_profile = true) →
      ∃ enables, (self.registerProfileParameters lib ps)._params.declared =
        self._params.declared ++ enables ++
          [ParamDecl.mk (self._module_name ++ ".width") (ParamValue.int lib.IMAGE_WIDTH)
              Cell.width OnChange.warn_reenable,
            ParamDecl.mk (self._module_name ++ ".height") (ParamValue.int lib.IMAGE_HEIGHT)
              Cell.height OnChange.warn_reenable,
            ParamDecl.mk (self._module_name ++ ".fps") (ParamValue.int lib.IMAGE_FPS)
              Cell.fps OnChange.warn_reenable] ∧
        ∀ d ∈ enables, ∃ k, d.cell = Cell.enabled_profiles k) := by
  constructor
  · intro h
    apply video_register_none
    rw [List.filter_eq_nil_iff]
    intro p hp hk
    rw [h p hp] at hk
    exact Bool.noConfusion hk
  · rintro ⟨p, hp, hk⟩
    have hne : ps.filter (fun p => p.is_a ProfileKind.video_stream_profile) ≠ [] := by
      intro e
      have : p ∈ ps.filter (fun p => p.is_a ProfileKind.video_stream_profile) :=
        List.mem_filter.mpr ⟨hp, hk⟩
      rw [e] at this
      exact List.not_mem_nil _ this
    refine ⟨_, (video_register_some lib self ps hne).2.1, ?_⟩
    intro d hd
    obtain ⟨s, _, hs⟩ := List.mem_map.mp hd
    exact ⟨s, by rw [← hs]; rfl⟩

/-- Witness of C18: registering the motion profile `gyro_200` on `sample_video`
changes nothing, and registering `depth_640` declares the three parameters of
the module. -/
theorem C18_video_registration_gate_witness :
    sample_video.registerProfileParameters sample_lib [gyro_200] = sample_video ∧
    ∃ enables, (sample_video.registerProfileParameters sample_lib [depth_640])._params.declared =
      sample_video._params.declared ++ enables ++
        [ParamDecl.mk (sample_video._module_name ++ ".width")
            (ParamValue.int sample_lib.IMAGE_WIDTH) Cell.width OnChange.warn_reenable,
          ParamDecl.mk (sample_video._module_name ++ ".height")
            (ParamValue.int sample_lib.IMAGE_HEIGHT) Cell.height OnChange.warn_reenable,
          ParamDecl.mk (sample_video._module_name ++ ".fps")
            (ParamValue.int sample_lib.IMAGE_FPS) Cell.fps OnChange.warn_reenable] ∧
      ∀ d ∈ enables, ∃ k, d.cell = Cell.enabled_profiles k :=
  ⟨(C18_video_registration_gate sample_lib sample_video [gyro_200]).1 (by decide),
    (C18_video_registration_gate sample_lib sample_video [depth_640]).2
      ⟨depth_640, by decide, by decide⟩⟩

/-! ### What addWantedProfiles leaves of the selector -/

theorem set_enabled_profiles_base (s : Selector) (flags : StdMap stream_index_pair Bool) :
    (s.set_enabled_profiles flags).base = s.base.with_enabled_profiles flags := by
  cases s <;> rfl

theorem isWantedProfile_base (lib : Externals) (s : Selector) (p : Profile) :
    (s.isWantedProfile lib p).2.1.base = s.base := by
  cases s with
  | video m =>
    simp only [Selector.isWantedProfile, video_isWantedProfile_self]
  | motion m => rfl
  | pose m => rfl

theorem wanted_profile_string_base (lib : Externals) (s : Selector) (k : stream_index_pair) :
    (s.wanted_profile_string lib k).2.base = s.base := by
  cases s <;> rfl

theorem visit_state_base (lib : Externals) (st : Walk) (p : Profile) :
    (visit_state lib st p).self.base =
      st.self.base.with_enabled_profiles
        (StdMap.index st.self.base._enabled_profiles p.sip false).2 := by
  cases h : st.active p
  · rw [visit_state_inactive lib st p h]
    exact set_enabled_profiles_base _ _
  · rw [visit_state_active lib st p h]
    simp only [isWantedProfile_base, set_enabled_profiles_base]

theorem walk_base (lib : Externals) (self : Selector) (out : List stream_profile)
    (ps : List Profile) :
    (walk lib self out ps).self.base =
      self.base.with_enabled_profiles (touch_flags self.base._enabled_profiles ps) := by
  induction ps using List.reverseRecOn with
  | nil => rfl
  | append_singleton ps p ih =>
    rw [walk_append, visit_state_base, ih]
    simp [ProfilesManager.with_enabled_profiles, touch_flags, List.foldl_append]

theorem report_state_base (lib : Externals) (st : Walk) (e : stream_index_pair × Bool) :
    (report_state lib st e).self.base = st.self.base := by
  unfold report_state
  split
  · rfl
  · exact wanted_profile_string_base lib _ _

theorem report_fold_base (lib : Externals) (fs : List (stream_index_pair × Bool)) (st : Walk) :
    (fs.foldl (report_state lib) st).self.base = st.self.base := by
  induction fs generalizing st with
  | nil => rfl
  | cons e rest ih =>
    rw [List.foldl_cons, ih, report_state_base]

theorem selection_base (lib : Externals) (self : Selector) (out : List stream_profile) :
    ∃ r, addWantedProfiles lib self out = Except.ok r ∧
      r.self.base =
        self.base.with_enabled_profiles
          (touch_flags self.base._enabled_profiles self.base._all_profiles) := by
  refine ⟨_, addWantedProfiles_eq lib self out, ?_⟩
  show (List.foldl (report_state lib) (walk lib self out self.base._all_profiles)
    (walk lib self out self.base._all_profiles).found_sips).self.base = _
  rw [report_fold_base, walk_base]

theorem find_touch_flags (flags : StdMap stream_index_pair Bool) (ps : List Profile)
    (k : stream_index_pair) :
    StdMap.find (touch_flags flags ps) k =
      if StdMap.find flags k = none ∧ hasProfileOf k ps = true then some false
      else StdMap.find flags k := by
  induction ps using List.reverseRecOn generalizing k with
  | nil => simp [touch_flags, hasProfileOf]
  | append_singleton ps p ih =>
    have happ : touch_flags flags (ps ++ [p]) =
        (StdMap.index (touch_flags flags ps) p.sip false).2 := by
      simp [touch_flags, List.foldl_append]
    rw [happ, StdMap.find_index_snd, hasProfileOf_append, ih k, ih p.sip]
    by_cases hk : p.sip = k
    · subst hk
      cases hf : StdMap.find flags p.sip <;> cases hh : hasProfileOf p.sip ps <;> simp
    · simp [hk]

theorem touch_flags_of_present (flags : StdMap stream_index_pair Bool) (ps : List Profile)
    (h : ∀ p ∈ ps, (StdMap.find flags p.sip).isSome = true) : touch_flags flags ps = flags := by
  induction ps using List.reverseRecOn with
  | nil => rfl
  | append_singleton ps p ih =>
    have happ : touch_flags flags (ps ++ [p]) =
        (StdMap.index (touch_flags flags ps) p.sip false).2 := by
      simp [touch_flags, List.foldl_append]
    rw [happ, ih (fun q hq => h q (List.mem_append_left _ hq))]
    have hp := h p (by simp)
    cases hf : StdMap.find flags p.sip with
    | none => simp [hf] at hp
    | some v => exact StdMap.index_snd_of_find _ _ _ v hf

theorem after_addWantedProfiles_eq (lib : Externals) (self : Selector)
    (out : List stream_profile) (r : Selection)
    (h : addWantedProfiles lib self out = Except.ok r) :
    self.after_addWantedProfiles lib out = r.self := by
  simp [Selector.after_addWantedProfiles, h]

theorem hasProfileOf_iff (k : stream_index_pair) (ps : List Profile) :
    hasProfileOf k ps = true ↔ ∃ p ∈ ps, p.sip = k := by
  simp [hasProfileOf, List.any_eq_true]

theorem flagsInCatalog_register (lib : Externals) (s : Selector) (ps : List Profile)
    (h : FlagsInCatalog s) : FlagsInCatalog (s.registerProfileParameters lib ps) := by
  obtain ⟨h1, _, h4, h5⟩ := selector_register_spec lib s ps
  intro k hk
  rw [h1]
  by_cases hc : k ∈ checked_sips s.kind ps
  · obtain ⟨p, hp, hpk, hps⟩ := (mem_checked_sips s.kind ps k).mp hc
    exact ⟨p, List.mem_append_right _ (List.mem_filter.mpr ⟨hp, hpk⟩), hps⟩
  · rw [h5 k hc] at hk
    obtain ⟨p, hp, hps⟩ := h k hk
    exact ⟨p, List.mem_append_left _ hp, hps⟩

theorem flagsInCatalog_addWantedProfiles (lib : Externals) (s : Selector)
    (out : List stream_profile) (h : FlagsInCatalog s) :
    FlagsInCatalog (s.after_addWantedProfiles lib out) := by
  obtain ⟨r, hr, hb⟩ := selection_base lib s out
  rw [after_addWantedProfiles_eq lib s out r hr]
  intro k hk
  rw [hb] at hk ⊢
  simp only [ProfilesManager.with_enabled_profiles] at hk ⊢
  rw [find_touch_flags] at hk
  split at hk
  · rename_i hc
    exact (hasProfileOf_iff k _).mp hc.2
  · exact h k hk

theorem flagsInCatalog_calls (lib : Externals) (cs : List Call) (s : Selector)
    (h : FlagsInCatalog s) : FlagsInCatalog (s.calls lib cs) := by
  induction cs generalizing s with
  | nil => exact h
  | cons c rest ih =>
    unfold Selector.calls
    rw [List.foldl_cons]
    apply ih
    cases c with
    | registerProfileParameters ps => exact flagsInCatalog_register lib s ps h
    | addWantedProfiles out => exact flagsInCatalog_addWantedProfiles lib s out h

/-- C13: on a freshly constructed video, motion or pose selector, after any
sequence of calls of `registerProfileParameters` and `addWantedProfiles`, every
stream key with an entry in `_enabled_profiles` is the stream key of a profile
of the catalog. -/
theorem C13_flags_have_catalog_profile (lib : Externals) (cs : List Call)
    (parameters : Parameters) (name : String) (f w h : Int) (b : Bool) :
    FlagsInCatalog
      ((Selector.video (VideoProfilesManager.new parameters name f w h b)).calls lib cs) ∧
    FlagsInCatalog ((Selector.motion (MotionProfilesManager.new parameters)).calls lib cs) ∧
    FlagsInCatalog ((Selector.pose (PoseProfilesManager.new parameters)).calls lib cs) := by
  have fresh : ∀ s : Selector, s.base._enabled_profiles = [] → FlagsInCatalog s := by
    intro s hs k hk
    rw [hs] at hk
    simp [StdMap.find] at hk
  exact ⟨flagsInCatalog_calls lib cs _ (fresh _ rfl), flagsInCatalog_calls lib cs _ (fresh _ rfl),
    flagsInCatalog_calls lib cs _ (fresh _ rfl)⟩

/-- C12: one run of the callback of a per-key parameter (enable flag for the
video selector; enable flag and fps for the motion and pose selectors) calls
`update_sensor_func` exactly once; one run of the callback of the video
parameters `<module>.width`, `<module>.height`, `<module>.fps` calls it not at
all; `registerProfileParameters` declares only such parameters and itself
leaves the count of calls as it was, and `addWantedProfiles` leaves the registry
as it was. -/
theorem C12_update_sensor_func_calls (lib : Externals) :
    (∀ (m : VideoProfilesManager) (ps : List Profile),
      ∃ news, (m.registerProfileParameters lib ps)._params.declared = m._params.declared ++ news ∧
        ∀ d ∈ news, ∀ reg : Parameters,
          ((∃ k, d.cell = Cell.enabled_profiles k) ∧
            (d.on_change.run reg).1.update_sensor_func_calls = reg.update_sensor_func_calls + 1) ∨
          ((d.cell = Cell.width ∨ d.cell = Cell.height ∨ d.cell = Cell.fps) ∧
            (d.on_change.run reg).1.update_sensor_func_calls = reg.update_sensor_func_calls)) ∧
    (∀ (m : MotionProfilesManager) (ps : List Profile),
      ∃ news, (m.registerProfileParameters lib ps)._params.declared = m._params.declared ++ news ∧
        ∀ d ∈ news, ∀ reg : Parameters,
          (∃ k, d.cell = Cell.enabled_profiles k ∨ d.cell = Cell.fps_of k) ∧
            (d.on_change.run reg).1.update_sensor_func_calls = reg.update_sensor_func_calls + 1) ∧
    (∀ (m : PoseProfilesManager) (ps : List Profile),
      ∃ news, (m.registerProfileParameters lib ps)._params.declared = m._params.declared ++ news ∧
        ∀ d ∈ news, ∀ reg : Parameters,
          (∃ k, d.cell = Cell.enabled_profiles k ∨ d.cell = Cell.fps_of k) ∧
            (d.on_change.run reg).1.update_sensor_func_calls = reg.update_sensor_func_calls + 1) ∧
    (∀ (s : Selector) (ps : List Profile),
      (s.registerProfileParameters lib ps).base._params.update_sensor_func_calls =
        s.base._params.update_sensor_func_calls) ∧
    (∀ (s : Selector) (out : List stream_profile),
      (s.after_addWantedProfiles lib out).base._params = s.base._params) := by
  have hen : ∀ (sips : List stream_index_pair) (d : ParamDecl),
      d ∈ sips.map (enable_decl lib "enable_%s" true) →
      (∃ k, d.cell = Cell.enabled_profiles k) ∧ d.on_change = OnChange.update_sensor_func := by
    intro sips d hd
    obtain ⟨s, _, hs⟩ := List.mem_map.mp hd
    rw [← hs]
    exact ⟨⟨s, rfl⟩, rfl⟩
  have hfp : ∀ (sips : List stream_index_pair) (d : ParamDecl),
      d ∈ sips.map (fps_decl lib "%s_fps" Double.zero) →
      (∃ k, d.cell = Cell.fps_of k) ∧ d.on_change = OnChange.update_sensor_func := by
    intro sips d hd
    obtain ⟨s, _, hs⟩ := List.mem_map.mp hd
    rw [← hs]
    exact ⟨⟨s, rfl⟩, rfl⟩
  refine ⟨?_, ?_, ?_, ?_, ?_⟩
  · intro m ps
    by_cases h : ps.filter (fun p => p.is_a ProfileKind.video_stream_profile) = []
    · exact ⟨[], by rw [video_register_none lib m ps h, List.append_nil],
        fun d hd => absurd hd (List.not_mem_nil _)⟩
    · refine ⟨_, by rw [(video_register_some lib m ps h).2.1, List.append_assoc], ?_⟩
      intro d hd reg
      rcases List.mem_append.mp hd with hd | hd
      · obtain ⟨hk, hc⟩ := hen _ d hd
        exact Or.inl ⟨hk, by rw [hc]; rfl⟩
      · simp only [List.mem_cons, List.mem_singleton, List.not_mem_nil, or_false] at hd
        rcases hd with hd | hd | hd <;> rw [hd] <;> right <;> simp [OnChange.run]
  · intro m ps
    refine ⟨_, by rw [(motion_register_spec lib m ps).2.1, List.append_assoc], ?_⟩
    intro d hd reg
    rcases List.mem_append.mp hd with hd | hd
    · obtain ⟨⟨k, hk⟩, hc⟩ := hen _ d hd
      exact ⟨⟨k, Or.inl hk⟩, by rw [hc]; rfl⟩
    · obtain ⟨⟨k, hk⟩, hc⟩ := hfp _ d hd
      exact ⟨⟨k, Or.inr hk⟩, by rw [hc]; rfl⟩
  · intro m ps
    refine ⟨_, by rw [(pose_register_spec lib m ps).2.1, List.append_assoc], ?_⟩
    intro d hd reg
    rcases List.mem_append.mp hd with hd | hd
    · obtain ⟨⟨k, hk⟩, hc⟩ := hen _ d hd
      exact ⟨⟨k, Or.inl hk⟩, by rw [hc]; rfl⟩
    · obtain ⟨⟨k, hk⟩, hc⟩ := hfp _ d hd
      exact ⟨⟨k, Or.inr hk⟩, by rw [hc]; rfl⟩
  · intro s ps
    cases s with
    | video m =>
      by_cases h : ps.filter (fun p => p.is_a ProfileKind.video_stream_profile) = []
      · simp only [Selector.registerProfileParameters, video_register_none lib m ps h]
      · exact (video_register_some lib m ps h).2.2.1
    | motion m => exact (motion_register_spec lib m ps).2.2.1
    | pose m => exact (pose_register_spec lib m ps).2.2.1
  · intro s out
    obtain ⟨r, hr, hb⟩ := selection_base lib s out
    rw [after_addWantedProfiles_eq lib s out r hr, hb]
    rfl

/-! ### The stream keys that the log is about -/

theorem isWantedProfile_log_about (lib : Externals) (s : Selector) (p : Profile) :
    ∀ e ∈ (s.isWantedProfile lib p).2.2, e.about = p.sip := by
  intro e he
  cases s with
  | video m =>
    simp only [Selector.isWantedProfile, VideoProfilesManager.isWantedProfile] at he
    split at he
    · simp at he
    · split at he
      · split at he <;> simp at he <;> rw [he]
      · simp at he
        rw [he]
  | motion m => simp [Selector.isWantedProfile] at he
  | pose m => simp [Selector.isWantedProfile] at he

theorem visit_state_log_about (lib : Externals) (st : Walk) (p : Profile) :
    ∀ e ∈ (visit_state lib st p).log,
      e ∈ st.log ∨ (e.about = p.sip ∧ st.active p = true) := by
  intro e he
  cases h : st.active p
  · rw [visit_state_inactive lib st p h] at he
    exact Or.inl he
  · rw [visit_state_active lib st p h] at he
    simp only at he
    split at he
    · rcases List.mem_append.mp he with he | he
      · rcases List.mem_append.mp he with he | he
        · exact Or.inl he
        · exact Or.inr ⟨isWantedProfile_log_about lib _ p e he, rfl⟩
      · simp only [List.mem_singleton] at he
        rw [he]
        exact Or.inr ⟨rfl, rfl⟩
    · rcases List.mem_append.mp he with he | he
      · exact Or.inl he
      · exact Or.inr ⟨isWantedProfile_log_about lib _ p e he, rfl⟩

theorem walk_log_about (lib : Externals) (self : Selector) (out : List stream_profile)
    (ps : List Profile) :
    ∀ e ∈ (walk lib self out ps).log,
      self.enabled e.about = true ∧ hasProfileOf e.about ps = true := by
  induction ps using List.reverseRecOn with
  | nil =>
    intro e he
    simp [walk] at he
  | append_singleton ps p ih =>
    rw [walk_append]
    intro e he
    rw [hasProfileOf_append]
    rcases visit_state_log_about lib _ p e he with h | ⟨h1, h2⟩
    · obtain ⟨a, b⟩ := ih e h
      exact ⟨a, by simp [b]⟩
    · rw [walk_active] at h2
      rw [h1]
      exact ⟨(Bool.and_eq_true_iff.mp h2).1, by simp⟩

theorem report_fold_log_about (lib : Externals) (fs : List (stream_index_pair × Bool))
    (st : Walk) :
    ∀ e ∈ (fs.foldl (report_state lib) st).log, e ∈ st.log ∨ (e.about, false) ∈ fs := by
  induction fs generalizing st with
  | nil =>
    intro e he
    exact Or.inl he
  | cons x rest ih =>
    intro e he
    rw [List.foldl_cons] at he
    rcases ih _ e he with h | h
    · obtain ⟨k1, b1⟩ := x
      cases b1 with
      | true =>
        simp only [report_state, if_true] at h
        exact Or.inl h
      | false =>
        simp only [report_state, Bool.false_eq_true, if_false] at h
        rcases List.mem_append.mp h with h | h
        · exact Or.inl h
        · simp only [List.mem_singleton] at h
          rw [h]
          exact Or.inr (List.mem_cons_self _ _)
    · exact Or.inr (List.mem_cons_of_mem _ h)

theorem walk_found_false (lib : Externals) (self : Selector) (out : List stream_profile)
    (ps : List Profile) (k : stream_index_pair) :
    StdMap.find (walk lib self out ps).found_sips k = some false ↔
      (self.enabled k = true ∧ hasProfileOf k ps = true ∧ firstWanted lib self k ps = none) := by
  rw [walk_found]
  by_cases hc : self.enabled k = true ∧ hasProfileOf k ps = true
  · cases hfw : firstWanted lib self k ps <;> simp [hc]
  · have hc2 : ¬ (self.enabled k = true ∧ hasProfileOf k ps = true ∧
        firstWanted lib self k ps = none) := fun h => hc ⟨h.1, h.2.1⟩
    simp [hc, hc2]

theorem selection_log_about (lib : Externals) (self : Selector) (out : List stream_profile) :
    ∃ r, addWantedProfiles lib self out = Except.ok r ∧
      ∀ e ∈ r.log, self.enabled e.about = true ∧
        hasProfileOf e.about self.base._all_profiles = true := by
  refine ⟨_, addWantedProfiles_eq lib self out, ?_⟩
  intro e he
  rcases report_fold_log_about lib _ _ e he with h | h
  · exact walk_log_about lib self out _ e h
  · have hf := (StdMap.mem_iff_find _ (walk_ordered lib self out self.base._all_profiles)
      e.about false).mp h
    have := (walk_found_false lib self out _ e.about).mp hf
    exact ⟨this.1, this.2.1⟩

/-- C16: when the flag of stream key `k` is false or absent, `addWantedProfiles`
appends no profile of key `k` and logs nothing (no warning, no trace) for `k`,
whatever the catalog holds for `k`; the same holds for a stream key that has no
catalog profile. -/
theorem C16_disabled_key_untouched (lib : Externals) (self : Selector)
    (out : List stream_profile) (k : stream_index_pair)
    (h : StdMap.find self.base._enabled_profiles k = some false ∨
      StdMap.find self.base._enabled_profiles k = none ∨
      ∀ p ∈ self.base._all_profiles, p.sip ≠ k) :
    ∃ r, addWantedProfiles lib self out = Except.ok r ∧
      r.wanted_profiles.filter (stream_profile.hasKey k) =
        out.filter (stream_profile.hasKey k) ∧
      ∀ e ∈ r.log, e.about ≠ k := by
  obtain ⟨r, hr, _, hout, _⟩ := selection_key lib self out k
  obtain ⟨r2, hr2, hlog⟩ := selection_log_about lib self out
  have hrr : r2 = r := Except.ok.inj (hr2.symm.trans hr)
  rw [hrr] at hlog
  have hoff : self.enabled k = false ∨ hasProfileOf k self.base._all_profiles = false := by
    rcases h with h | h | h
    · exact Or.inl (by simp [Selector.enabled, h])
    · exact Or.inl (by simp [Selector.enabled, h])
    · right
      cases hh : hasProfileOf k self.base._all_profiles with
      | false => rfl
      | true =>
        obtain ⟨p, hp, hpk⟩ := (hasProfileOf_iff k _).mp hh
        exact absurd hpk (h p hp)
  have hfw : self.enabled k = true → firstWanted lib self k self.base._all_profiles = none := by
    intro hen
    rcases hoff with ho | ho
    · rw [ho] at hen
      exact Bool.noConfusion hen
    · cases hf : firstWanted lib self k self.base._all_profiles with
      | none => rfl
      | some q =>
        rw [hasProfileOf_of_firstWanted lib self k _ q hf] at ho
        exact Bool.noConfusion ho
  have hc : ¬ (self.enabled k = true ∧ hasProfileOf k self.base._all_profiles = true ∧
      firstWanted lib self k self.base._all_profiles = none) := by
    intro hc
    rcases hoff with ho | ho
    · rw [ho] at hc
      exact Bool.noConfusion hc.1
    · rw [ho] at hc
      exact Bool.noConfusion hc.2.1
  refine ⟨r, hr, ?_, ?_⟩
  · rw [hout, if_neg hc, List.append_nil]
    by_cases hen : self.enabled k = true
    · rw [if_pos hen, hfw hen]
      simp
    · rw [if_neg hen, List.append_nil]
  · intro e he hek
    obtain ⟨h1, h2⟩ := hlog e he
    rw [hek] at h1 h2
    rcases hoff with ho | ho
    · rw [ho] at h1
      exact Bool.noConfusion h1
    · rw [ho] at h2
      exact Bool.noConfusion h2

/-- Witness of C16: in `video_color_disabled` the profile `color_640` matches
but the flag of Color/0 is false. -/
theorem C16_disabled_key_untouched_witness :
    video_color_disabled.wants sample_lib color_640 = true ∧
    ∃ r, addWantedProfiles sample_lib video_color_disabled [] = Except.ok r ∧
      r.wanted_profiles.filter (stream_profile.hasKey (2, 0)) =
        ([] : List stream_profile).filter (stream_profile.hasKey (2, 0)) ∧
      ∀ e ∈ r.log, e.about ≠ (2, 0) :=
  ⟨by decide,
    C16_disabled_key_untouched sample_lib video_color_disabled [] (2, 0) (Or.inl (by decide))⟩

theorem matchedFrom_cons (E : stream_index_pair → Bool) (W : Profile → Bool)
    (pre rest : List Profile) (p : Profile) :
    matchedFrom E W pre (p :: rest) =
      (if E p.sip && W p && (pre.find? (fun q => decide (q.sip = p.sip) && W q)).isNone then [p]
        else []) ++ matchedFrom E W (pre ++ [p]) rest := rfl

theorem matchedFrom_append (E : stream_index_pair → Bool) (W : Profile → Bool)
    (pre rest : List Profile) (p : Profile) :
    matchedFrom E W pre (rest ++ [p]) =
      matchedFrom E W pre rest ++
        (if E p.sip && W p &&
            ((pre ++ rest).find? (fun q => decide (q.sip = p.sip) && W q)).isNone then [p]
          else []) := by
  induction rest generalizing pre with
  | nil =>
    rw [List.nil_append, matchedFrom_cons, List.append_nil]
    simp [matchedFrom]
  | cons a rest ih =>
    rw [List.cons_append, matchedFrom_cons, matchedFrom_cons, ih (pre ++ [a])]
    simp [List.append_assoc]

theorem walk_wanted_profiles_all (lib : Externals) (self : Selector)
    (out : List stream_profile) (ps : List Profile) :
    (walk lib self out ps).wanted_profiles =
      out ++ (matchedFrom self.enabled (self.wants lib) [] ps).map some := by
  induction ps using List.reverseRecOn with
  | nil => simp [walk, matchedFrom]
  | append_singleton ps p ih =>
    rw [walk_append, visit_state_wanted_profiles, ih, matchedFrom_append, walk_active,
      (walk_view lib self out ps).2.2.1 p, List.map_append, List.append_assoc]
    congr 2
    simp only [List.nil_append]
    have hfw : firstWanted lib self p.sip ps =
        ps.find? (fun q => decide (q.sip = p.sip) && self.wants lib q) := rfl
    rw [hfw]
    by_cases hF : ps.find? (fun q => decide (q.sip = p.sip) && self.wants lib q) = none
    · cases hE : self.enabled p.sip <;> cases hW : self.wants lib p <;> simp [hF]
    · obtain ⟨q, hq⟩ := Option.ne_none_iff_exists'.mp hF
      cases hE : self.enabled p.sip <;> cases hW : self.wants lib p <;> simp [hq]

theorem report_fold_all (lib : Externals) (fs : StdMap stream_index_pair Bool)
    (hfs : StdMap.Ordered fs) (st : Walk) :
    (fs.foldl (report_state lib) st).wanted_profiles =
        st.wanted_profiles ++ (fs.filter (fun e => !e.2)).map
          (fun e => (StdMap.find st.default_profiles e.1).getD none) ∧
    warnings (fs.foldl (report_state lib) st).log =
        warnings st.log ++ (fs.filter (fun e => !e.2)).map
          (fun e => LogEntry.mk Severity.warn e.1
            (fallback_text lib st.self e.1 (StdMap.find st.default_profiles e.1))) := by
  induction fs generalizing st with
  | nil => simp
  | cons x rest ih =>
    obtain ⟨k1, b1⟩ := x
    have hrest : StdMap.Ordered rest := (List.pairwise_cons.mp hfs).2
    have hne : ∀ e ∈ rest, ¬ k1 = e.1 := by
      intro e he heq
      have hl := (List.pairwise_cons.mp hfs).1 e he
      simp only at hl
      rw [← heq, LawfulKeyLess.irrefl] at hl
      exact Bool.noConfusion hl
    rw [List.foldl_cons]
    cases b1 with
    | true =>
      have hst : report_state lib st (k1, true) = st := by simp [report_state]
      rw [hst]
      obtain ⟨h1, h2⟩ := ih hrest st
      exact ⟨by rw [h1]; simp, by rw [h2]; simp⟩
    | false =>
      obtain ⟨h1, h2⟩ := ih hrest (report_state lib st (k1, false))
      have hview : SameView lib st.self (report_state lib st (k1, false)).self := by
        simp only [report_state, Bool.false_eq_true, if_false]
        exact SameView.wanted_profile_string lib st.self k1
      have hd : ∀ e ∈ rest.filter (fun e => !e.2),
          StdMap.find (report_state lib st (k1, false)).default_profiles e.1 =
            StdMap.find st.default_profiles e.1 := by
        intro e he
        rw [report_state_defaults, if_neg (hne e (List.mem_filter.mp he).1)]
      constructor
      · rw [h1]
        simp only [report_state, Bool.false_eq_true, if_false, List.filter_cons, Bool.not_false,
          if_true, List.map_cons, List.append_assoc, List.singleton_append]
        congr 2
        apply List.map_congr_left
        intro e he
        have := hd e he
        simp only [report_state, Bool.false_eq_true, if_false] at this
        rw [this]
      · rw [h2]
        simp only [List.filter_cons, Bool.not_false, if_true, List.map_cons]
        have hw : warnings (report_state lib st (k1, false)).log =
            warnings st.log ++ [LogEntry.mk Severity.warn k1
              (fallback_text lib st.self k1 (StdMap.find st.default_profiles k1))] := by
          simp [report_state, warnings, List.filter_append]
        rw [hw, List.append_assoc, List.singleton_append]
        congr 2
        apply List.map_congr_left
        intro e he
        rw [hd e he, fallback_text_view lib _ _ hview]

theorem StdMap.ext_of_ordered {K V : Type} [DecidableEq K] [KeyLess K] [LawfulKeyLess K]
    (m1 m2 : StdMap K V) (h1 : StdMap.Ordered m1) (h2 : StdMap.Ordered m2)
    (h : ∀ k, StdMap.find m1 k = StdMap.find m2 k) : m1 = m2 := by
  induction m1 generalizing m2 with
  | nil =>
    cases m2 with
    | nil => rfl
    | cons e rest =>
      have := h e.1
      simp [StdMap.find] at this
  | cons e1 r1 ih =>
    obtain ⟨k1, v1⟩ := e1
    cases m2 with
    | nil =>
      have := h k1
      simp [StdMap.find] at this
    | cons e2 r2 =>
      obtain ⟨k2, v2⟩ := e2
      have ho1 : StdMap.Ordered r1 := (List.pairwise_cons.mp h1).2
      have ho2 : StdMap.Ordered r2 := (List.pairwise_cons.mp h2).2
      have hk : k1 = k2 := by
        by_contra hne
        have a1 : StdMap.find ((k2, v2) :: r2) k1 = some v1 := by
          rw [← h k1]
          simp [StdMap.find]
        have a2 : StdMap.find ((k1, v1) :: r1) k2 = some v2 := by
          rw [h k2]
          simp [StdMap.find]
        have b1 := (StdMap.mem_iff_find _ h2 k1 v1).mpr a1
        have b2 := (StdMap.mem_iff_find _ h1 k2 v2).mpr a2
        have c1 : (k1, v1) ∈ r2 := by
          rcases List.mem_cons.mp b1 with e | e
          · exact absurd (congrArg Prod.fst e) hne
          · exact e
        have c2 : (k2, v2) ∈ r1 := by
          rcases List.mem_cons.mp b2 with e | e
          · exact absurd (congrArg Prod.fst e).symm hne
          · exact e
        have l1 := (List.pairwise_cons.mp h2).1 _ c1
        have l2 := (List.pairwise_cons.mp h1).1 _ c2
        have l3 := LawfulKeyLess.trans _ _ _ l1 l2
        rw [LawfulKeyLess.irrefl] at l3
        exact Bool.noConfusion l3
      subst hk
      have hv : v1 = v2 := by
        have := h k1
        simpa [StdMap.find] using this
      subst hv
      have hr : r1 = r2 := by
        apply ih r2 ho1 ho2
        intro k
        by_cases hkk : k1 = k
        · subst hkk
          rw [StdMap.find_tail_of_ordered k1 v1 r1 h1, StdMap.find_tail_of_ordered k1 v1 r2 h2]
        · have := h k
          simpa [StdMap.find, hkk] using this
      rw [hr]

theorem firstWanted_view (lib : Externals) (s t : Selector) (h : SameView lib s t)
    (k : stream_index_pair) (ps : List Profile) :
    firstWanted lib t k ps = firstWanted lib s k ps := by
  unfold firstWanted
  have : t.wants lib = s.wants lib := funext h.2.2.1
  rw [this]

theorem walk_found_view (lib : Externals) (s t : Selector) (h : SameView lib s t)
    (out1 out2 : List stream_profile) (ps : List Profile) :
    (walk lib t out2 ps).found_sips = (walk lib s out1 ps).found_sips := by
  apply StdMap.ext_of_ordered _ _ (walk_ordered lib t out2 ps) (walk_ordered lib s out1 ps)
  intro k
  rw [walk_found, walk_found, h.2.1 k, firstWanted_view lib s t h]

theorem fallbackKeys_view (lib : Externals) (s t : Selector) (h : SameView lib s t) :
    fallbackKeys lib t = fallbackKeys lib s := by
  unfold fallbackKeys
  rw [h.1, walk_found_view lib s t h [] []]

theorem selection_whole (lib : Externals) (self : Selector) (out : List stream_profile) :
    ∃ r, addWantedProfiles lib self out = Except.ok r ∧
      r.wanted_profiles =
        out ++ (matchedFrom self.enabled (self.wants lib) [] self.base._all_profiles).map some ++
          (fallbackKeys lib self).map (fun k => lastDefault k self.base._all_profiles) ∧
      warnings r.log =
        (fallbackKeys lib self).map (fun k => LogEntry.mk Severity.warn k
          ("Could not find a match for profile: " ++ (self.wanted_profile_string lib k).1 ++
            " : Using Default: " ++ profile_string lib (lastDefault k self.base._all_profiles))) := by
  refine ⟨_, addWantedProfiles_eq lib self out, ?_⟩
  obtain ⟨h1, h2⟩ := report_fold_all lib _ (walk_ordered lib self out self.base._all_profiles)
    (walk lib self out self.base._all_profiles)
  have hfound := walk_found_view lib self self (SameView.refl lib self) [] out
    self.base._all_profiles
  have hkey : ∀ e ∈ (walk lib self out self.base._all_profiles).found_sips.filter
      (fun e => !e.2),
      StdMap.find (walk lib self out self.base._all_profiles).default_profiles e.1 =
        (lastDefault e.1 self.base._all_profiles).map some := by
    intro e he
    obtain ⟨hm, hb⟩ := List.mem_filter.mp he
    obtain ⟨k1, b1⟩ := e
    have hb2 : b1 = false := by simpa using hb
    rw [hb2] at hm
    have hf := (StdMap.mem_iff_find _ (walk_ordered lib self out self.base._all_profiles)
      k1 false).mp hm
    have hc := (walk_found_false lib self out _ k1).mp hf
    exact walk_defaults lib self out _ k1 hc.1 hc.2.2
  constructor
  · show (List.foldl (report_state lib) (walk lib self out self.base._all_profiles)
      (walk lib self out self.base._all_profiles).found_sips).wanted_profiles = _
    rw [h1, walk_wanted_profiles_all]
    congr 1
    unfold fallbackKeys
    rw [← hfound, List.map_map]
    apply List.map_congr_left
    intro e he
    rw [hkey e he]
    simp only [Function.comp]
    cases lastDefault e.1 self.base._all_profiles <;> rfl
  · show warnings (List.foldl (report_state lib) (walk lib self out self.base._all_profiles)
      (walk lib self out self.base._all_profiles).found_sips).log = _
    have hdebug : warnings (walk lib self out self.base._all_profiles).log = [] := by
      unfold warnings
      rw [List.filter_eq_nil_iff]
      intro e he
      simp [walk_log lib self out _ e he]
    rw [h2, hdebug, List.nil_append]
    unfold fallbackKeys
    rw [← hfound, List.map_map]
    apply List.map_congr_left
    intro e he
    rw [hkey e he, fallback_text_view lib _ _ (walk_view lib self out self.base._all_profiles)]
    simp only [Function.comp, fallback_text]
    cases lastDefault e.1 self.base._all_profiles <;> rfl

theorem extends_refl (s : Selector) : s.Extends s := by
  cases s with
  | video m => exact ⟨rfl, rfl, rfl, rfl, rfl, rfl⟩
  | motion m => exact fun _ => Or.inl rfl
  | pose m => rfl

theorem extends_trans {s t u : Selector} (h1 : s.Extends t) (h2 : t.Extends u) :
    s.Extends u := by
  cases s <;> cases t <;> cases u <;> simp only [Selector.Extends] at h1 h2 ⊢
  · obtain ⟨a1, a2, a3, a4, a5, a6⟩ := h1
    obtain ⟨b1, b2, b3, b4, b5, b6⟩ := h2
    exact ⟨b1.trans a1, b2.trans a2, b3.trans a3, b4.trans a4, b5.trans a5, b6.trans a6⟩
  · intro k
    rcases h1 k with a | ⟨a1, a2⟩
    · rcases h2 k with b | ⟨b1, b2⟩
      · exact Or.inl (b.trans a)
      · exact Or.inr ⟨a ▸ b1, b2⟩
    · rcases h2 k with b | ⟨b1, b2⟩
      · exact Or.inr ⟨a1, b.trans a2⟩
      · rw [a2] at b1
        exact Option.noConfusion b1
  · exact h2.trans h1

theorem find_index_snd_cases {V : Type} (m : StdMap stream_index_pair V)
    (k k1 : stream_index_pair) (d : V) :
    StdMap.find (StdMap.index m k d).2 k1 = StdMap.find m k1 ∨
      (StdMap.find m k1 = none ∧ StdMap.find (StdMap.index m k d).2 k1 = some d) := by
  rw [StdMap.find_index_snd]
  by_cases hk : k = k1
  · subst hk
    cases hf : StdMap.find m k with
    | none => exact Or.inr ⟨rfl, by simp⟩
    | some v => exact Or.inl (by simp)
  · exact Or.inl (by simp [hk])

theorem extends_set_enabled_profiles (s : Selector)
    (flags : StdMap stream_index_pair Bool) : s.Extends (s.set_enabled_profiles flags) := by
  cases s with
  | video m => exact ⟨rfl, rfl, rfl, rfl, rfl, rfl⟩
  | motion m => exact fun _ => Or.inl rfl
  | pose m => rfl

theorem extends_isWantedProfile (lib : Externals) (s : Selector) (p : Profile) :
    s.Extends (s.isWantedProfile lib p).2.1 := by
  cases s with
  | video m =>
    simp only [Selector.isWantedProfile, video_isWantedProfile_self]
    exact ⟨rfl, rfl, rfl, rfl, rfl, rfl⟩
  | motion m =>
    intro k
    exact find_index_snd_cases m._fps _ k Double.zero
  | pose m => rfl

theorem extends_wanted_profile_string (lib : Externals) (s : Selector)
    (k : stream_index_pair) : s.Extends (s.wanted_profile_string lib k).2 := by
  cases s with
  | video m => exact ⟨rfl, rfl, rfl, rfl, rfl, rfl⟩
  | motion m =>
    intro k1
    exact find_index_snd_cases m._fps _ k1 Double.zero
  | pose m => rfl

theorem visit_state_extends (lib : Externals) (st : Walk) (p : Profile) :
    st.self.Extends (visit_state lib st p).self := by
  cases h : st.active p
  · rw [visit_state_inactive lib st p h]
    exact extends_set_enabled_profiles _ _
  · rw [visit_state_active lib st p h]
    exact extends_trans (extends_set_enabled_profiles _ _)
      (extends_isWantedProfile lib _ p)

theorem walk_extends (lib : Externals) (self : Selector) (out : List stream_profile)
    (ps : List Profile) : self.Extends (walk lib self out ps).self := by
  induction ps using List.reverseRecOn with
  | nil => exact extends_refl self
  | append_singleton ps p ih =>
    rw [walk_append]
    exact extends_trans ih (visit_state_extends lib _ p)

theorem report_fold_extends (lib : Externals) (fs : List (stream_index_pair × Bool))
    (st : Walk) : st.self.Extends (fs.foldl (report_state lib) st).self := by
  induction fs generalizing st with
  | nil => exact extends_refl _
  | cons e rest ih =>
    rw [List.foldl_cons]
    refine extends_trans ?_ (ih _)
    unfold report_state
    split
    · exact extends_refl _
    · exact extends_wanted_profile_string lib _ _

theorem selection_extends (lib : Externals) (self : Selector) (out : List stream_profile) :
    ∃ r, addWantedProfiles lib self out = Except.ok r ∧ self.Extends r.self :=
  ⟨_, addWantedProfiles_eq lib self out,
    extends_trans (walk_extends lib self out _) (report_fold_extends lib _ _)⟩

theorem isTypeExist_of_extends (s t : Selector) (h : s.Extends t)
    (hb : t.base._enabled_profiles = s.base._enabled_profiles) :
    t.isTypeExist = s.isTypeExist := by
  cases s <;> cases t <;> simp only [Selector.Extends] at h
  · exact h.2.2.2.2.2
  · simp only [Selector.isTypeExist, ProfilesManager.isTypeExist]
    simp only [Selector.base] at hb
    rw [hb]
  · simp only [Selector.isTypeExist, ProfilesManager.isTypeExist]
    simp only [Selector.base] at hb
    rw [hb]

/-- C20: when every stream key of the catalog has an entry in
`_enabled_profiles`, `addWantedProfiles` leaves the registry, the catalog and
`_enabled_profiles` (keys and values) as they were, and so the result of
`isTypeExist`; the other members are as they were, except that the map of
desired fps of a motion selector may hold new entries, all 0.0. A second run
right after appends the same sequence and emits the same warnings. -/
theorem C20_addWantedProfiles_read_only (lib : Externals) (self : Selector)
    (out1 out2 : List stream_profile)
    (h : ∀ p ∈ self.base._all_profiles,
      (StdMap.find self.base._enabled_profiles p.sip).isSome = true) :
    ∃ r1 r2 appended, addWantedProfiles lib self out1 = Except.ok r1 ∧
      r1.self.base._params = self.base._params ∧
      r1.self.base._all_profiles = self.base._all_profiles ∧
      r1.self.base._enabled_profiles = self.base._enabled_profiles ∧
      r1.self.isTypeExist = self.isTypeExist ∧
      self.Extends r1.self ∧
      addWantedProfiles lib r1.self out2 = Except.ok r2 ∧
      r1.wanted_profiles = out1 ++ appended ∧
      r2.wanted_profiles = out2 ++ appended ∧
      warnings r2.log = warnings r1.log := by
  obtain ⟨r1, hr1, hw1, hl1⟩ := selection_whole lib self out1
  obtain ⟨ra, hra, hbase⟩ := selection_base lib self out1
  obtain ⟨rb, hrb, hext⟩ := selection_extends lib self out1
  obtain ⟨rc, hrc, hview, _⟩ := selection_key lib self out1 (0, 0)
  have ea : ra = r1 := Except.ok.inj (hra.symm.trans hr1)
  have eb : rb = r1 := Except.ok.inj (hrb.symm.trans hr1)
  have ec : rc = r1 := Except.ok.inj (hrc.symm.trans hr1)
  rw [ea] at hbase
  rw [eb] at hext
  rw [ec] at hview
  rw [touch_flags_of_present _ _ h] at hbase
  have hflags : r1.self.base._enabled_profiles = self.base._enabled_profiles := by
    rw [hbase]
    rfl
  obtain ⟨r2, hr2, hw2, hl2⟩ := selection_whole lib r1.self out2
  have hE : r1.self.enabled = self.enabled := funext hview.2.1
  have hW : r1.self.wants lib = self.wants lib := funext hview.2.2.1
  refine ⟨r1, r2,
    (matchedFrom self.enabled (self.wants lib) [] self.base._all_profiles).map some ++
      (fallbackKeys lib self).map (fun k => lastDefault k self.base._all_profiles),
    hr1, by rw [hbase]; rfl, by rw [hbase]; rfl, hflags,
    isTypeExist_of_extends self r1.self hext hflags, hext, hr2, ?_, ?_, ?_⟩
  · rw [hw1, List.append_assoc]
  · rw [hw2, hE, hW, hview.1, fallbackKeys_view lib self r1.self hview, List.append_assoc]
  · rw [hl2, hl1, hview.1, fallbackKeys_view lib self r1.self hview]
    apply List.map_congr_left
    intro k _
    rw [hview.2.2.2 k]

/-- Witness of C20: `motion_no_fps` has a flag for Gyro/0, the stream key of
its two catalog profiles. -/
theorem C20_addWantedProfiles_read_only_witness :
    ∃ r1 r2 appended, addWantedProfiles sample_lib motion_no_fps [] = Except.ok r1 ∧
      r1.self.base._params = motion_no_fps.base._params ∧
      r1.self.base._all_profiles = motion_no_fps.base._all_profiles ∧
      r1.self.base._enabled_profiles = motion_no_fps.base._enabled_profiles ∧
      r1.self.isTypeExist = motion_no_fps.isTypeExist ∧
      motion_no_fps.Extends r1.self ∧
      addWantedProfiles sample_lib r1.self [] = Except.ok r2 ∧
      r1.wanted_profiles = [] ++ appended ∧
      r2.wanted_profiles = [] ++ appended ∧
      warnings r2.log = warnings r1.log :=
  C20_addWantedProfiles_read_only sample_lib motion_no_fps [] [] (by decide)

/-! ### Calls on a default-constructed profile -/

theorem tryCatch_thrown_ok {α : Type} (a : α) (h : Thrown → Except Thrown α) :
    tryCatch (Except.ok a : Except Thrown α) h = Except.ok a := rfl

theorem tryCatch_thrown_error {α : Type} (e : Thrown) (h : Thrown → Except Thrown α) :
    tryCatch (Except.error e : Except Thrown α) h = h e := rfl

theorem profile_string_call_some (lib : Externals) (null_is : NullHandleCall) (p : Profile) :
    profile_string_call lib null_is (some p) = Except.ok (profile_string lib (some p)) := by
  unfold profile_string_call profile_string stream_profile.is_video
  cases hk : p.is_a ProfileKind.video_stream_profile <;>
    simp [hk, bind, Except.bind, pure, Except.pure]

theorem profile_string_call_false (lib : Externals) (profile : stream_profile) :
    profile_string_call lib (NullHandleCall.returns false) profile =
      Except.ok (profile_string lib profile) := by
  cases profile with
  | some p => exact profile_string_call_some lib _ p
  | none =>
    unfold profile_string_call profile_string stream_profile.is_video
    simp [bind, Except.bind, pure, Except.pure]

theorem profile_string_call_returns (lib : Externals) (b : Bool) (profile : stream_profile) :
    ∃ text, profile_string_call lib (NullHandleCall.returns b) profile = Except.ok text := by
  cases profile with
  | some p => exact ⟨_, profile_string_call_some lib _ p⟩
  | none =>
    unfold profile_string_call stream_profile.is_video
    cases b <;> simp [bind, Except.bind, pure, Except.pure]

theorem profile_string_call_throws (lib : Externals) :
    profile_string_call lib NullHandleCall.throws none = Except.error Thrown.rs2_error := by
  unfold profile_string_call stream_profile.is_video
  simp [bind, Except.bind, throw, throwThe, MonadExceptOf.throw]

theorem report_call_found (lib : Externals) (null_is : NullHandleCall) (st : Walk)
    (k : stream_index_pair) :
    addWantedProfiles_report_call lib null_is st (k, true) = Except.ok st := by
  unfold addWantedProfiles_report_call
  simp [pure, Except.pure]

theorem report_call_of_text (lib : Externals) (null_is : NullHandleCall) (st : Walk)
    (k : stream_index_pair)
    (h : profile_string_call lib null_is ((StdMap.find st.default_profiles k).getD none) =
      Except.ok (profile_string lib ((StdMap.find st.default_profiles k).getD none))) :
    addWantedProfiles_report_call lib null_is st (k, false) =
      Except.ok (report_state lib st (k, false)) := by
  unfold addWantedProfiles_report_call report_state
  simp [bind, Except.bind, pure, Except.pure, tryCatch_thrown_ok, StdMap.index_fst, fallback_text,
    StdMap.find_index_snd, h]

theorem report_call_of_default (lib : Externals) (null_is : NullHandleCall) (st : Walk)
    (k : stream_index_pair) (d : Profile)
    (h : (StdMap.find st.default_profiles k).getD none = some d) :
    addWantedProfiles_report_call lib null_is st (k, false) =
      Except.ok (report_state lib st (k, false)) := by
  apply report_call_of_text
  rw [h]
  exact profile_string_call_some lib null_is d

theorem report_call_false (lib : Externals) (st : Walk) (e : stream_index_pair × Bool) :
    addWantedProfiles_report_call lib (NullHandleCall.returns false) st e =
      Except.ok (report_state lib st e) := by
  obtain ⟨k, b⟩ := e
  cases b with
  | true =>
    rw [report_call_found]
    simp [report_state]
  | false => exact report_call_of_text lib _ st k (profile_string_call_false lib _)

theorem report_call_returns (lib : Externals) (b : Bool) (st : Walk)
    (e : stream_index_pair × Bool) :
    ∃ st1, addWantedProfiles_report_call lib (NullHandleCall.returns b) st e = Except.ok st1 := by
  obtain ⟨k, found⟩ := e
  cases found with
  | true => exact ⟨st, report_call_found lib _ st k⟩
  | false =>
    obtain ⟨text, ht⟩ := profile_string_call_returns lib b
      ((StdMap.find st.default_profiles k).getD none)
    unfold addWantedProfiles_report_call
    simp [bind, Except.bind, pure, Except.pure, tryCatch_thrown_ok, StdMap.index_fst,
      StdMap.find_index_snd, ht]

theorem report_call_throws (lib : Externals) (st : Walk) (k : stream_index_pair)
    (h : (StdMap.find st.default_profiles k).getD none = none) :
    addWantedProfiles_report_call lib NullHandleCall.throws st (k, false) =
      Except.error Thrown.rs2_error := by
  unfold addWantedProfiles_report_call
  simp [bind, Except.bind, pure, Except.pure, tryCatch_thrown_error, StdMap.index_fst,
    StdMap.find_index_snd, h, profile_string_call_throws, throw, throwThe, MonadExceptOf.throw]

theorem foldlM_ok_of_eq {ε σ α : Type} (f : σ → α → Except ε σ) (g : σ → α → σ)
    (h : ∀ s a, f s a = Except.ok (g s a)) (l : List α) (s : σ) :
    l.foldlM f s = Except.ok (l.foldl g s) := by
  induction l generalizing s with
  | nil => rfl
  | cons a rest ih =>
    simp only [List.foldlM_cons, List.foldl_cons, h, bind, Except.bind]
    exact ih (g s a)

theorem foldlM_ok_of_ok {ε σ α : Type} (f : σ → α → Except ε σ)
    (h : ∀ s a, ∃ s1, f s a = Except.ok s1) (l : List α) (s : σ) :
    ∃ s1, l.foldlM f s = Except.ok s1 := by
  induction l generalizing s with
  | nil => exact ⟨s, rfl⟩
  | cons a rest ih =>
    obtain ⟨s1, hs1⟩ := h s a
    simp only [List.foldlM_cons, hs1, bind, Except.bind]
    exact ih s1

theorem ordered_tail_keys (k1 : stream_index_pair) (b1 : Bool)
    (rest : StdMap stream_index_pair Bool) (h : StdMap.Ordered ((k1, b1) :: rest)) :
    StdMap.Ordered rest ∧ ∀ e ∈ rest, ¬ k1 = e.1 := by
  refine ⟨(List.pairwise_cons.mp h).2, ?_⟩
  intro e he heq
  have hl := (List.pairwise_cons.mp h).1 e he
  simp only at hl
  rw [← heq, LawfulKeyLess.irrefl] at hl
  exact Bool.noConfusion hl

/-- The second loop returns what `report_state` describes when every entry it
handles has a default, whatever `is<>()` does on a default-constructed profile. -/
theorem report_call_fold_ok (lib : Externals) (null_is : NullHandleCall)
    (fs : StdMap stream_index_pair Bool) (hfs : StdMap.Ordered fs) (st : Walk)
    (h : ∀ e ∈ fs, e.2 = false → (StdMap.find st.default_profiles e.1).getD none ≠ none) :
    fs.foldlM (addWantedProfiles_report_call lib null_is) st =
      Except.ok (fs.foldl (report_state lib) st) := by
  induction fs generalizing st with
  | nil => rfl
  | cons x rest ih =>
    obtain ⟨k1, b1⟩ := x
    obtain ⟨hrest, hne⟩ := ordered_tail_keys k1 b1 rest hfs
    have hstep : addWantedProfiles_report_call lib null_is st (k1, b1) =
        Except.ok (report_state lib st (k1, b1)) := by
      cases b1 with
      | true =>
        rw [report_call_found]
        simp [report_state]
      | false =>
        have h1 := h (k1, false) (List.mem_cons_self _ _) rfl
        obtain ⟨d, hd⟩ := Option.ne_none_iff_exists'.mp h1
        exact report_call_of_default lib null_is st k1 d hd
    simp only [List.foldlM_cons, List.foldl_cons, hstep, bind, Except.bind]
    apply ih hrest
    intro e he hb
    have hsame : StdMap.find (report_state lib st (k1, b1)).default_profiles e.1 =
        StdMap.find st.default_profiles e.1 := by
      cases b1 with
      | true => simp [report_state]
      | false => rw [report_state_defaults, if_neg (hne e he)]
    rw [hsame]
    exact h e (List.mem_cons_of_mem _ he) hb

/-- The second loop ends with `rs2::error` when `is<>()` throws on a
default-constructed profile and some entry it handles has no default. -/
theorem report_call_fold_error (lib : Externals)
    (fs : StdMap stream_index_pair Bool) (hfs : StdMap.Ordered fs) (st : Walk)
    (h : ∃ e ∈ fs, e.2 = false ∧ (StdMap.find st.default_profiles e.1).getD none = none) :
    fs.foldlM (addWantedProfiles_report_call lib NullHandleCall.throws) st =
      Except.error Thrown.rs2_error := by
  induction fs generalizing st with
  | nil =>
    obtain ⟨e, he, _⟩ := h
    exact absurd he (List.not_mem_nil e)
  | cons x rest ih =>
    obtain ⟨k1, b1⟩ := x
    obtain ⟨hrest, hne⟩ := ordered_tail_keys k1 b1 rest hfs
    by_cases hhead : b1 = false ∧ (StdMap.find st.default_profiles k1).getD none = none
    · obtain ⟨hb, hd⟩ := hhead
      subst hb
      simp only [List.foldlM_cons, report_call_throws lib st k1 hd, bind, Except.bind]
    · have hstep : addWantedProfiles_report_call lib NullHandleCall.throws st (k1, b1) =
          Except.ok (report_state lib st (k1, b1)) := by
        cases b1 with
        | true =>
          rw [report_call_found]
          simp [report_state]
        | false =>
          have h1 : (StdMap.find st.default_profiles k1).getD none ≠ none :=
            fun hd => hhead ⟨rfl, hd⟩
          obtain ⟨d, hd⟩ := Option.ne_none_iff_exists'.mp h1
          exact report_call_of_default lib _ st k1 d hd
      simp only [List.foldlM_cons, hstep, bind, Except.bind]
      apply ih hrest
      obtain ⟨e, he, hb, hd⟩ := h
      rcases List.mem_cons.mp he with heq | hmem
      · subst heq
        exact absurd ⟨hb, hd⟩ hhead
      · refine ⟨e, hmem, hb, ?_⟩
        have hsame : StdMap.find (report_state lib st (k1, b1)).default_profiles e.1 =
            StdMap.find st.default_profiles e.1 := by
          cases b1 with
          | true => simp [report_state]
          | false => rw [report_state_defaults, if_neg (hne e hmem)]
        rw [hsame]
        exact hd

theorem addWantedProfiles_call_eq (lib : Externals) (null_is : NullHandleCall) (self : Selector)
    (wanted_profiles : List stream_profile) :
    addWantedProfiles_call lib null_is self wanted_profiles =
      Except.bind
        ((walk lib self wanted_profiles self.base._all_profiles).found_sips.foldlM
          (addWantedProfiles_report_call lib null_is)
          (walk lib self wanted_profiles self.base._all_profiles))
        (fun st => Except.ok (Selection.mk st.self st.wanted_profiles st.log)) := by
  unfold addWantedProfiles_call
  have hvisit : ∀ (st : Walk) (p : Profile),
      (addWantedProfiles_visit lib st p).mapError Exn.toThrown =
        Except.ok (visit_state lib st p) := by
    intro st p
    rw [addWantedProfiles_visit_eq]
    rfl
  simp only [foldlM_ok_of_eq _ _ hvisit, bind, Except.bind, pure, Except.pure]
  rfl

theorem walk_entry_iff (lib : Externals) (self : Selector) (out : List stream_profile)
    (e : stream_index_pair × Bool) :
    (e ∈ (walk lib self out self.base._all_profiles).found_sips ∧ e.2 = false ∧
      (StdMap.find (walk lib self out self.base._all_profiles).default_profiles e.1).getD none =
        none) ↔
    (e.2 = false ∧ self.lacksDefault lib e.1) := by
  obtain ⟨k, b⟩ := e
  unfold Selector.lacksDefault
  constructor
  · rintro ⟨hm, hb, hd⟩
    simp only at hb hd
    subst hb
    have hf := (StdMap.mem_iff_find _ (walk_ordered lib self out self.base._all_profiles)
      k false).mp hm
    have hc := (walk_found_false lib self out _ k).mp hf
    rw [walk_defaults lib self out _ k hc.1 hc.2.2] at hd
    refine ⟨rfl, hc.1, hc.2.1, hc.2.2, ?_⟩
    cases hl : lastDefault k self.base._all_profiles with
    | none => rfl
    | some d => simp [hl] at hd
  · rintro ⟨hb, hE, hP, hW, hD⟩
    simp only at hb
    subst hb
    have hf := (walk_found_false lib self out _ k).mpr ⟨hE, hP, hW⟩
    refine ⟨(StdMap.mem_iff_find _ (walk_ordered lib self out self.base._all_profiles)
      k false).mpr hf, rfl, ?_⟩
    simp only
    rw [walk_defaults lib self out _ k hE hW, hD]
    rfl

/-- A run in which every stream key that reaches the second loop has a default
is the run of `addWantedProfiles`, whatever `is<>()` does on a
default-constructed profile. -/
theorem addWantedProfiles_call_of_defaults (lib : Externals) (null_is : NullHandleCall)
    (self : Selector) (wanted_profiles : List stream_profile)
    (h : ∀ k, ¬ self.lacksDefault lib k) :
    addWantedProfiles_call lib null_is self wanted_profiles =
      (addWantedProfiles lib self wanted_profiles).mapError Exn.toThrown := by
  rw [addWantedProfiles_call_eq, addWantedProfiles_eq,
    report_call_fold_ok lib null_is _ (walk_ordered lib self wanted_profiles _)]
  · rfl
  · intro e he hb hd
    exact h e.1 ((walk_entry_iff lib self wanted_profiles e).mp ⟨he, hb, hd⟩).2

theorem addWantedProfiles_call_false (lib : Externals) (self : Selector)
    (wanted_profiles : List stream_profile) :
    addWantedProfiles_call lib (NullHandleCall.returns false) self wanted_profiles =
      (addWantedProfiles lib self wanted_profiles).mapError Exn.toThrown := by
  rw [addWantedProfiles_call_eq, addWantedProfiles_eq,
    foldlM_ok_of_eq _ _ (report_call_false lib)]
  rfl

theorem addWantedProfiles_call_returns (lib : Externals) (b : Bool) (self : Selector)
    (wanted_profiles : List stream_profile) :
    ∃ r, addWantedProfiles_call lib (NullHandleCall.returns b) self wanted_profiles =
      Except.ok r := by
  rw [addWantedProfiles_call_eq]
  obtain ⟨st, hst⟩ := foldlM_ok_of_ok _ (report_call_returns lib b)
    (walk lib self wanted_profiles self.base._all_profiles).found_sips
    (walk lib self wanted_profiles self.base._all_profiles)
  rw [hst]
  exact ⟨_, rfl⟩

theorem addWantedProfiles_call_throws (lib : Externals) (self : Selector)
    (wanted_profiles : List stream_profile) (k : stream_index_pair)
    (h : self.lacksDefault lib k) :
    addWantedProfiles_call lib NullHandleCall.throws self wanted_profiles =
      Except.error Thrown.rs2_error := by
  rw [addWantedProfiles_call_eq,
    report_call_fold_error lib _ (walk_ordered lib self wanted_profiles _)]
  · rfl
  · obtain ⟨hm, hb, hd⟩ := (walk_entry_iff lib self wanted_profiles (k, false)).mpr ⟨rfl, h⟩
    exact ⟨(k, false), hm, hb, hd⟩

/-- C9 (evaluation at the failing input): with 848x480 wanted and a catalog
holding the single Depth/0 profile `depth_1280`, enabled, not matching and not
flagged default, the second loop of `addWantedProfiles` hands the
default-constructed profile that `default_profiles[...]` inserted to
`profile_string`, and when `is<>()` throws `rs2::error` on it the error leaves
`addWantedProfiles`: the handler takes `std::out_of_range` only. The inputs on
which this happens are those in which some enabled stream key with a catalog
profile has neither a match nor a default; on every other input, and on every
input when `is<>()` returns on a default-constructed profile, the run returns.
The `std::out_of_range` of `found_sips.at` is handled: every round of the
first loop returns. -/
theorem C9_rs2_error_leaves_addWantedProfiles :
    video_848_depth_only.base._all_profiles = [depth_1280] ∧
    video_848_depth_only.base._enabled_profiles = [((1, 0), true)] ∧
    addWantedProfiles_call sample_lib NullHandleCall.throws video_848_depth_only [] =
      Except.error Thrown.rs2_error ∧
    (∀ (lib : Externals) (self : Selector) (wanted_profiles : List stream_profile),
      addWantedProfiles_call lib NullHandleCall.throws self wanted_profiles =
          Except.error Thrown.rs2_error ↔
        ∃ k, self.lacksDefault lib k) ∧
    (∀ (lib : Externals) (self : Selector) (wanted_profiles : List stream_profile),
      (∃ r, addWantedProfiles_call lib NullHandleCall.throws self wanted_profiles =
          Except.ok r) ↔
        ∀ k, ¬ self.lacksDefault lib k) ∧
    (∀ (lib : Externals) (b : Bool) (self : Selector) (wanted_profiles : List stream_profile),
      ∃ r, addWantedProfiles_call lib (NullHandleCall.returns b) self wanted_profiles =
        Except.ok r) ∧
    (∀ (lib : Externals) (self : Selector) (wanted_profiles : List stream_profile),
      addWantedProfiles_call lib (NullHandleCall.returns false) self wanted_profiles =
        (addWantedProfiles lib self wanted_profiles).mapError Exn.toThrown) ∧
    (∀ (lib : Externals) (st : Walk) (p : Profile),
      ∃ st1, addWantedProfiles_visit lib st p = Except.ok st1) ∧
    (∀ k : stream_index_pair,
      StdMap.lookup_at ([] : StdMap stream_index_pair Bool) k = Except.error Exn.out_of_range) := by
  have hok : ∀ (lib : Externals) (self : Selector) (wanted_profiles : List stream_profile),
      (∀ k, ¬ self.lacksDefault lib k) →
      ∃ r, addWantedProfiles_call lib NullHandleCall.throws self wanted_profiles =
        Except.ok r := by
    intro lib self wanted_profiles h
    rw [addWantedProfiles_call_of_defaults lib _ self wanted_profiles h, addWantedProfiles_eq]
    exact ⟨_, rfl⟩
  refine ⟨by decide, by decide, ?_, ?_, ?_, ?_, ?_, ?_, fun _ => rfl⟩
  · apply addWantedProfiles_call_throws sample_lib video_848_depth_only [] (1, 0)
    unfold Selector.lacksDefault
    decide
  · intro lib self wanted_profiles
    constructor
    · intro herr
      by_contra hno
      obtain ⟨r, hr⟩ := hok lib self wanted_profiles (fun k hk => hno ⟨k, hk⟩)
      rw [hr] at herr
      exact Except.noConfusion herr
    · rintro ⟨k, hk⟩
      exact addWantedProfiles_call_throws lib self wanted_profiles k hk
  · intro lib self wanted_profiles
    constructor
    · rintro ⟨r, hr⟩ k hk
      rw [addWantedProfiles_call_throws lib self wanted_profiles k hk] at hr
      exact Except.noConfusion hr
    · exact hok lib self wanted_profiles
  · intro lib b self wanted_profiles
    exact addWantedProfiles_call_returns lib b self wanted_profiles
  · intro lib self wanted_profiles
    exact addWantedProfiles_call_false lib self wanted_profiles
  · intro lib st p
    exact ⟨_, addWantedProfiles_visit_eq lib st p⟩

end realsense2_camera
